import Mathlib

/-!
# OCaml bindings for the Open Dynamics Engine (`ode_c.c`)

A shallow embedding of the marshaling layer of `ode_c.c`: the opaque handle
wrapper (custom blocks holding a foreign pointer), the numeric array
transcoder, the enum tables and the contact-mode flag decoder, followed by
theorems about them.

Conventions of the embedding.

* A foreign pointer is its address, a natural number; the null pointer is `0`.
* The OCaml heap of custom blocks is a list; a `value` that points to a custom
  block is the position of the block in that list.  Allocation appends.
* A C function that writes through a pointer takes the old contents and
  returns the new contents.
* Calls into the foreign library are recorded, in program order, in a trace.
-/

namespace OCamlODE

/-! ## Opaque handle wrapper -/

/-- The members of ODE's `dMass`: the scalar `mass`, the centre `c` (a
`dVector4`) and the inertia `I` (a `dMatrix3`), each `dReal` by its bits. -/
structure dMass where
  mass : Nat
  c : List Nat
  I : List Nat
deriving DecidableEq, Repr

/-- The data area of a custom block: `struct voidptr { void *data; }`,
`struct voidptr2 { void *data; void *data2; }`, which both start with `data`,
or the `dMass` of a block made by `copy_dMass`. -/
inductive Custom where
  | voidptr (data : Nat)
  | voidptr2 (data data2 : Nat)
  | dMass (m : dMass)
deriving DecidableEq, Repr

/-- The member `->data`, at offset 0 of either struct; on a `dMass` block, which
no unwrap macro is applied to in the source, the word at offset 0. -/
def Custom.data : Custom → Nat
  | Custom.voidptr d => d
  | Custom.voidptr2 d _ => d
  | Custom.dMass m => m.mass

/-- The assignment `->data = d`. -/
def Custom.set_data : Custom → Nat → Custom
  | Custom.voidptr _, d => Custom.voidptr d
  | Custom.voidptr2 _ d2, d => Custom.voidptr2 d d2
  | Custom.dMass m, d => Custom.dMass { m with mass := d }

/-- The custom blocks allocated so far, oldest first. -/
abbrev Heap := List Custom

/-- A `value` that points to a custom block: the position of the block. -/
abbrev value := Nat

/-- Function `Val_voidptr (ptr)`: allocate a custom block with `custom_ops` and store
`ptr` in its `data`.  Returns the heap and the new `value`. -/
def Val_voidptr (heap : Heap) (ptr : Nat) : Heap × value :=
  (heap ++ [Custom.voidptr ptr], heap.length)

/-- Function `_Voidptr_val (rv)`: read `->data` of the block `rv` points to.  `none`
when `rv` points to no block (the read is undefined in C). -/
def _Voidptr_val (heap : Heap) (rv : value) : Option Nat :=
  (heap[rv]?).map Custom.data

/-- Function `destroy_voidptr (rv)`: `((struct voidptr *) Data_custom_val (rv))->data = 0`. -/
def destroy_voidptr (heap : Heap) (rv : value) : Heap :=
  match heap[rv]? with
  | some c => heap.set rv (c.set_data 0)
  | none => heap

/-- Function `Val_voidptr2 (ptr, ptr2)`: allocate a custom block with `custom_ops2`. -/
def Val_voidptr2 (heap : Heap) (ptr ptr2 : Nat) : Heap × value :=
  (heap ++ [Custom.voidptr2 ptr ptr2], heap.length)

/-- What `set_data2` leaves: the heap, the addresses passed to `free`, and the
word stored in the memory after the block, when the store went there. -/
structure Data2Result where
  heap : Heap
  freed : List Nat
  stored_after : Option Nat
deriving DecidableEq, Repr

/-- Function `set_data2 (rv, data2)`.  The block of `rv` is taken as a
`struct voidptr2`, whatever it was allocated as: the member `data2` is read,
passed to `free` when it is not `NULL`, and overwritten with the new pointer.
In a block allocated by `Val_voidptr2` the member is the second word of the
data area.  In a block allocated by `Val_voidptr`, whose data area is the one
word `data`, it is the word of memory that follows the block: `after` is what
that word holds, and the store goes there, outside the block.  `none` when
`rv` points to no block of either kind. -/
def set_data2 (heap : Heap) (rv : value) (data2 after : Nat) : Option Data2Result :=
  match heap[rv]? with
  | some (Custom.voidptr2 d old) =>
      some { heap := heap.set rv (Custom.voidptr2 d data2),
             freed := if old ≠ 0 then [old] else [],
             stored_after := none }
  | some (Custom.voidptr _) =>
      some { heap := heap,
             freed := if after ≠ 0 then [after] else [],
             stored_after := some data2 }
  | _ => none

/-- Macro `Voidptr_val (type, rv)`: the pointer cast `(type) _Voidptr_val (rv)`. -/
def Voidptr_val (heap : Heap) (rv : value) : Option Nat := _Voidptr_val heap rv

/-- Macro `Val_dWorldID (id)`. -/
def Val_dWorldID (heap : Heap) (id : Nat) : Heap × value := Val_voidptr heap id
/-- Macro `dWorldID_val (idv)`. -/
def dWorldID_val (heap : Heap) (idv : value) : Option Nat := Voidptr_val heap idv
/-- Macro `Val_dBodyID (id)`. -/
def Val_dBodyID (heap : Heap) (id : Nat) : Heap × value := Val_voidptr heap id
/-- Macro `dBodyID_val (idv)`. -/
def dBodyID_val (heap : Heap) (idv : value) : Option Nat := Voidptr_val heap idv
/-- Macro `Val_dSpaceID (id)`. -/
def Val_dSpaceID (heap : Heap) (id : Nat) : Heap × value := Val_voidptr heap id
/-- Macro `dSpaceID_val (idv)`. -/
def dSpaceID_val (heap : Heap) (idv : value) : Option Nat := Voidptr_val heap idv
/-- Macro `Val_dGeomID (id)`. -/
def Val_dGeomID (heap : Heap) (id : Nat) : Heap × value := Val_voidptr heap id
/-- Macro `dGeomID_val (idv)`. -/
def dGeomID_val (heap : Heap) (idv : value) : Option Nat := Voidptr_val heap idv
/-- Macro `Val_dJointGroupID (id)`. -/
def Val_dJointGroupID (heap : Heap) (id : Nat) : Heap × value := Val_voidptr heap id
/-- Macro `dJointGroupID_val (idv)`. -/
def dJointGroupID_val (heap : Heap) (idv : value) : Option Nat := Voidptr_val heap idv
/-- Macro `Val_dJointID (id)`. -/
def Val_dJointID (heap : Heap) (id : Nat) : Heap × value := Val_voidptr heap id
/-- Macro `dJointID_val (idv)`. -/
def dJointID_val (heap : Heap) (idv : value) : Option Nat := Voidptr_val heap idv
/-- Macro `Val_dTriMeshDataID (id)`. -/
def Val_dTriMeshDataID (heap : Heap) (id : Nat) : Heap × value := Val_voidptr heap id
/-- Macro `dTriMeshDataID_val (idv)`. -/
def dTriMeshDataID_val (heap : Heap) (idv : value) : Option Nat := Voidptr_val heap idv
/-- Macro `Val_dTriMeshDataID_2 (id, data)`, used by `ocamlode_dGeomTriMeshDataCreate`. -/
def Val_dTriMeshDataID_2 (heap : Heap) (id data : Nat) : Heap × value :=
  Val_voidptr2 heap id data

/-- The data model of the C compiler: ILP32 (32-bit pointers, `long`, `value`)
or LP64 (64-bit).  `int` has 32 bits in both. -/
inductive Arch where
  | ILP32
  | LP64
deriving DecidableEq, Repr

/-- Width in bits of `void *`, `ptrdiff_t`, `long` and `value`. -/
def Arch.bits : Arch → Nat
  | Arch.ILP32 => 32
  | Arch.LP64 => 64

/-- The signed `w`-bit integer with the same low `w` bits as `n` (two's
complement conversion). -/
def wrap_signed (w : Nat) (n : Int) : Int :=
  (n + 2 ^ (w - 1)) % 2 ^ w - 2 ^ (w - 1)

/-- Function `compare_voidptrs (v1, v2)`: `data1 - data2`, a `ptrdiff_t`, returned as
`int`. -/
def compare_voidptrs (A : Arch) (heap : Heap) (v1 v2 : value) : Option Int :=
  match _Voidptr_val heap v1, _Voidptr_val heap v2 with
  | some data1, some data2 =>
      some (wrap_signed 32 (wrap_signed A.bits ((data1 : Int) - (data2 : Int))))
  | _, _ => none

/-- Two live handles on LP64 whose addresses are 4 GiB apart. -/
def farHeap : Heap := [Custom.voidptr 0x7f0100000000, Custom.voidptr 0x7f0000000000]

/-! ## Faults -/

/-- The ways in which the binding stops instead of returning. -/
inductive Fault where
  | assertion
  | abort
  | failwith (msg : String)
  | invalid_argument (msg : String)
  | segv
deriving DecidableEq, Repr

/-- The result of a C function that writes through an output pointer: the
fault that stopped it, if any, and the contents of the output at that point
or on return. -/
structure Run (σ : Type) where
  fault : Option Fault
  out : σ
deriving DecidableEq, Repr

/-! ## Numeric array transcoder

An OCaml float is an IEEE 754 binary64 number; a float array is the list of
its elements, each given by its 64 bits.  A `dReal` is a binary32 number when
ODE is built with `dSINGLE` and a binary64 number when built with `dDOUBLE`;
it is given by its bits as well. -/

/-- The precision ODE was built with.  `ode_c.c` defines `MEM_SHARE` when
`dDOUBLE` is defined and `MEM_CPY` otherwise. -/
inductive Precision where
  | dSINGLE
  | dDOUBLE
deriving DecidableEq, Repr

/-- Condition `defined(MEM_SHARE)`. -/
def MEM_SHARE : Precision → Bool
  | Precision.dSINGLE => false
  | Precision.dDOUBLE => true

/-- Condition `defined(MEM_CPY)`. -/
def MEM_CPY (P : Precision) : Bool := !MEM_SHARE P

/-- Value of `m / 2^shift` rounded to the nearest integer, ties to even. -/
def round_shift (m shift : Nat) : Nat :=
  let q := m / 2 ^ shift
  let r := m % 2 ^ shift
  if 2 * r > 2 ^ shift then q + 1
  else if 2 * r = 2 ^ shift then q + q % 2
  else q

/-- The C conversion `(float) x` of a `double`, on the bits, in the default
rounding mode (to nearest, ties to even). -/
def double_to_float (b : Nat) : Nat :=
  let s := (b / 2 ^ 63 % 2) * 2 ^ 31
  let e := b / 2 ^ 52 % 2 ^ 11
  let f := b % 2 ^ 52
  if e = 2047 then
    if f = 0 then s + 0x7F800000 else s + 0x7F800000 + (f / 2 ^ 29 ||| 0x400000)
  else
    let m := if e = 0 then f else 2 ^ 52 + f
    let E := if e = 0 then 1 else e
    if E > 896 then
      let bits := (E - 897) * 2 ^ 23 + round_shift m 29
      if bits ≥ 0x7F800000 then s + 0x7F800000 else s + bits
    else
      s + round_shift m (926 - E)

/-- The position of the highest set bit of `f`, for `0 < f < 2^23`. -/
def top_bit (f : Nat) : Nat :=
  ((List.range 23).filter (fun i => 2 ^ i ≤ f)).length - 1

/-- The C conversion `(double) x` of a `float`, on the bits (exact). -/
def float_to_double (b : Nat) : Nat :=
  let s := (b / 2 ^ 31 % 2) * 2 ^ 63
  let e := b / 2 ^ 23 % 2 ^ 8
  let f := b % 2 ^ 23
  if e = 255 then
    if f = 0 then s + 0x7FF * 2 ^ 52 else s + 0x7FF * 2 ^ 52 + (f ||| 0x400000) * 2 ^ 29
  else if e = 0 then
    if f = 0 then s
    else s + (top_bit f + 874) * 2 ^ 52 + (f - 2 ^ top_bit f) * 2 ^ (52 - top_bit f)
  else s + (e + 896) * 2 ^ 52 + f * 2 ^ 29

/-- The conversion of a `double` to `dReal` (the assignment `r[i] = Double_field (rv, i)`). -/
def to_dReal : Precision → Nat → Nat
  | Precision.dSINGLE, x => double_to_float x
  | Precision.dDOUBLE, x => x

/-- The conversion of a `dReal` to `double` (the argument of `Store_double_field`). -/
def of_dReal : Precision → Nat → Nat
  | Precision.dSINGLE, x => float_to_double x
  | Precision.dDOUBLE, x => x

/-- Line `#define TYPE_CHECKING 1`. -/
def TYPE_CHECKING : Nat := 1

/-- Macro `Double_wosize`: `sizeof (double) / sizeof (value)`. -/
def Double_wosize (A : Arch) : Nat := 8 / (A.bits / 8)

/-- Macro `Wosize_val` of a float array: its size in words. -/
def Wosize_val_floatarray (A : Arch) (vv : List Nat) : Nat := vv.length * Double_wosize A

/-- Macro `Double_field (vv, i)`: element `i` of the float array `vv`.  The macro
tests no bound: at an index past the end it reads the memory that follows
the block, where `past k` is the `double` found `k` elements after the last
element of `vv`. -/
def Double_field (past : Nat → Nat) (vv : List Nat) (i : Nat) : Nat :=
  match vv[i]? with
  | some x => x
  | none => past (i - vv.length)

/-- What follows a float array at a read that stays inside the array: it is
never looked at. -/
def unread : Nat → Nat := fun _ => 0

/-- Function `memcpy (dst, src, n * sizeof (dReal))` between buffers of the same
element type: the first `n` elements of `dst` become the `n` elements found at
the pointer `src`, of which `src i` is element `i`. -/
def memcpy (dst : List Nat) (src : Nat → Nat) (n : Nat) : List Nat :=
  (List.range n).foldl (fun d i => d.set i (src i)) dst

/-- Function `copy_dReal_array (a, n)`: a fresh float array of `n` elements.  With
`MEM_CPY` each element is stored converted to `double`; with `MEM_SHARE` the
`n` elements are copied by `memcpy`.  The C array `a` is a `dVector3`,
`dQuaternion` or `dMatrix3` of the library in every call, passed with its own
size `n`; the list holds its elements. -/
def copy_dReal_array (P : Precision) (a : List Nat) (n : Nat) : List Nat :=
  let av := List.replicate n 0
  if MEM_CPY P then
    (List.range n).foldl (fun av i => av.set i (of_dReal P (a.getD i 0))) av
  else
    memcpy av (fun i => a.getD i 0) n

/-- Macro `copy_dVector4 (v)`. -/
def copy_dVector4 (P : Precision) (v : List Nat) : List Nat := copy_dReal_array P v 4
/-- Macro `copy_dVector3 (v)`. -/
def copy_dVector3 (P : Precision) (v : List Nat) : List Nat := copy_dReal_array P v 4
/-- Macro `copy_dMatrix3 (m)`. -/
def copy_dMatrix3 (P : Precision) (m : List Nat) : List Nat := copy_dReal_array P m (4 * 3)
/-- Macro `copy_dQuaternion (v)`. -/
def copy_dQuaternion (P : Precision) (v : List Nat) : List Nat := copy_dReal_array P v 4

/-- Macro `dMatrix3_val (rv, r)`: with `MEM_CPY` the loop `r[i] = Double_field (rv, i)`
for `i < 12`, with `MEM_SHARE` a `memcpy` of `sizeof (dMatrix3)`, twelve
elements read at `rv`.  No size of `rv` is tested, so `past` gives the memory
after the float array.  Takes the old contents of `r` and returns the new. -/
def dMatrix3_val (P : Precision) (past : Nat → Nat) (rv : List Nat) (r : List Nat) : List Nat :=
  if MEM_CPY P then
    (List.range 12).foldl (fun r i => r.set i (to_dReal P (Double_field past rv i))) r
  else
    memcpy r (Double_field past rv) 12

/-- Function `dVector3_val (vv, v)`: the size assertion, then with `MEM_CPY` the loop
`v[i] = Double_field (vv, i)` for `i < 4`, with `MEM_SHARE` a `memcpy` of 4
elements.  Past the assertion `vv` has 4 elements, so no read leaves the
array.  Takes the old contents of `v`. -/
def dVector3_val (P : Precision) (A : Arch) (vv : List Nat) (v : List Nat) : Run (List Nat) :=
  if TYPE_CHECKING ≠ 0 ∧ ¬ (Wosize_val_floatarray A vv = 4 * Double_wosize A) then
    { fault := some Fault.assertion, out := v }
  else if MEM_CPY P then
    { fault := none,
      out := (List.range 4).foldl (fun v i => v.set i (to_dReal P (Double_field unread vv i))) v }
  else
    { fault := none, out := memcpy v (Double_field unread vv) 4 }

/-- The first-generation `dVector3_val (vv, v)` of the older `ode_c.c`: the
size assertion, then the loop `v[i] = Double_field (vv, i)` for `i < 4`.  Past
the assertion `vv` has 4 elements, so no read leaves the array. -/
def Gen1.dVector3_val (P : Precision) (A : Arch) (vv : List Nat) (v : List Nat) :
    Run (List Nat) :=
  if TYPE_CHECKING ≠ 0 ∧ ¬ (Wosize_val_floatarray A vv = 4 * Double_wosize A) then
    { fault := some Fault.assertion, out := v }
  else
    { fault := none,
      out := (List.range 4).foldl (fun v i => v.set i (to_dReal P (Double_field unread vv i))) v }

/-- Macro `dVector4_val`, defined as `dVector3_val`. -/
def dVector4_val := dVector3_val
/-- Macro `dQuaternion_val`, defined as `dVector3_val`. -/
def dQuaternion_val := dVector3_val

/-- The float 0.1, `0x3FB999999999999A`, followed by three zeros. -/
def tenthVector : List Nat := [0x3FB999999999999A, 0, 0, 0]

/-- The floats 1.0, -2.5, 0.0 and 0.5, all exact in single precision. -/
def exactVector : List Nat :=
  [0x3FF0000000000000, 0xC004000000000000, 0, 0x3FE0000000000000]

/-- The 3x4 identity rotation matrix. -/
def identityMatrix : List Nat :=
  [0x3FF0000000000000, 0, 0, 0, 0, 0x3FF0000000000000, 0, 0, 0, 0, 0x3FF0000000000000, 0]

/-! ## Enum tables -/

/-- Indexing `table[i]` on a static array of `int`, which C does not bounds-check.
Inside the array it is the entry; outside it is the word of memory at that
offset from the start of the array, given by `mem` (`none` where the memory
is not readable, which stops the process with a segmentation fault). -/
def index_static (table : List Int) (mem : Int → Option Int) (i : Int) : Except Fault Int :=
  if 0 ≤ i ∧ i < table.length then Except.ok (table.getD i.toNat 0)
  else
    match mem i with
    | some w => Except.ok w
    | none => Except.error Fault.segv

/-- The names of the joint parameter constants of ODE that `joint_param_table` lists. -/
inductive JointParam where
  | dParamLoStop
  | dParamHiStop
  | dParamVel
  | dParamFMax
  | dParamFudgeFactor
  | dParamBounce
  | dParamCFM
  | dParamStopERP
  | dParamStopCFM
  | dParamSuspensionERP
  | dParamSuspensionCFM
  | dParamERP
  | dParamLoStop2
  | dParamHiStop2
  | dParamVel2
  | dParamFMax2
  | dParamFudgeFactor2
  | dParamBounce2
  | dParamCFM2
  | dParamStopERP2
  | dParamStopCFM2
  | dParamSuspensionERP2
  | dParamSuspensionCFM2
  | dParamERP2
  | dParamLoStop3
  | dParamHiStop3
  | dParamVel3
  | dParamFMax3
  | dParamFudgeFactor3
  | dParamBounce3
  | dParamCFM3
  | dParamStopERP3
  | dParamStopCFM3
  | dParamSuspensionERP3
  | dParamSuspensionCFM3
  | dParamERP3
  | dParamGroup
deriving DecidableEq, Repr

/-- Table `joint_param_table[]`, as the list of the names in the source. -/
def joint_param_table : List JointParam :=
  [JointParam.dParamLoStop, JointParam.dParamHiStop, JointParam.dParamVel,
   JointParam.dParamFMax, JointParam.dParamFudgeFactor, JointParam.dParamBounce,
   JointParam.dParamCFM, JointParam.dParamStopERP, JointParam.dParamStopCFM,
   JointParam.dParamSuspensionERP, JointParam.dParamSuspensionCFM, JointParam.dParamERP,
   JointParam.dParamLoStop2, JointParam.dParamHiStop2, JointParam.dParamVel2,
   JointParam.dParamFMax2, JointParam.dParamFudgeFactor2, JointParam.dParamBounce2,
   JointParam.dParamCFM2, JointParam.dParamStopERP2, JointParam.dParamStopCFM2,
   JointParam.dParamSuspensionERP2, JointParam.dParamSuspensionCFM2, JointParam.dParamERP2,
   JointParam.dParamLoStop3, JointParam.dParamHiStop3, JointParam.dParamVel3,
   JointParam.dParamFMax3, JointParam.dParamFudgeFactor3, JointParam.dParamBounce3,
   JointParam.dParamCFM3, JointParam.dParamStopERP3, JointParam.dParamStopCFM3,
   JointParam.dParamSuspensionERP3, JointParam.dParamSuspensionCFM3, JointParam.dParamERP3,
   JointParam.dParamGroup]

/-- Function `dJointParam_val (paramv)`: `joint_param_table[Long_val(paramv)]`.  `K` gives
the values of ODE's constants and `i` is `Long_val (paramv)`. -/
def dJointParam_val (K : JointParam → Int) (mem : Int → Option Int) (i : Int) :
    Except Fault Int :=
  index_static (joint_param_table.map K) mem i

/-- Constant `dMaxUserClasses`, from the header excerpt. -/
def dMaxUserClasses : Int := 4
/-- Constant `dSphereClass`, from the enum of the header excerpt. -/
def dSphereClass : Int := 0
/-- Constant `dBoxClass`, from the enum of the header excerpt. -/
def dBoxClass : Int := dSphereClass + 1
/-- Constant `dCapsuleClass`, from the enum of the header excerpt. -/
def dCapsuleClass : Int := dBoxClass + 1
/-- Constant `dCylinderClass`, from the enum of the header excerpt. -/
def dCylinderClass : Int := dCapsuleClass + 1
/-- Constant `dPlaneClass`, from the enum of the header excerpt. -/
def dPlaneClass : Int := dCylinderClass + 1
/-- Constant `dRayClass`, from the enum of the header excerpt. -/
def dRayClass : Int := dPlaneClass + 1
/-- Constant `dConvexClass`, from the enum of the header excerpt. -/
def dConvexClass : Int := dRayClass + 1
/-- Constant `dGeomTransformClass`, from the enum of the header excerpt. -/
def dGeomTransformClass : Int := dConvexClass + 1
/-- Constant `dTriMeshClass`, from the enum of the header excerpt. -/
def dTriMeshClass : Int := dGeomTransformClass + 1
/-- Constant `dHeightfieldClass`, from the enum of the header excerpt. -/
def dHeightfieldClass : Int := dTriMeshClass + 1
/-- Constant `dFirstSpaceClass`, from the enum of the header excerpt. -/
def dFirstSpaceClass : Int := dHeightfieldClass + 1
/-- Constant `dSimpleSpaceClass`, from the enum of the header excerpt. -/
def dSimpleSpaceClass : Int := dFirstSpaceClass
/-- Constant `dHashSpaceClass`, from the enum of the header excerpt. -/
def dHashSpaceClass : Int := dSimpleSpaceClass + 1
/-- Constant `dQuadTreeSpaceClass`, from the enum of the header excerpt. -/
def dQuadTreeSpaceClass : Int := dHashSpaceClass + 1
/-- Constant `dLastSpaceClass`, from the enum of the header excerpt. -/
def dLastSpaceClass : Int := dQuadTreeSpaceClass
/-- Constant `dFirstUserClass`, from the enum of the header excerpt. -/
def dFirstUserClass : Int := dLastSpaceClass + 1
/-- Constant `dLastUserClass`, from the enum of the header excerpt. -/
def dLastUserClass : Int := dFirstUserClass + dMaxUserClasses - 1
/-- Constant `dGeomNumClasses`, from the enum of the header excerpt. -/
def dGeomNumClasses : Int := dLastUserClass + 1

/-- Table `geom_class_table[]`. -/
def geom_class_table : List Int :=
  [dSphereClass, dBoxClass, dCapsuleClass, dCylinderClass,
   dPlaneClass, dRayClass, dConvexClass, dGeomTransformClass,
   dTriMeshClass, dHeightfieldClass, dSimpleSpaceClass, dHashSpaceClass,
   dQuadTreeSpaceClass, dFirstUserClass, dLastUserClass]

/-- Macro `dGeomClass_val (ret, geomclassv)`: `ret = geom_class_table[Long_val(geomclassv)]`. -/
def dGeomClass_val (mem : Int → Option Int) (i : Int) : Except Fault Int :=
  index_static geom_class_table mem i

/-- Macro `Val_dGeomClass (ret, geom_class)`: the `switch`; the result is the `n` of
`Val_int (n)`. -/
def Val_dGeomClass (geom_class : Int) : Except Fault Int :=
  if geom_class = dSphereClass then Except.ok 0
  else if geom_class = dBoxClass then Except.ok 1
  else if geom_class = dCapsuleClass then Except.ok 2
  else if geom_class = dCylinderClass then Except.ok 3
  else if geom_class = dPlaneClass then Except.ok 4
  else if geom_class = dRayClass then Except.ok 5
  else if geom_class = dConvexClass then Except.ok 6
  else if geom_class = dGeomTransformClass then Except.ok 7
  else if geom_class = dTriMeshClass then Except.ok 8
  else if geom_class = dHeightfieldClass then Except.ok 9
  else if geom_class = dSimpleSpaceClass then Except.ok 10
  else if geom_class = dHashSpaceClass then Except.ok 11
  else if geom_class = dQuadTreeSpaceClass then Except.ok 12
  else if geom_class = dFirstUserClass then Except.ok 13
  else if geom_class = dLastUserClass then Except.ok 14
  else Except.error (Fault.failwith "unhandled geom class")

/-- The names of the joint type constants of ODE that `joint_type_table` lists. -/
inductive JointType where
  | dJointTypeNone
  | dJointTypeBall
  | dJointTypeHinge
  | dJointTypeSlider
  | dJointTypeContact
  | dJointTypeUniversal
  | dJointTypeHinge2
  | dJointTypeFixed
  | dJointTypeNull
  | dJointTypeAMotor
  | dJointTypeLMotor
  | dJointTypePlane2D
  | dJointTypePR
deriving DecidableEq, Repr

/-- Table `joint_type_table[]`, as the list of the names in the source. -/
def joint_type_table : List JointType :=
  [JointType.dJointTypeNone, JointType.dJointTypeBall, JointType.dJointTypeHinge,
   JointType.dJointTypeSlider, JointType.dJointTypeContact, JointType.dJointTypeUniversal,
   JointType.dJointTypeHinge2, JointType.dJointTypeFixed, JointType.dJointTypeNull,
   JointType.dJointTypeAMotor, JointType.dJointTypeLMotor, JointType.dJointTypePlane2D,
   JointType.dJointTypePR]

/-- Macro `joint_type_val (joint_type_i)`: `joint_type_table[Long_val(joint_type_i)]`. -/
def joint_type_val (K : JointType → Int) (mem : Int → Option Int) (i : Int) :
    Except Fault Int :=
  index_static (joint_type_table.map K) mem i

/-- The values of the joint parameter constants in ODE 0.11 (`common.h`): the
twelve names of a group count up from 0, `0x100` and `0x200`, and `dParamGroup`
is `0x100`. -/
def ode_joint_param (p : JointParam) : Int :=
  if p = JointParam.dParamGroup then 0x100
  else ((p.toCtorIdx / 12) * 0x100 + p.toCtorIdx % 12 : Nat)

/-- Modelled from the spec: the values of the joint type constants, which the
header `ode/common.h` of the foreign library defines and the source tree does
not hold.  The spec has the invariant that the host-side ordinal and the
table index stay in lock-step with the foreign library's enum ordering, and
the source says above `Val_joint_type` that the joint types are given in the
same order in OCaml as in the ode header: the enum counts up from 0 in the
order of `joint_type_table`, as it does in ODE 0.11. -/
def ode_joint_type (t : JointType) : Int := (t.toCtorIdx : Nat)

/-- Readable memory around the tables in which every word holds 12345. -/
def readable_mem : Int → Option Int := fun _ => some 12345

/-! ## Contact mode flags -/

/-- The twelve polymorphic variant tags that `dContact_val` recognises. -/
inductive ContactFlag where
  | dContactMu2
  | dContactFDir1
  | dContactBounce
  | dContactSoftERP
  | dContactSoftCFM
  | dContactMotion1
  | dContactMotion2
  | dContactSlip1
  | dContactSlip2
  | dContactApprox1_1
  | dContactApprox1_2
  | dContactApprox1
deriving DecidableEq, Repr

/-- What `dContact_val` takes from outside `ode_c.c`: for each tag the `value`
that `caml_hash_variant` returns for its name, and the bit value of the ODE
constant of that name (a non-negative `int`). -/
structure ContactConsts where
  caml_hash_variant : ContactFlag → Int
  bit : ContactFlag → Nat

/-- The chain `if (m == hashdContactMu2) contact->surface.mode |= dContactMu2;
else if ... else abort ();` for one element: `m` is the element as compared,
`hash` the twelve static variables, `mode` the old `surface.mode`. -/
def mode_chain (K : ContactConsts) (hash : ContactFlag → Int) (mode : Nat) (m : Int) :
    Except Fault Nat :=
  if m = hash ContactFlag.dContactMu2 then
    Except.ok (mode ||| K.bit ContactFlag.dContactMu2)
  else if m = hash ContactFlag.dContactFDir1 then
    Except.ok (mode ||| K.bit ContactFlag.dContactFDir1)
  else if m = hash ContactFlag.dContactBounce then
    Except.ok (mode ||| K.bit ContactFlag.dContactBounce)
  else if m = hash ContactFlag.dContactSoftERP then
    Except.ok (mode ||| K.bit ContactFlag.dContactSoftERP)
  else if m = hash ContactFlag.dContactSoftCFM then
    Except.ok (mode ||| K.bit ContactFlag.dContactSoftCFM)
  else if m = hash ContactFlag.dContactMotion1 then
    Except.ok (mode ||| K.bit ContactFlag.dContactMotion1)
  else if m = hash ContactFlag.dContactMotion2 then
    Except.ok (mode ||| K.bit ContactFlag.dContactMotion2)
  else if m = hash ContactFlag.dContactSlip1 then
    Except.ok (mode ||| K.bit ContactFlag.dContactSlip1)
  else if m = hash ContactFlag.dContactSlip2 then
    Except.ok (mode ||| K.bit ContactFlag.dContactSlip2)
  else if m = hash ContactFlag.dContactApprox1_1 then
    Except.ok (mode ||| K.bit ContactFlag.dContactApprox1_1)
  else if m = hash ContactFlag.dContactApprox1_2 then
    Except.ok (mode ||| K.bit ContactFlag.dContactApprox1_2)
  else if m = hash ContactFlag.dContactApprox1 then
    Except.ok (mode ||| K.bit ContactFlag.dContactApprox1)
  else Except.error Fault.abort

/-- The body of the `while` loop of the second generation: `int m = Field (modev, 0)`
compared with the `static int` variables, both converted to `int`. -/
def mode_step (K : ContactConsts) (mode : Nat) (elem : Int) : Except Fault Nat :=
  mode_chain K (fun f => wrap_signed 32 (K.caml_hash_variant f)) mode (wrap_signed 32 elem)

/-- The loop `while (modev != Val_int (0)) { ...; modev = Field (modev, 1); }`
over the OCaml list `modev`, given as the list of its elements. -/
def mode_loop (K : ContactConsts) : List Int → Nat → Except Fault Nat
  | [], mode => Except.ok mode
  | elem :: rest, mode =>
      match mode_step K mode elem with
      | Except.ok mode1 => mode_loop K rest mode1
      | Except.error f => Except.error f

/-- The mode decoding of `dContact_val`: `contact->surface.mode = 0;`, which
overwrites what `surface.mode` held on entry (`mode_before`), followed by the
loop.  Returns the new `surface.mode`. -/
def dContact_val_mode (K : ContactConsts) (modev : List Int) (mode_before : Nat) :
    Except Fault Nat :=
  mode_loop K modev (Function.const Nat 0 mode_before)

/-- The body of the loop of the first generation: `value m = Field (modev, 0)`
compared with the `static value` variables. -/
def Gen1.mode_step (K : ContactConsts) (mode : Nat) (elem : Int) : Except Fault Nat :=
  mode_chain K K.caml_hash_variant mode elem

/-- The loop of the first generation. -/
def Gen1.mode_loop (K : ContactConsts) : List Int → Nat → Except Fault Nat
  | [], mode => Except.ok mode
  | elem :: rest, mode =>
      match Gen1.mode_step K mode elem with
      | Except.ok mode1 => Gen1.mode_loop K rest mode1
      | Except.error f => Except.error f

/-- The mode decoding of the first-generation `dContact_val`: the same
assignment and loop. -/
def Gen1.dContact_val_mode (K : ContactConsts) (modev : List Int) (mode_before : Nat) :
    Except Fault Nat :=
  Gen1.mode_loop K modev (Function.const Nat 0 mode_before)

/-- The tag values computed by the OCaml runtime for the twelve names and the
bit values of ODE 0.11 (`contact.h`). -/
def ode_contact_consts : ContactConsts where
  caml_hash_variant := fun f =>
    match f with
    | ContactFlag.dContactMu2 => 1162300701
    | ContactFlag.dContactFDir1 => 1333461789
    | ContactFlag.dContactBounce => -1650845047
    | ContactFlag.dContactSoftERP => -1865260357
    | ContactFlag.dContactSoftCFM => -1865464631
    | ContactFlag.dContactMotion1 => -1363260417
    | ContactFlag.dContactMotion2 => -1363260415
    | ContactFlag.dContactSlip1 => 2093426283
    | ContactFlag.dContactSlip2 => 2093426285
    | ContactFlag.dContactApprox1_1 => 849643163
    | ContactFlag.dContactApprox1_2 => 849643165
    | ContactFlag.dContactApprox1 => 102967095
  bit := fun f =>
    match f with
    | ContactFlag.dContactMu2 => 0x001
    | ContactFlag.dContactFDir1 => 0x002
    | ContactFlag.dContactBounce => 0x004
    | ContactFlag.dContactSoftERP => 0x008
    | ContactFlag.dContactSoftCFM => 0x010
    | ContactFlag.dContactMotion1 => 0x020
    | ContactFlag.dContactMotion2 => 0x040
    | ContactFlag.dContactSlip1 => 0x080
    | ContactFlag.dContactSlip2 => 0x100
    | ContactFlag.dContactApprox1_1 => 0x1000
    | ContactFlag.dContactApprox1_2 => 0x2000
    | ContactFlag.dContactApprox1 => 0x3000

/-- The tag whose branch the chain takes for `m`: the first, in the order of
the chain, whose static variable equals `m`. -/
def contact_flag_of (hash : ContactFlag → Int) (m : Int) : Option ContactFlag :=
  if m = hash ContactFlag.dContactMu2 then some ContactFlag.dContactMu2
  else if m = hash ContactFlag.dContactFDir1 then some ContactFlag.dContactFDir1
  else if m = hash ContactFlag.dContactBounce then some ContactFlag.dContactBounce
  else if m = hash ContactFlag.dContactSoftERP then some ContactFlag.dContactSoftERP
  else if m = hash ContactFlag.dContactSoftCFM then some ContactFlag.dContactSoftCFM
  else if m = hash ContactFlag.dContactMotion1 then some ContactFlag.dContactMotion1
  else if m = hash ContactFlag.dContactMotion2 then some ContactFlag.dContactMotion2
  else if m = hash ContactFlag.dContactSlip1 then some ContactFlag.dContactSlip1
  else if m = hash ContactFlag.dContactSlip2 then some ContactFlag.dContactSlip2
  else if m = hash ContactFlag.dContactApprox1_1 then some ContactFlag.dContactApprox1_1
  else if m = hash ContactFlag.dContactApprox1_2 then some ContactFlag.dContactApprox1_2
  else if m = hash ContactFlag.dContactApprox1 then some ContactFlag.dContactApprox1
  else none

/-- The loop on a list that gives, for each element, the bit value of the
branch taken, or `none` for `abort ()`. -/
def decode_bits : List (Option Nat) → Nat → Except Fault Nat
  | [], mode => Except.ok mode
  | none :: _, _ => Except.error Fault.abort
  | some b :: rest, mode => decode_bits rest (mode ||| b)

/-- The operations of the binding that allocate a custom block or write its
member `data`. -/
inductive HeapOp where
  | wrap (ptr : Nat)
  | wrap2 (ptr ptr2 : Nat)
  | destroy (rv : value)
deriving DecidableEq, Repr

/-- The heap after one operation. -/
def HeapOp.run : HeapOp → Heap → Heap
  | HeapOp.wrap p, heap => (Val_voidptr heap p).1
  | HeapOp.wrap2 p p2, heap => (Val_voidptr2 heap p p2).1
  | HeapOp.destroy rv, heap => destroy_voidptr heap rv

/-- The heap after a sequence of operations, first to last. -/
def runOps (ops : List HeapOp) (heap : Heap) : Heap :=
  ops.foldl (fun h op => op.run h) heap

/-! ## Destroy entry points -/

/-- The members of ODE's `dContactGeom` that `ode_c.c` reads and writes. -/
structure dContactGeom where
  pos : List Nat
  normal : List Nat
  depth : Nat
  g1 : Nat
  g2 : Nat
deriving DecidableEq, Repr

/-- The members of ODE's `dSurfaceParameters` that `ode_c.c` writes. -/
structure dSurfaceParameters where
  mode : Nat
  mu : Nat
  mu2 : Nat
  bounce : Nat
  bounce_vel : Nat
  soft_erp : Nat
  soft_cfm : Nat
  motion1 : Nat
  motion2 : Nat
  slip1 : Nat
  slip2 : Nat
deriving DecidableEq, Repr

/-- The members of ODE's `dContact`. -/
structure dContact where
  surface : dSurfaceParameters
  geom : dContactGeom
  fdir1 : List Nat
deriving DecidableEq, Repr

/-- The `dConvexDataID` descriptor of `ode_c.c`: the two counts, the three
buffer pointers and, with them, what the buffers hold. -/
structure dConvexDataID where
  planecount : Nat
  pointcount : Nat
  planes : Nat
  points : Nat
  polygons : Nat
  planes_data : List Nat
  points_data : List Nat
  polygons_data : List Nat
deriving DecidableEq, Repr

/-- An argument of a foreign call as passed: a pointer, a `dReal`, a `double`,
an `int`, an `unsigned`, an array of `dReal` or of `double` passed by
pointer (its contents), a `dContact` passed by pointer (its contents), a
pointer to the data area of a custom block of the heap, a pointer to a local
array of `entries` elements for the foreign function to fill, or the
constant `sizeof (type)`. -/
inductive Arg where
  | ptr (p : Nat)
  | real (bits : Nat)
  | double (bits : Nat)
  | int (n : Int)
  | uint (n : Nat)
  | reals (a : List Nat)
  | doubles (a : List Nat)
  | uints (a : List Nat)
  | contact (c : dContact)
  | data (block : Nat)
  | buffer (entries : Nat)
  | sizeof (type : String)
deriving DecidableEq, Repr

/-- A call into the foreign library or the C library, with the arguments
passed.  The last constructor is no call: it records the store of `word`
into the word of memory that follows the custom block `block`, which
`set_data2` makes on a block of one pointer. -/
inductive ForeignCall where
  | dWorldDestroy (id : Nat)
  | dBodyDestroy (id : Nat)
  | dJointDestroy (id : Nat)
  | dJointGroupDestroy (id : Nat)
  | dSpaceDestroy (id : Nat)
  | dGeomDestroy (id : Nat)
  | dGeomTriMeshDataDestroy (id : Nat)
  | malloc (size : Nat) (ret : Nat)
  | free (ptr : Nat)
  | dGeomTriMeshDataBuildDouble (id : Nat) (vertices : List Nat) (vertexStride : Nat)
      (vertexCount : Int) (indicesPtr : Nat) (indices : List Int) (indexCount : Int)
      (triStride : Nat)
  | call (fn : String) (args : List Arg)
  | store_after_block (block : Nat) (word : Nat)
deriving DecidableEq, Repr

/-- The custom-block heap and the foreign calls made so far, oldest first. -/
structure State where
  heap : Heap
  calls : List ForeignCall
deriving DecidableEq, Repr

/-- Entry point `ocamlode_dWorldDestroy (idv)`. -/
def ocamlode_dWorldDestroy (s : State) (idv : value) : Option State :=
  (dWorldID_val s.heap idv).map fun id =>
    let s1 : State := { s with calls := s.calls ++ [ForeignCall.dWorldDestroy id] }
    { s1 with heap := destroy_voidptr s1.heap idv }

/-- Entry point `ocamlode_dBodyDestroy (idv)`. -/
def ocamlode_dBodyDestroy (s : State) (idv : value) : Option State :=
  (dBodyID_val s.heap idv).map fun id =>
    let s1 : State := { s with calls := s.calls ++ [ForeignCall.dBodyDestroy id] }
    { s1 with heap := destroy_voidptr s1.heap idv }

/-- Entry point `ocamlode_dJointDestroy (idv)`. -/
def ocamlode_dJointDestroy (s : State) (idv : value) : Option State :=
  (dJointID_val s.heap idv).map fun id =>
    let s1 : State := { s with calls := s.calls ++ [ForeignCall.dJointDestroy id] }
    { s1 with heap := destroy_voidptr s1.heap idv }

/-- Entry point `ocamlode_dJointGroupDestroy (idv)`. -/
def ocamlode_dJointGroupDestroy (s : State) (idv : value) : Option State :=
  (dJointGroupID_val s.heap idv).map fun id =>
    let s1 : State := { s with calls := s.calls ++ [ForeignCall.dJointGroupDestroy id] }
    { s1 with heap := destroy_voidptr s1.heap idv }

/-- Entry point `ocamlode_dSpaceDestroy (idv)`. -/
def ocamlode_dSpaceDestroy (s : State) (idv : value) : Option State :=
  (dSpaceID_val s.heap idv).map fun id =>
    let s1 : State := { s with calls := s.calls ++ [ForeignCall.dSpaceDestroy id] }
    { s1 with heap := destroy_voidptr s1.heap idv }

/-- Entry point `ocamlode_dGeomDestroy (idv)`. -/
def ocamlode_dGeomDestroy (s : State) (idv : value) : Option State :=
  (dGeomID_val s.heap idv).map fun id =>
    let s1 : State := { s with calls := s.calls ++ [ForeignCall.dGeomDestroy id] }
    { s1 with heap := destroy_voidptr s1.heap idv }

/-! ## Host values -/

/-- An OCaml `value` as an entry point receives it: an immediate integer
(`Val_long n`; `Val_int (0)` is also `None`, `()` and `[]`), a boxed float, a
float array, a pointer to a custom block of the heap, a pointer stored
directly as a `value`, a custom block holding a convex-data descriptor (never
written after it is made, so given by its contents), a closure, or a block
with a tag and fields. -/
inductive hvalue where
  | long (n : Int)
  | double (bits : Nat)
  | floatarray (a : List Nat)
  | custom (v : value)
  | naked (p : Nat)
  | convexdata (d : dConvexDataID)
  | closure (id : Nat)
  | block (tag : Nat) (fields : List hvalue)
deriving Repr

/-- The test `v == Val_int (n)`. -/
def hvalue.is_Val_int (v : hvalue) (n : Int) : Bool :=
  match v with
  | hvalue.long m => decide (m = n)
  | _ => false

/-- Macro `Field (v, i)`; `none` where `v` is not a block with a field `i`
(the read is undefined in C). -/
def Field (v : hvalue) (i : Nat) : Option hvalue :=
  match v with
  | hvalue.block _ fields => fields[i]?
  | _ => none

/-- Macro `Wosize_val (v)` for a block, a float array or a boxed float; `none`
for the other values, whose header the model does not hold. -/
def Wosize_val (A : Arch) (v : hvalue) : Option Nat :=
  match v with
  | hvalue.block _ fields => some fields.length
  | hvalue.floatarray a => some (Wosize_val_floatarray A a)
  | hvalue.double _ => some (Double_wosize A)
  | _ => none

/-- Macro `Double_val (v)`: the bits of a boxed float; `none` for other values. -/
def Double_val (v : hvalue) : Option Nat :=
  match v with
  | hvalue.double b => some b
  | _ => none

/-- Macro `Long_val (v)`; `none` for a value that is not an immediate integer. -/
def Long_val (v : hvalue) : Option Int :=
  match v with
  | hvalue.long n => some n
  | _ => none

/-- Macro `Int_val (v)`: `(int) Long_val (v)`. -/
def Int_val (v : hvalue) : Option Int := (Long_val v).map (wrap_signed 32)

/-- Macro `Is_block (v)`. -/
def Is_block (v : hvalue) : Bool :=
  match v with
  | hvalue.long _ => false
  | _ => true

/-- The unwrap macros on a `value`: `unwrap` applied to the custom block that
`v` points to; `none` when `v` is no pointer to a custom block. -/
def unwrap_val (unwrap : Heap → value → Option Nat) (heap : Heap) (v : hvalue) : Option Nat :=
  match v with
  | hvalue.custom h => unwrap heap h
  | _ => none

/-- The word of an immediate or directly stored `value`, as C code that casts
it to an integer sees it: `2 n + 1` for `Val_long (n)`. -/
def hvalue.word (v : hvalue) : Option Int :=
  match v with
  | hvalue.long n => some (2 * n + 1)
  | hvalue.naked p => some p
  | _ => none

/-- The host value `None`, `Val_int (0)`. -/
def hNone : hvalue := hvalue.long 0

/-- The host value `Some h` for a handle `h`: a block of tag 0 whose field 0
points to the custom block. -/
def hSome (h : value) : hvalue := hvalue.block 0 [hvalue.custom h]

/-- The block `if (xv == Val_int (0)) x = 0; else x = unwrap (Field (xv, 0));`
with which the entry points decode an optional handle `xv`; `unwrap` is the
unwrap macro of the kind. -/
def option_handle_val (unwrap : Heap → value → Option Nat) (heap : Heap) (xv : hvalue) :
    Option Nat :=
  if xv.is_Val_int 0 then some 0
  else (Field xv 0).bind (unwrap_val unwrap heap)

/-! ## Contact records -/

/-- The call `dVector3_val (vv, v)` on a `value`: the size assertion on
`Wosize_val (vv)`, then the copy.  `none` where `vv` has no size in the model
or passes the assertion without being a float array. -/
def dVector3_val_h (P : Precision) (A : Arch) (vv : hvalue) (v : List Nat) :
    Option (Run (List Nat)) :=
  match Wosize_val A vv with
  | none => none
  | some w =>
      if TYPE_CHECKING ≠ 0 ∧ ¬ (w = 4 * Double_wosize A) then
        some { fault := some Fault.assertion, out := v }
      else
        match vv with
        | hvalue.floatarray a => some (dVector3_val P A a v)
        | _ => none

/-- Function `dContactGeom_val (geomv, geom)`: the assertion on the field count
(after a `printf` of the count when it is wrong), then `pos`, `normal`,
`depth`, `g1` and `g2` in this order.  Takes the old contents of `*geom`. -/
def dContactGeom_val (P : Precision) (A : Arch) (heap : Heap) (geomv : hvalue)
    (geom : dContactGeom) : Option (Run dContactGeom) :=
  (Wosize_val A geomv).bind fun w =>
    if TYPE_CHECKING ≠ 0 ∧ ¬ (w = 5) then
      some { fault := some Fault.assertion, out := geom }
    else
      (Field geomv 0).bind fun posv =>
      (dVector3_val_h P A posv geom.pos).bind fun rp =>
        if rp.fault.isSome then
          some { fault := rp.fault, out := { geom with pos := rp.out } }
        else
          (Field geomv 1).bind fun normalv =>
          (dVector3_val_h P A normalv geom.normal).bind fun rn =>
            if rn.fault.isSome then
              some { fault := rn.fault, out := { geom with pos := rp.out, normal := rn.out } }
            else
              ((Field geomv 2).bind Double_val).bind fun depth =>
              ((Field geomv 3).bind (unwrap_val dGeomID_val heap)).bind fun g1 =>
              ((Field geomv 4).bind (unwrap_val dGeomID_val heap)).map fun g2 =>
                { fault := none,
                  out := { pos := rp.out, normal := rn.out, depth := to_dReal P depth,
                           g1 := g1, g2 := g2 } }

/-- An OCaml list of immediate values as the list of the words of its elements:
`Val_int (0)` is the empty list, a block holds the head in field 0 and the
tail in field 1.  `none` for other values. -/
def mode_list : hvalue → Option (List Int)
  | hvalue.long 0 => some []
  | hvalue.block _ [hd, tl] =>
      match hd.word, mode_list tl with
      | some w, some l => some (w :: l)
      | _, _ => none
  | _ => none

/-- The loop of `mode_loop` with the memory it leaves: `surface.mode` is
updated in place by each `|=`, so at `abort ()` it holds the bits of the
elements before the unrecognised one. -/
def mode_loop_run (K : ContactConsts) : List Int → Nat → Run Nat
  | [], mode => { fault := none, out := mode }
  | elem :: rest, mode =>
      match mode_step K mode elem with
      | Except.ok mode1 => mode_loop_run K rest mode1
      | Except.error f => { fault := some f, out := mode }

/-- The ten assignments `contact->surface.mu = Double_val (Field (surfacev, 1));`
to `contact->surface.slip2 = Double_val (Field (surfacev, 10));` of
`dContact_val`; `mode` is the `surface.mode` already decoded. -/
def surface_params_val (P : Precision) (surfacev : hvalue) (mode : Nat) :
    Option dSurfaceParameters :=
  match (List.range 10).mapM (fun i => (Field surfacev (i + 1)).bind Double_val) with
  | some [mu, mu2, bounce, bounce_vel, soft_erp, soft_cfm, motion1, motion2, slip1, slip2] =>
      some { mode := mode,
             mu := to_dReal P mu,
             mu2 := to_dReal P mu2,
             bounce := to_dReal P bounce,
             bounce_vel := to_dReal P bounce_vel,
             soft_erp := to_dReal P soft_erp,
             soft_cfm := to_dReal P soft_cfm,
             motion1 := to_dReal P motion1,
             motion2 := to_dReal P motion2,
             slip1 := to_dReal P slip1,
             slip2 := to_dReal P slip2 }
  | _ => none

/-- The end of `dContact_val`: `dContactGeom_val (Field (contactv, 1), &contact->geom)`
and `dVector3_val (Field (contactv, 2), contact->fdir1)`. -/
def dContact_val_geom (P : Precision) (A : Arch) (heap : Heap) (contactv : hvalue)
    (contact : dContact) : Option (Run dContact) :=
  (Field contactv 1).bind fun geomv =>
  (dContactGeom_val P A heap geomv contact.geom).bind fun rg =>
    if rg.fault.isSome then
      some { fault := rg.fault, out := { contact with geom := rg.out } }
    else
      (Field contactv 2).bind fun fdir1v =>
      (dVector3_val_h P A fdir1v contact.fdir1).map fun rf =>
        { fault := rf.fault, out := { contact with geom := rg.out, fdir1 := rf.out } }

/-- The middle of `dContact_val`, from `modev = Field (surfacev, 0)` on: the
mode list, the ten surface parameters, and the rest in `dContact_val_geom`. -/
def dContact_val_surface (K : ContactConsts) (P : Precision) (A : Arch) (heap : Heap)
    (contactv surfacev : hvalue) (contact : dContact) : Option (Run dContact) :=
  ((Field surfacev 0).bind mode_list).bind fun modes =>
    let rm := mode_loop_run K modes (Function.const Nat 0 contact.surface.mode)
    if rm.fault.isSome then
      some { fault := rm.fault,
             out := { contact with surface := { contact.surface with mode := rm.out } } }
    else
      (surface_params_val P surfacev rm.out).bind fun surface =>
        dContact_val_geom P A heap contactv { contact with surface := surface }

/-- Function `dContact_val (contactv, contact)`: the assertion on the field
count of the record, the assertion on the field count of the surface record,
then the mode list, the ten surface parameters, `dContactGeom_val` on field 1
and `dVector3_val` on field 2.  Takes the old contents of `*contact`. -/
def dContact_val (K : ContactConsts) (P : Precision) (A : Arch) (heap : Heap)
    (contactv : hvalue) (contact : dContact) : Option (Run dContact) :=
  (Wosize_val A contactv).bind fun w =>
    if TYPE_CHECKING ≠ 0 ∧ ¬ (w = 3) then
      some { fault := some Fault.assertion, out := contact }
    else
      (Field contactv 0).bind fun surfacev =>
      (Wosize_val A surfacev).bind fun ws =>
        if TYPE_CHECKING ≠ 0 ∧ ¬ (ws = 11) then
          some { fault := some Fault.assertion, out := contact }
        else
          dContact_val_surface K P A heap contactv surfacev contact

/-- A surface record with the mode list `[dContactBounce]` and the parameters
1.0, 0.5, 0, ..., 0. -/
def sampleSurface : hvalue :=
  hvalue.block 0
    [hvalue.block 0 [hvalue.long (-825422524), hvalue.long 0],
     hvalue.double 0x3FF0000000000000, hvalue.double 0x3FE0000000000000,
     hvalue.double 0, hvalue.double 0, hvalue.double 0, hvalue.double 0,
     hvalue.double 0, hvalue.double 0, hvalue.double 0, hvalue.double 0]

/-- A contact-geometry record with five fields; the handles are the blocks 0
and 1 of the heap. -/
def sampleGeom : hvalue :=
  hvalue.block 0
    [hvalue.floatarray exactVector, hvalue.floatarray exactVector,
     hvalue.double 0x3FE0000000000000, hvalue.custom 0, hvalue.custom 1]

/-- A contact-geometry record that lacks its last field. -/
def shortGeom : hvalue :=
  hvalue.block 0
    [hvalue.floatarray exactVector, hvalue.floatarray exactVector,
     hvalue.double 0x3FE0000000000000, hvalue.custom 0]

/-- A well-formed contact record. -/
def sampleContact : hvalue :=
  hvalue.block 0 [sampleSurface, sampleGeom, hvalue.floatarray exactVector]

/-- A contact record whose nested contact-geometry record has four fields. -/
def shortGeomContact : hvalue :=
  hvalue.block 0 [sampleSurface, shortGeom, hvalue.floatarray exactVector]

/-- A `dContact` whose members all hold 7. -/
def sevenContact : dContact :=
  { surface := { mode := 7, mu := 7, mu2 := 7, bounce := 7, bounce_vel := 7, soft_erp := 7,
                 soft_cfm := 7, motion1 := 7, motion2 := 7, slip1 := 7, slip2 := 7 },
    geom := { pos := [7, 7, 7, 7], normal := [7, 7, 7, 7], depth := 7, g1 := 7, g2 := 7 },
    fdir1 := [7, 7, 7, 7] }

/-- Two geometry handles, around the addresses 4096 and 8192. -/
def twoGeomHeap : Heap := [Custom.voidptr 4096, Custom.voidptr 8192]

/-! ## Entry points: helpers -/

/-- The state after the foreign call `fn (args)`. -/
def State.foreign (s : State) (fn : String) (args : List Arg) : State :=
  { s with calls := s.calls ++ [ForeignCall.call fn args] }

/-- The statement `CAMLreturn (wrap (id))` for a wrap macro: the state with the
new custom block, and the `value` that points to it. -/
def return_handle (wrap : Heap → Nat → Heap × value) (s : State) (id : Nat) : State × hvalue :=
  ({ s with heap := (wrap s.heap id).1 }, hvalue.custom (wrap s.heap id).2)

/-- Macro `Val_unit`. -/
def Val_unit : hvalue := hvalue.long 0

/-- The initialisation `dReal x = Double_val (xv)`, or `Double_val (xv)` passed
for a `dReal` parameter: the float converted to `dReal`. -/
def dReal_val (P : Precision) (xv : hvalue) : Option Nat := (Double_val xv).map (to_dReal P)

/-- What an entry point that can raise or stop gives: the fault with the state
at that point, or the state and the `value` returned. -/
abbrev Outcome := Except (Fault × State) (State × hvalue)

/-! ## Entry points with an optional handle -/

/-- Entry point `ocamlode_dJointCreateBall (worldv, jointgroupv)`; `ret` is the
pointer that `dJointCreateBall` returns. -/
def ocamlode_dJointCreateBall (s : State) (worldv jointgroupv : hvalue) (ret : Nat) :
    Option (State × hvalue) :=
  (unwrap_val dWorldID_val s.heap worldv).bind fun world =>
  (option_handle_val dJointGroupID_val s.heap jointgroupv).map fun jointgroup =>
    return_handle Val_dJointID
      (s.foreign "dJointCreateBall" [Arg.ptr world, Arg.ptr jointgroup]) ret

/-- Entry point `ocamlode_dJointCreateHinge (worldv, jointgroupv)`; `ret` is the
pointer that `dJointCreateHinge` returns. -/
def ocamlode_dJointCreateHinge (s : State) (worldv jointgroupv : hvalue) (ret : Nat) :
    Option (State × hvalue) :=
  (unwrap_val dWorldID_val s.heap worldv).bind fun world =>
  (option_handle_val dJointGroupID_val s.heap jointgroupv).map fun jointgroup =>
    return_handle Val_dJointID
      (s.foreign "dJointCreateHinge" [Arg.ptr world, Arg.ptr jointgroup]) ret

/-- Entry point `ocamlode_dJointCreateSlider (worldv, jointgroupv)`; `ret` is the
pointer that `dJointCreateSlider` returns. -/
def ocamlode_dJointCreateSlider (s : State) (worldv jointgroupv : hvalue) (ret : Nat) :
    Option (State × hvalue) :=
  (unwrap_val dWorldID_val s.heap worldv).bind fun world =>
  (option_handle_val dJointGroupID_val s.heap jointgroupv).map fun jointgroup =>
    return_handle Val_dJointID
      (s.foreign "dJointCreateSlider" [Arg.ptr world, Arg.ptr jointgroup]) ret

/-- Entry point `ocamlode_dJointCreateUniversal (worldv, jointgroupv)`; `ret` is the
pointer that `dJointCreateUniversal` returns. -/
def ocamlode_dJointCreateUniversal (s : State) (worldv jointgroupv : hvalue) (ret : Nat) :
    Option (State × hvalue) :=
  (unwrap_val dWorldID_val s.heap worldv).bind fun world =>
  (option_handle_val dJointGroupID_val s.heap jointgroupv).map fun jointgroup =>
    return_handle Val_dJointID
      (s.foreign "dJointCreateUniversal" [Arg.ptr world, Arg.ptr jointgroup]) ret

/-- Entry point `ocamlode_dJointCreateHinge2 (worldv, jointgroupv)`; `ret` is the
pointer that `dJointCreateHinge2` returns. -/
def ocamlode_dJointCreateHinge2 (s : State) (worldv jointgroupv : hvalue) (ret : Nat) :
    Option (State × hvalue) :=
  (unwrap_val dWorldID_val s.heap worldv).bind fun world =>
  (option_handle_val dJointGroupID_val s.heap jointgroupv).map fun jointgroup =>
    return_handle Val_dJointID
      (s.foreign "dJointCreateHinge2" [Arg.ptr world, Arg.ptr jointgroup]) ret

/-- Entry point `ocamlode_dJointCreateFixed (worldv, jointgroupv)`; `ret` is the
pointer that `dJointCreateFixed` returns. -/
def ocamlode_dJointCreateFixed (s : State) (worldv jointgroupv : hvalue) (ret : Nat) :
    Option (State × hvalue) :=
  (unwrap_val dWorldID_val s.heap worldv).bind fun world =>
  (option_handle_val dJointGroupID_val s.heap jointgroupv).map fun jointgroup =>
    return_handle Val_dJointID
      (s.foreign "dJointCreateFixed" [Arg.ptr world, Arg.ptr jointgroup]) ret

/-- Entry point `ocamlode_dJointCreateAMotor (worldv, jointgroupv)`; `ret` is the
pointer that `dJointCreateAMotor` returns. -/
def ocamlode_dJointCreateAMotor (s : State) (worldv jointgroupv : hvalue) (ret : Nat) :
    Option (State × hvalue) :=
  (unwrap_val dWorldID_val s.heap worldv).bind fun world =>
  (option_handle_val dJointGroupID_val s.heap jointgroupv).map fun jointgroup =>
    return_handle Val_dJointID
      (s.foreign "dJointCreateAMotor" [Arg.ptr world, Arg.ptr jointgroup]) ret

/-- Entry point `ocamlode_dJointCreateLMotor (worldv, jointgroupv)`; `ret` is the
pointer that `dJointCreateLMotor` returns. -/
def ocamlode_dJointCreateLMotor (s : State) (worldv jointgroupv : hvalue) (ret : Nat) :
    Option (State × hvalue) :=
  (unwrap_val dWorldID_val s.heap worldv).bind fun world =>
  (option_handle_val dJointGroupID_val s.heap jointgroupv).map fun jointgroup =>
    return_handle Val_dJointID
      (s.foreign "dJointCreateLMotor" [Arg.ptr world, Arg.ptr jointgroup]) ret

/-- Entry point `ocamlode_dJointCreatePlane2D (worldv, jointgroupv)`; `ret` is the
pointer that `dJointCreatePlane2D` returns. -/
def ocamlode_dJointCreatePlane2D (s : State) (worldv jointgroupv : hvalue) (ret : Nat) :
    Option (State × hvalue) :=
  (unwrap_val dWorldID_val s.heap worldv).bind fun world =>
  (option_handle_val dJointGroupID_val s.heap jointgroupv).map fun jointgroup =>
    return_handle Val_dJointID
      (s.foreign "dJointCreatePlane2D" [Arg.ptr world, Arg.ptr jointgroup]) ret

/-- Entry point `ocamlode_dJointCreateContact (worldv, jointgroupv, contactv)`;
`contact0` is what the local `dContact contact` holds before it is decoded. -/
def ocamlode_dJointCreateContact (K : ContactConsts) (P : Precision) (A : Arch) (s : State)
    (worldv jointgroupv contactv : hvalue) (contact0 : dContact) (ret : Nat) :
    Option Outcome :=
  (unwrap_val dWorldID_val s.heap worldv).bind fun world =>
  (option_handle_val dJointGroupID_val s.heap jointgroupv).bind fun jointgroup =>
  (dContact_val K P A s.heap contactv contact0).map fun rc =>
    match rc.fault with
    | some f => Except.error (f, s)
    | none =>
        Except.ok (return_handle Val_dJointID
          (s.foreign "dJointCreateContact"
            [Arg.ptr world, Arg.ptr jointgroup, Arg.contact rc.out]) ret)

/-- Entry point `ocamlode_dJointAttach (idv, body1v, body2v)`. -/
def ocamlode_dJointAttach (s : State) (idv body1v body2v : hvalue) : Option (State × hvalue) :=
  (unwrap_val dJointID_val s.heap idv).bind fun id =>
  (option_handle_val dBodyID_val s.heap body1v).bind fun body1 =>
  (option_handle_val dBodyID_val s.heap body2v).map fun body2 =>
    (s.foreign "dJointAttach" [Arg.ptr id, Arg.ptr body1, Arg.ptr body2], Val_unit)

/-- Entry point `ocamlode_dSimpleSpaceCreate (parentv)`. -/
def ocamlode_dSimpleSpaceCreate (s : State) (parentv : hvalue) (ret : Nat) :
    Option (State × hvalue) :=
  (option_handle_val dSpaceID_val s.heap parentv).map fun parent =>
    return_handle Val_dSpaceID (s.foreign "dSimpleSpaceCreate" [Arg.ptr parent]) ret

/-- Entry point `ocamlode_dHashSpaceCreate (parentv)`. -/
def ocamlode_dHashSpaceCreate (s : State) (parentv : hvalue) (ret : Nat) :
    Option (State × hvalue) :=
  (option_handle_val dSpaceID_val s.heap parentv).map fun parent =>
    return_handle Val_dSpaceID (s.foreign "dHashSpaceCreate" [Arg.ptr parent]) ret

/-- Entry point `ocamlode_dQuadTreeSpaceCreate (parentv, centerv, extentsv, depthv)`;
`center0` and `extents0` are what the local arrays hold before they are
decoded. -/
def ocamlode_dQuadTreeSpaceCreate (P : Precision) (A : Arch) (s : State)
    (parentv centerv extentsv depthv : hvalue) (center0 extents0 : List Nat) (ret : Nat) :
    Option Outcome :=
  (option_handle_val dSpaceID_val s.heap parentv).bind fun parent =>
  (dVector3_val_h P A centerv center0).bind fun rc =>
    match rc.fault with
    | some f => some (Except.error (f, s))
    | none =>
        (dVector3_val_h P A extentsv extents0).bind fun re =>
          match re.fault with
          | some f => some (Except.error (f, s))
          | none =>
              (Int_val depthv).map fun depth =>
                Except.ok (return_handle Val_dSpaceID
                  (s.foreign "dQuadTreeSpaceCreate"
                    [Arg.ptr parent, Arg.reals rc.out, Arg.reals re.out, Arg.int depth]) ret)

/-- Entry point `ocamlode_dGeomSetBody (idv, bodyv)`. -/
def ocamlode_dGeomSetBody (s : State) (idv bodyv : hvalue) : Option (State × hvalue) :=
  (unwrap_val dGeomID_val s.heap idv).bind fun id =>
  (option_handle_val dBodyID_val s.heap bodyv).map fun body =>
    (s.foreign "dGeomSetBody" [Arg.ptr id, Arg.ptr body], Val_unit)

/-- Entry point `ocamlode_dCreateSphere (parentv, radiusv)`. -/
def ocamlode_dCreateSphere (P : Precision) (s : State) (parentv radiusv : hvalue)
    (ret : Nat) : Option (State × hvalue) :=
  (option_handle_val dSpaceID_val s.heap parentv).bind fun parent =>
  (dReal_val P radiusv).map fun radius =>
    return_handle Val_dGeomID
      (s.foreign "dCreateSphere" [Arg.ptr parent, Arg.real radius]) ret

/-- Entry point `ocamlode_dCreateBox (parentv, lxv, lyv, lzv)`. -/
def ocamlode_dCreateBox (P : Precision) (s : State) (parentv lxv lyv lzv : hvalue)
    (ret : Nat) : Option (State × hvalue) :=
  (option_handle_val dSpaceID_val s.heap parentv).bind fun parent =>
  (dReal_val P lxv).bind fun lx =>
  (dReal_val P lyv).bind fun ly =>
  (dReal_val P lzv).map fun lz =>
    return_handle Val_dGeomID
      (s.foreign "dCreateBox" [Arg.ptr parent, Arg.real lx, Arg.real ly, Arg.real lz]) ret

/-- Entry point `ocamlode_dCreatePlane (parentv, av, bv, cv, dv)`. -/
def ocamlode_dCreatePlane (P : Precision) (s : State) (parentv av bv cv dv : hvalue)
    (ret : Nat) : Option (State × hvalue) :=
  (option_handle_val dSpaceID_val s.heap parentv).bind fun parent =>
  (dReal_val P av).bind fun a =>
  (dReal_val P bv).bind fun b =>
  (dReal_val P cv).bind fun c =>
  (dReal_val P dv).map fun d =>
    return_handle Val_dGeomID
      (s.foreign "dCreatePlane" [Arg.ptr parent, Arg.real a, Arg.real b, Arg.real c, Arg.real d]) ret

/-- Entry point `ocamlode_dCreateCapsule (parentv, radiusv, lengthv)`. -/
def ocamlode_dCreateCapsule (P : Precision) (s : State) (parentv radiusv lengthv : hvalue)
    (ret : Nat) : Option (State × hvalue) :=
  (option_handle_val dSpaceID_val s.heap parentv).bind fun parent =>
  (dReal_val P radiusv).bind fun radius =>
  (dReal_val P lengthv).map fun length =>
    return_handle Val_dGeomID
      (s.foreign "dCreateCapsule" [Arg.ptr parent, Arg.real radius, Arg.real length]) ret

/-- Entry point `ocamlode_dCreateCylinder (parentv, radiusv, lengthv)`. -/
def ocamlode_dCreateCylinder (P : Precision) (s : State) (parentv radiusv lengthv : hvalue)
    (ret : Nat) : Option (State × hvalue) :=
  (option_handle_val dSpaceID_val s.heap parentv).bind fun parent =>
  (dReal_val P radiusv).bind fun radius =>
  (dReal_val P lengthv).map fun length =>
    return_handle Val_dGeomID
      (s.foreign "dCreateCylinder" [Arg.ptr parent, Arg.real radius, Arg.real length]) ret

/-- Entry point `ocamlode_dCreateRay (parentv, lengthv)`. -/
def ocamlode_dCreateRay (P : Precision) (s : State) (parentv lengthv : hvalue)
    (ret : Nat) : Option (State × hvalue) :=
  (option_handle_val dSpaceID_val s.heap parentv).bind fun parent =>
  (dReal_val P lengthv).map fun length =>
    return_handle Val_dGeomID
      (s.foreign "dCreateRay" [Arg.ptr parent, Arg.real length]) ret

/-- Entry point `ocamlode_dCreateTriMesh_native (parentv, idv, tri_cb, arr_cb,
ray_cb, unit)`. -/
def ocamlode_dCreateTriMesh_native (s : State)
    (parentv idv tri_cb arr_cb ray_cb unit : hvalue) (ret : Nat) : Option Outcome :=
  let _ := unit
  (option_handle_val dSpaceID_val s.heap parentv).bind fun parent =>
  (unwrap_val dTriMeshDataID_val s.heap idv).map fun data_id =>
    if Is_block tri_cb || Is_block arr_cb || Is_block ray_cb then
      Except.error (Fault.failwith "dCreateTriMesh: callbacks not yet implemented", s)
    else
      Except.ok (return_handle Val_dGeomID
        (s.foreign "dCreateTriMesh"
          [Arg.ptr parent, Arg.ptr data_id, Arg.ptr 0, Arg.ptr 0, Arg.ptr 0]) ret)

/-- Entry point `ocamlode_dCreateGeomTransform (parentv)`. -/
def ocamlode_dCreateGeomTransform (s : State) (parentv : hvalue) (ret : Nat) :
    Option (State × hvalue) :=
  (option_handle_val dSpaceID_val s.heap parentv).map fun parent =>
    return_handle Val_dGeomID (s.foreign "dCreateGeomTransform" [Arg.ptr parent]) ret

/-- Entry point `ocamlode_dGeomTransformSetGeom (idv, geomv)`. -/
def ocamlode_dGeomTransformSetGeom (s : State) (idv geomv : hvalue) : Option (State × hvalue) :=
  (unwrap_val dGeomID_val s.heap idv).bind fun id =>
  (option_handle_val dGeomID_val s.heap geomv).map fun geom =>
    (s.foreign "dGeomTransformSetGeom" [Arg.ptr id, Arg.ptr geom], Val_unit)

/-- The descriptor in the custom block that `convex_data` points to; `none`
for other values. -/
def convexdata_val (convex_data : hvalue) : Option dConvexDataID :=
  match convex_data with
  | hvalue.convexdata d => some d
  | _ => none

/-- Entry point `ocamlode_dCreateConvex (parentv, convex_data)`. -/
def ocamlode_dCreateConvex (s : State) (parentv convex_data : hvalue) (ret : Nat) :
    Option (State × hvalue) :=
  (option_handle_val dSpaceID_val s.heap parentv).bind fun parent =>
  (convexdata_val convex_data).map fun d =>
    return_handle Val_dGeomID
      (s.foreign "dCreateConvex"
        [Arg.ptr parent, Arg.ptr d.planes, Arg.uint d.planecount, Arg.ptr d.points,
         Arg.uint d.pointcount, Arg.ptr d.polygons]) ret

/-- Macro `dHeightfieldDataID_val (v)`: the `value` itself taken as the pointer. -/
def dHeightfieldDataID_val (v : hvalue) : Option Nat :=
  match v with
  | hvalue.naked p => some p
  | _ => none

/-- Entry point `ocamlode_dCreateHeightfield (parentv, data, placeable)`. -/
def ocamlode_dCreateHeightfield (s : State) (parentv data placeable : hvalue) (ret : Nat) :
    Option (State × hvalue) :=
  (option_handle_val dSpaceID_val s.heap parentv).bind fun parent =>
  (dHeightfieldDataID_val data).bind fun d =>
  (Int_val placeable).map fun pl =>
    return_handle Val_dGeomID
      (s.foreign "dCreateHeightfield" [Arg.ptr parent, Arg.ptr d, Arg.int pl]) ret

/-! ## Queries that return a handle -/

/-- Entry point `ocamlode_dGeomGetSpace (geom)`: `return Val_dSpaceID (id)` for the
`id` that `dGeomGetSpace` returns, here `ret`. -/
def ocamlode_dGeomGetSpace (s : State) (geom : hvalue) (ret : Nat) : Option (State × hvalue) :=
  (unwrap_val dGeomID_val s.heap geom).map fun g =>
    return_handle Val_dSpaceID (s.foreign "dGeomGetSpace" [Arg.ptr g]) ret

/-- Entry point `ocamlode_dGeomGetBody (idv)`: `Some` of a new handle when the
body that `dGeomGetBody` returns, here `ret`, is not null, and `None` when it
is. -/
def ocamlode_dGeomGetBody (s : State) (idv : hvalue) (ret : Nat) : Option (State × hvalue) :=
  (unwrap_val dGeomID_val s.heap idv).map fun id =>
    let s1 := s.foreign "dGeomGetBody" [Arg.ptr id]
    if ret ≠ 0 then
      ((return_handle Val_dBodyID s1 ret).1, hvalue.block 0 [(return_handle Val_dBodyID s1 ret).2])
    else
      (s1, hvalue.long 0)

/-- A state with three handles, around the addresses 4096, 8192 and 12288, and
no foreign call yet. -/
def threeHandleState : State :=
  { heap := [Custom.voidptr 4096, Custom.voidptr 8192, Custom.voidptr 12288], calls := [] }

/-- What `sampleContact` decodes to in the `dDOUBLE` build when the handles of
its geometry record hold 4096 and 8192. -/
def decodedContact : dContact :=
  { surface := { mode := 4, mu := 0x3FF0000000000000, mu2 := 0x3FE0000000000000,
                 bounce := 0, bounce_vel := 0, soft_erp := 0, soft_cfm := 0,
                 motion1 := 0, motion2 := 0, slip1 := 0, slip2 := 0 },
    geom := { pos := exactVector, normal := exactVector, depth := 0x3FE0000000000000,
              g1 := 4096, g2 := 8192 },
    fdir1 := exactVector }

/-! ## Entry points with more than five arguments -/

/-- Entry point `ocamlode_dBodyAddForceAtPos (body, fx, fy, fz, px, py, pz)`. -/
def ocamlode_dBodyAddForceAtPos (P : Precision) (s : State) (body fx fy fz px py pz : hvalue) :
    Option (State × hvalue) :=
  (unwrap_val dBodyID_val s.heap body).bind fun id =>
  ([fx, fy, fz, px, py, pz].mapM (dReal_val P)).map fun rs =>
    (s.foreign "dBodyAddForceAtPos" (Arg.ptr id :: rs.map Arg.real), Val_unit)

/-- Entry point `ocamlode_dBodyAddForceAtPos_bc (argv, argn)`: the fixed-arity form applied to
`argv[0]`, ..., `argv[6]`.  `none` where `argv` has fewer elements. -/
def ocamlode_dBodyAddForceAtPos_bc (P : Precision) (s : State) (argv : List hvalue) :
    Option (State × hvalue) :=
  match argv with
  | a0 :: a1 :: a2 :: a3 :: a4 :: a5 :: a6 :: _ =>
      ocamlode_dBodyAddForceAtPos P s a0 a1 a2 a3 a4 a5 a6
  | _ => none

/-- Entry point `ocamlode_dBodyAddForceAtRelPos (body, fx, fy, fz, px, py, pz)`. -/
def ocamlode_dBodyAddForceAtRelPos (P : Precision) (s : State) (body fx fy fz px py pz : hvalue) :
    Option (State × hvalue) :=
  (unwrap_val dBodyID_val s.heap body).bind fun id =>
  ([fx, fy, fz, px, py, pz].mapM (dReal_val P)).map fun rs =>
    (s.foreign "dBodyAddForceAtRelPos" (Arg.ptr id :: rs.map Arg.real), Val_unit)

/-- Entry point `ocamlode_dBodyAddForceAtRelPos_bc (argv, argn)`: the fixed-arity form applied to
`argv[0]`, ..., `argv[6]`.  `none` where `argv` has fewer elements. -/
def ocamlode_dBodyAddForceAtRelPos_bc (P : Precision) (s : State) (argv : List hvalue) :
    Option (State × hvalue) :=
  match argv with
  | a0 :: a1 :: a2 :: a3 :: a4 :: a5 :: a6 :: _ =>
      ocamlode_dBodyAddForceAtRelPos P s a0 a1 a2 a3 a4 a5 a6
  | _ => none

/-- Entry point `ocamlode_dBodyAddRelForceAtPos (body, fx, fy, fz, px, py, pz)`. -/
def ocamlode_dBodyAddRelForceAtPos (P : Precision) (s : State) (body fx fy fz px py pz : hvalue) :
    Option (State × hvalue) :=
  (unwrap_val dBodyID_val s.heap body).bind fun id =>
  ([fx, fy, fz, px, py, pz].mapM (dReal_val P)).map fun rs =>
    (s.foreign "dBodyAddRelForceAtPos" (Arg.ptr id :: rs.map Arg.real), Val_unit)

/-- Entry point `ocamlode_dBodyAddRelForceAtPos_bc (argv, argn)`: the fixed-arity form applied to
`argv[0]`, ..., `argv[6]`.  `none` where `argv` has fewer elements. -/
def ocamlode_dBodyAddRelForceAtPos_bc (P : Precision) (s : State) (argv : List hvalue) :
    Option (State × hvalue) :=
  match argv with
  | a0 :: a1 :: a2 :: a3 :: a4 :: a5 :: a6 :: _ =>
      ocamlode_dBodyAddRelForceAtPos P s a0 a1 a2 a3 a4 a5 a6
  | _ => none

/-- Entry point `ocamlode_dBodyAddRelForceAtRelPos (body, fx, fy, fz, px, py, pz)`. -/
def ocamlode_dBodyAddRelForceAtRelPos (P : Precision) (s : State) (body fx fy fz px py pz : hvalue) :
    Option (State × hvalue) :=
  (unwrap_val dBodyID_val s.heap body).bind fun id =>
  ([fx, fy, fz, px, py, pz].mapM (dReal_val P)).map fun rs =>
    (s.foreign "dBodyAddRelForceAtRelPos" (Arg.ptr id :: rs.map Arg.real), Val_unit)

/-- Entry point `ocamlode_dBodyAddRelForceAtRelPos_bc (argv, argn)`: the fixed-arity form applied to
`argv[0]`, ..., `argv[6]`.  `none` where `argv` has fewer elements. -/
def ocamlode_dBodyAddRelForceAtRelPos_bc (P : Precision) (s : State) (argv : List hvalue) :
    Option (State × hvalue) :=
  match argv with
  | a0 :: a1 :: a2 :: a3 :: a4 :: a5 :: a6 :: _ =>
      ocamlode_dBodyAddRelForceAtRelPos P s a0 a1 a2 a3 a4 a5 a6
  | _ => none

/-- Entry point `ocamlode_dJointSetHingeAnchorDelta (joint, x, y, z, ax, ay, az)`. -/
def ocamlode_dJointSetHingeAnchorDelta (P : Precision) (s : State) (joint x y z ax ay az : hvalue) :
    Option (State × hvalue) :=
  (unwrap_val dJointID_val s.heap joint).bind fun id =>
  ([x, y, z, ax, ay, az].mapM (dReal_val P)).map fun rs =>
    (s.foreign "dJointSetHingeAnchorDelta" (Arg.ptr id :: rs.map Arg.real), Val_unit)

/-- Entry point `ocamlode_dJointSetHingeAnchorDelta_bytecode (argv, argn)`: the fixed-arity form applied to
`argv[0]`, ..., `argv[6]`.  `none` where `argv` has fewer elements. -/
def ocamlode_dJointSetHingeAnchorDelta_bytecode (P : Precision) (s : State) (argv : List hvalue) :
    Option (State × hvalue) :=
  match argv with
  | a0 :: a1 :: a2 :: a3 :: a4 :: a5 :: a6 :: _ =>
      ocamlode_dJointSetHingeAnchorDelta P s a0 a1 a2 a3 a4 a5 a6
  | _ => none

/-- Entry point `ocamlode_dJointSetSliderAxisDelta (joint, x, y, z, ax, ay, az)`. -/
def ocamlode_dJointSetSliderAxisDelta (P : Precision) (s : State) (joint x y z ax ay az : hvalue) :
    Option (State × hvalue) :=
  (unwrap_val dJointID_val s.heap joint).bind fun id =>
  ([x, y, z, ax, ay, az].mapM (dReal_val P)).map fun rs =>
    (s.foreign "dJointSetSliderAxisDelta" (Arg.ptr id :: rs.map Arg.real), Val_unit)

/-- Entry point `ocamlode_dJointSetSliderAxisDelta_bytecode (argv, argn)`: the fixed-arity form applied to
`argv[0]`, ..., `argv[6]`.  `none` where `argv` has fewer elements. -/
def ocamlode_dJointSetSliderAxisDelta_bytecode (P : Precision) (s : State) (argv : List hvalue) :
    Option (State × hvalue) :=
  match argv with
  | a0 :: a1 :: a2 :: a3 :: a4 :: a5 :: a6 :: _ =>
      ocamlode_dJointSetSliderAxisDelta P s a0 a1 a2 a3 a4 a5 a6
  | _ => none

/-- Entry point `ocamlode_dGeomRaySet_native (ray, px, py, pz, dx, dy, dz)`. -/
def ocamlode_dGeomRaySet_native (P : Precision) (s : State) (ray px py pz dx dy dz : hvalue) :
    Option (State × hvalue) :=
  (unwrap_val dGeomID_val s.heap ray).bind fun id =>
  ([px, py, pz, dx, dy, dz].mapM (dReal_val P)).map fun rs =>
    (s.foreign "dGeomRaySet" (Arg.ptr id :: rs.map Arg.real), Val_unit)

/-- Entry point `ocamlode_dGeomRaySet_bytecode (argv, argn)`: the fixed-arity form applied to
`argv[0]`, ..., `argv[6]`.  `none` where `argv` has fewer elements. -/
def ocamlode_dGeomRaySet_bytecode (P : Precision) (s : State) (argv : List hvalue) :
    Option (State × hvalue) :=
  match argv with
  | a0 :: a1 :: a2 :: a3 :: a4 :: a5 :: a6 :: _ =>
      ocamlode_dGeomRaySet_native P s a0 a1 a2 a3 a4 a5 a6
  | _ => none

/-- Entry point `ocamlode_dJointSetAMotorAxis (pv, anum, rel, x, y, z)`. -/
def ocamlode_dJointSetAMotorAxis (P : Precision) (s : State) (pv anum rel x y z : hvalue) :
    Option (State × hvalue) :=
  (unwrap_val dJointID_val s.heap pv).bind fun p =>
  (Int_val anum).bind fun an =>
  (Int_val rel).bind fun rl =>
  ([x, y, z].mapM (dReal_val P)).map fun rs =>
    (s.foreign "dJointSetAMotorAxis" (Arg.ptr p :: Arg.int an :: Arg.int rl :: rs.map Arg.real),
     Val_unit)

/-- Entry point `ocamlode_dJointSetAMotorAxis_bc (argv, argn)`: the fixed-arity form applied to
`argv[0]`, ..., `argv[5]`.  `none` where `argv` has fewer elements. -/
def ocamlode_dJointSetAMotorAxis_bc (P : Precision) (s : State) (argv : List hvalue) :
    Option (State × hvalue) :=
  match argv with
  | a0 :: a1 :: a2 :: a3 :: a4 :: a5 :: _ =>
      ocamlode_dJointSetAMotorAxis P s a0 a1 a2 a3 a4 a5
  | _ => none

/-- Entry point `ocamlode_dJointSetLMotorAxis (pv, anum, rel, x, y, z)`. -/
def ocamlode_dJointSetLMotorAxis (P : Precision) (s : State) (pv anum rel x y z : hvalue) :
    Option (State × hvalue) :=
  (unwrap_val dJointID_val s.heap pv).bind fun p =>
  (Int_val anum).bind fun an =>
  (Int_val rel).bind fun rl =>
  ([x, y, z].mapM (dReal_val P)).map fun rs =>
    (s.foreign "dJointSetLMotorAxis" (Arg.ptr p :: Arg.int an :: Arg.int rl :: rs.map Arg.real),
     Val_unit)

/-- Entry point `ocamlode_dJointSetLMotorAxis_bc (argv, argn)`: the fixed-arity form applied to
`argv[0]`, ..., `argv[5]`.  `none` where `argv` has fewer elements. -/
def ocamlode_dJointSetLMotorAxis_bc (P : Precision) (s : State) (argv : List hvalue) :
    Option (State × hvalue) :=
  match argv with
  | a0 :: a1 :: a2 :: a3 :: a4 :: a5 :: _ =>
      ocamlode_dJointSetLMotorAxis P s a0 a1 a2 a3 a4 a5
  | _ => none

/-- Entry point `ocamlode_dCreateTriMesh_bytecode (argv, argn)`: the fixed-arity form applied to
`argv[0]`, ..., `argv[5]`.  `none` where `argv` has fewer elements. -/
def ocamlode_dCreateTriMesh_bytecode (s : State) (argv : List hvalue) (ret : Nat) :
    Option Outcome :=
  match argv with
  | a0 :: a1 :: a2 :: a3 :: a4 :: a5 :: _ =>
      ocamlode_dCreateTriMesh_native s a0 a1 a2 a3 a4 a5 ret
  | _ => none

/-- Entry point `ocamlode_dGeomHeightfieldDataBuild (hf_data_id, pHeightDatav, width,
depth, widthSamples, depthSamples, scale, offset, thickness, wrap)`.  With
`MEM_CPY` the first `len` heights, `len` being the element count converted to
`int`, are copied into a buffer from `malloc`, whose size is computed in
`size_t` and whose result `malloc_ret` is not tested (a write through `NULL`
is a fault, a write past a buffer that the wrapped size made too small is
undefined, `none`); the buffer is passed and freed after the foreign call.
With `MEM_SHARE` the float array itself is passed. -/
def ocamlode_dGeomHeightfieldDataBuild (P : Precision) (A : Arch) (s : State)
    (hf_data_id pHeightDatav width depth widthSamples depthSamples scale offset thickness wrap :
      hvalue) (malloc_ret : Nat) : Option Outcome :=
  match pHeightDatav with
  | hvalue.floatarray a =>
      (dHeightfieldDataID_val hf_data_id).bind fun d =>
      ([width, depth, scale, offset, thickness].mapM (dReal_val P)).bind fun rs =>
      ([widthSamples, depthSamples, wrap].mapM Int_val).bind fun ns =>
        let args : List Nat → List Arg := fun pHeightData =>
          [Arg.ptr d, Arg.doubles pHeightData, Arg.int 1, Arg.real (rs.getD 0 0),
           Arg.real (rs.getD 1 0), Arg.int (ns.getD 0 0), Arg.int (ns.getD 1 0),
           Arg.real (rs.getD 2 0), Arg.real (rs.getD 3 0), Arg.real (rs.getD 4 0),
           Arg.int (ns.getD 2 0)]
        if MEM_CPY P then
          let len : Int :=
            wrap_signed 32 ((Wosize_val_floatarray A a / Double_wosize A : Nat) : Int)
          let size : Nat := ((len % 2 ^ A.bits) * 8 % 2 ^ A.bits).toNat
          let s1 : State := { s with calls := s.calls ++ [ForeignCall.malloc size malloc_ret] }
          if malloc_ret = 0 ∧ 0 < len then
            some (Except.error (Fault.segv, s1))
          else if size < len.toNat * 8 then none
          else
            let s2 := s1.foreign "dGeomHeightfieldDataBuildDouble" (args (a.take len.toNat))
            some (Except.ok
              ({ s2 with calls := s2.calls ++ [ForeignCall.free malloc_ret] }, Val_unit))
        else
          some (Except.ok (s.foreign "dGeomHeightfieldDataBuildDouble" (args a), Val_unit))
  | _ => none

/-- Entry point `ocamlode_dGeomHeightfieldDataBuild_bytecode (argv, argn)`: the fixed-arity form applied to
`argv[0]`, ..., `argv[9]`.  `none` where `argv` has fewer elements. -/
def ocamlode_dGeomHeightfieldDataBuild_bytecode (P : Precision) (A : Arch) (s : State) (argv : List hvalue) (malloc_ret : Nat) :
    Option Outcome :=
  match argv with
  | a0 :: a1 :: a2 :: a3 :: a4 :: a5 :: a6 :: a7 :: a8 :: a9 :: _ =>
      ocamlode_dGeomHeightfieldDataBuild P A s a0 a1 a2 a3 a4 a5 a6 a7 a8 a9 malloc_ret
  | _ => none

/-- Macro `dMass_data_custom_val (massv)`: the position of the custom block
that holds the `dMass`; `none` when `massv` points to no such block. -/
def dMass_data_custom_val (heap : Heap) (massv : hvalue) : Option Nat :=
  match massv with
  | hvalue.custom v =>
      match heap[v]? with
      | some (Custom.dMass _) => some v
      | _ => none
  | _ => none

/-- Entry point `ocamlode_dMassSetParameters (massv, themassv, cgxv, cgyv, cgzv,
i11v, i22v, i33v, i12v, i13v, i23v)`; `result` is what the foreign function
`dMassSetParameters` writes to the `dMass` it is given. -/
def ocamlode_dMassSetParameters (P : Precision) (s : State)
    (massv themassv cgxv cgyv cgzv i11v i22v i33v i12v i13v i23v : hvalue) (result : dMass) :
    Option (State × hvalue) :=
  ([themassv, cgxv, cgyv, cgzv, i11v, i22v, i33v, i12v, i13v, i23v].mapM (dReal_val P)).bind
    fun rs =>
  (dMass_data_custom_val s.heap massv).map fun v =>
    ({ heap := s.heap.set v (Custom.dMass result),
       calls := s.calls ++ [ForeignCall.call "dMassSetParameters"
         (Arg.data v :: rs.map Arg.real)] }, Val_unit)

/-- Entry point `ocamlode_dMassSetParameters_bc (argv, argn)`: the fixed-arity form applied to
`argv[0]`, ..., `argv[10]`.  `none` where `argv` has fewer elements. -/
def ocamlode_dMassSetParameters_bc (P : Precision) (s : State) (argv : List hvalue) (result : dMass) :
    Option (State × hvalue) :=
  match argv with
  | a0 :: a1 :: a2 :: a3 :: a4 :: a5 :: a6 :: a7 :: a8 :: a9 :: a10 :: _ =>
      ocamlode_dMassSetParameters P s a0 a1 a2 a3 a4 a5 a6 a7 a8 a9 a10 result
  | _ => none

/-! ## Collision callback trampoline -/

/-- What the host program does when a closure is applied to two arguments in a
given state: the state it leaves, and the value the closure returns
(`Except.ok`) or the exception it raises, as `caml_format_exception` prints it
(`Except.error`).  The closures are told apart by their number. -/
abbrev Host := Nat → hvalue → hvalue → State → State × Except String hvalue

/-- The state seen at the trampoline: heap and foreign calls, the lines written
to `stderr` by this file, and the closure applications made with
`caml_callback2_exn` so far, each with the closure and its two arguments. -/
structure Tramp where
  state : State
  stderr : List String
  applied : List (hvalue × hvalue × hvalue)

/-- Runtime function `caml_callback2_exn (closure, arg1, arg2)`: the closure is
applied to the two arguments; an exception it raises is returned as the
result and not propagated.  `none` when `closure` is no closure. -/
def caml_callback2_exn (host : Host) (t : Tramp) (closure arg1 arg2 : hvalue) :
    Option (Tramp × Except String hvalue) :=
  match closure with
  | hvalue.closure c =>
      let r := host c arg1 arg2 t.state
      some ({ t with state := r.1, applied := t.applied ++ [(closure, arg1, arg2)] }, r.2)
  | _ => none

/-- Function `dSpaceCollide_callback (fvpv, geom1, geom2)`; `fv` is the `value`
that `fvpv` points to.  The first generation has the same body without the
`fflush (stderr)`. -/
def dSpaceCollide_callback (host : Host) (t : Tramp) (fv : hvalue) (geom1 geom2 : Nat) :
    Option (Run Tramp) :=
  if geom1 = geom2 then some ⟨some Fault.assertion, t⟩
  else
    let geom1v := Val_dGeomID t.state.heap geom1
    let geom2v := Val_dGeomID geom1v.1 geom2
    let t1 : Tramp := { t with state := { t.state with heap := geom2v.1 } }
    (caml_callback2_exn host t1 fv (hvalue.custom geom1v.2) (hvalue.custom geom2v.2)).map
      fun r =>
        match r.2 with
        | Except.error msg =>
            ⟨none, { r.1 with stderr := r.1.stderr ++
              ["dSpaceCollide: callback raised exception: " ++ msg ++ "\n"] }⟩
        | Except.ok _ => ⟨none, r.1⟩

/-- Foreign functions `dSpaceCollide (space, data, callback)` and
`dSpaceCollide2 (o1, o2, data, callback)` as this file uses them, with
`dSpaceCollide_callback` for `callback` and a pointer to `fv` for `data`: the
callback is called for each pair of `pairs`, the pairs of geometries the
traversal finds, in order; a fault in a callback stops the process there. -/
def traversal (host : Host) (fv : hvalue) : Tramp → List (Nat × Nat) → Option (Run Tramp)
  | t, [] => some ⟨none, t⟩
  | t, p :: rest =>
      (dSpaceCollide_callback host t fv p.1 p.2).bind fun r =>
        match r.fault with
        | some f => some ⟨some f, r.out⟩
        | none => traversal host fv r.out rest

/-- The foreign call `fn (args)` recorded in the state at the trampoline. -/
def Tramp.foreign (t : Tramp) (fn : String) (args : List Arg) : Tramp :=
  { t with state := t.state.foreign fn args }

/-- Entry point `ocamlode_dSpaceCollide (idv, fv)`; `pairs` are the pairs of
geometries that `dSpaceCollide` finds.  The returned `value` is `Val_unit`. -/
def ocamlode_dSpaceCollide (host : Host) (t : Tramp) (idv fv : hvalue)
    (pairs : List (Nat × Nat)) : Option (Run Tramp) :=
  (unwrap_val dSpaceID_val t.state.heap idv).bind fun id =>
    traversal host fv (t.foreign "dSpaceCollide" [Arg.ptr id]) pairs

/-- Entry point `ocamlode_dSpaceCollide2 (o1, o2, fv)`; `pairs` are the pairs of
geometries that `dSpaceCollide2` finds.  The returned `value` is `Val_unit`. -/
def ocamlode_dSpaceCollide2 (host : Host) (t : Tramp) (o1 o2 fv : hvalue)
    (pairs : List (Nat × Nat)) : Option (Run Tramp) :=
  (unwrap_val dGeomID_val t.state.heap o1).bind fun g1 =>
  (unwrap_val dGeomID_val t.state.heap o2).bind fun g2 =>
    traversal host fv (t.foreign "dSpaceCollide2" [Arg.ptr g1, Arg.ptr g2]) pairs

/-- A host program whose closure 0 returns `()` and whose other closures raise
`Not_found`; neither touches the state. -/
def sampleHost : Host := fun c _ _ s =>
  if c = 0 then (s, Except.ok Val_unit) else (s, Except.error "Not_found")

/-- A state at the trampoline with one space handle around the address 4096 and
one geometry handle around 8192; nothing written or applied yet. -/
def sampleTramp : Tramp :=
  { state := { heap := [Custom.voidptr 4096, Custom.voidptr 8192], calls := [] },
    stderr := [], applied := [] }

/-- The heap when the trampoline applies the closure: the heap at entry with
the two handles of `Val_dGeomID (geom1)` and `Val_dGeomID (geom2)`. -/
def callback_heap (t : Tramp) (geom1 geom2 : Nat) : Heap :=
  (Val_dGeomID (Val_dGeomID t.state.heap geom1).1 geom2).1

/-- What closure `c` does when the trampoline, entered in `t` with `geom1` and
`geom2`, applies it to the two handles it has made. -/
def callback_application (host : Host) (t : Tramp) (c geom1 geom2 : Nat) :
    State × Except String hvalue :=
  host c (hvalue.custom (Val_dGeomID t.state.heap geom1).2)
    (hvalue.custom (Val_dGeomID (Val_dGeomID t.state.heap geom1).1 geom2).2)
    { t.state with heap := callback_heap t geom1 geom2 }

/-! ## Joint type encoders -/

/-- Function `copy_dContactGeom (c)`: the record of five fields, filled in the
order `pos`, `normal`, `depth`, `g1`, `g2`, with `assert (c->g1)` before the
fourth and `assert (c->g2)` before the fifth.  Gives the heap, which two new
handles are added to, and the record; or the fault, with the heap at that
point. -/
def copy_dContactGeom (P : Precision) (heap : Heap) (c : dContactGeom) :
    Except (Fault × Heap) (Heap × hvalue) :=
  let posv := copy_dReal_array P c.pos 4
  let normalv := copy_dReal_array P c.normal 4
  let depthv := of_dReal P c.depth
  if c.g1 = 0 then Except.error (Fault.assertion, heap)
  else
    let g1v := Val_dGeomID heap c.g1
    if c.g2 = 0 then Except.error (Fault.assertion, g1v.1)
    else
      let g2v := Val_dGeomID g1v.1 c.g2
      Except.ok (g2v.1,
        hvalue.block 0 [hvalue.floatarray posv, hvalue.floatarray normalv,
          hvalue.double depthv, hvalue.custom g1v.2, hvalue.custom g2v.2])

/-- Whether the conversion of the `dReal` with bits `x` to `double` and back
gives `x` again: always when `dReal` is `double`; when it is `float`, for a
32-bit pattern that is not a signalling NaN (exponent field not all ones, or
fraction zero, or the quiet bit, bit 22, set). -/
def dReal_number (P : Precision) (x : Nat) : Bool :=
  match P with
  | Precision.dDOUBLE => true
  | Precision.dSINGLE =>
      decide (x < 2 ^ 32)
        && (x / 2 ^ 23 % 2 ^ 8 != 255 || x % 2 ^ 23 == 0 || x / 2 ^ 22 % 2 == 1)

/-- The contact of `singleContactGeom` with the signalling NaN `0x7F800001` for
depth. -/
def signallingContactGeom : dContactGeom :=
  { pos := [0x3F800000, 0x40000000, 0x40400000, 0],
    normal := [0, 0, 0x3F800000, 0],
    depth := 0x7F800001, g1 := 4096, g2 := 8192 }

/-- A contact with position (1, 2, 3), normal (0, 0, 1) and depth 0.5 in single
precision, between the geometries at 4096 and 8192. -/
def singleContactGeom : dContactGeom :=
  { pos := [0x3F800000, 0x40000000, 0x40400000, 0],
    normal := [0, 0, 0x3F800000, 0],
    depth := 0x3F000000, g1 := 4096, g2 := 8192 }

/-! ## Rotation matrices and quaternions -/

/-- Entry point `ocamlode_dBodySetRotation (idv, mv)`.  With `MEM_CPY` the
local `m` is filled by the loop `m[i] = Double_field (mv, i)` for `i < 12`
(every element is written, so what `m` held before, here zeros, does not
show) and passed; with `MEM_SHARE` the float array itself is passed.  No size
of `mv` is tested, so `past` gives the memory after the float array. -/
def ocamlode_dBodySetRotation (P : Precision) (past : Nat → Nat) (s : State) (idv mv : hvalue) :
    Option (State × hvalue) :=
  (unwrap_val dBodyID_val s.heap idv).bind fun id =>
    match mv with
    | hvalue.floatarray a =>
        if MEM_CPY P then
          let m := (List.range 12).foldl
            (fun m i => m.set i (to_dReal P (Double_field past a i))) (List.replicate 12 0)
          some (s.foreign "dBodySetRotation" [Arg.ptr id, Arg.reals m], Val_unit)
        else
          some (s.foreign "dBodySetRotation" [Arg.ptr id, Arg.doubles a], Val_unit)
    | _ => none

/-- Entry point `ocamlode_dBodySetQuaternion (idv, qv)`.  With `MEM_CPY` the
local `q` is filled by the loop `q[i] = Double_field (qv, i)` for `i < 4` and
passed; with `MEM_SHARE` the float array itself is passed.  No size of `qv`
is tested, so `past` gives the memory after the float array. -/
def ocamlode_dBodySetQuaternion (P : Precision) (past : Nat → Nat) (s : State)
    (idv qv : hvalue) : Option (State × hvalue) :=
  (unwrap_val dBodyID_val s.heap idv).bind fun id =>
    match qv with
    | hvalue.floatarray a =>
        if MEM_CPY P then
          let q := (List.range 4).foldl
            (fun q i => q.set i (to_dReal P (Double_field past a i))) (List.replicate 4 0)
          some (s.foreign "dBodySetQuaternion" [Arg.ptr id, Arg.reals q], Val_unit)
        else
          some (s.foreign "dBodySetQuaternion" [Arg.ptr id, Arg.doubles a], Val_unit)
    | _ => none

/-- The `dMass` in the custom block that `massv` points to. -/
def dMass_deref (heap : Heap) (massv : hvalue) : Option dMass :=
  match massv with
  | hvalue.custom v =>
      match heap[v]? with
      | some (Custom.dMass m) => some m
      | _ => none
  | _ => none

/-- Entry point `ocamlode_dMass_set_I (massv, matrixv)`: with `MEM_CPY` the loop
`mp->I[i] = Double_field (matrixv, i)` for `i < 12`, with `MEM_SHARE` a
`memcpy` of `sizeof (dMatrix3)`, twelve elements read at `matrixv`.  No size
of `matrixv` is tested, so `past` gives the memory after the float array. -/
def ocamlode_dMass_set_I (P : Precision) (past : Nat → Nat) (s : State)
    (massv matrixv : hvalue) : Option (State × hvalue) :=
  (dMass_data_custom_val s.heap massv).bind fun v =>
  (dMass_deref s.heap massv).bind fun mp =>
    match matrixv with
    | hvalue.floatarray a =>
        let I :=
          if MEM_CPY P then
            (List.range 12).foldl (fun r i => r.set i (to_dReal P (Double_field past a i))) mp.I
          else
            memcpy mp.I (Double_field past a) 12
        some ({ s with heap := s.heap.set v (Custom.dMass { mp with I := I }) }, Val_unit)
    | _ => none

/-- A rotation matrix of thirteen floats: the identity followed by 2.0. -/
def thirteenMatrix : List Nat := identityMatrix ++ [0x4000000000000000]

/-- A quaternion of five floats: (1, 0, 0, 0) followed by 2.0. -/
def fiveQuaternion : List Nat := [0x3FF0000000000000, 0, 0, 0, 0x4000000000000000]

/-- A float array of `2 ^ 31 + 1` elements, each 0.0. -/
def hugeVertices : List Nat := List.replicate 2147483649 0

/-- A plane array of `2 ^ 32` floats, each 0.0. -/
def hugePlanes : List Nat := List.replicate 4294967296 0

/-- A rotation matrix of eleven floats: the identity without its last element. -/
def elevenMatrix : List Nat := identityMatrix.take 11

/-- Memory that holds the float 5.0 everywhere. -/
def fiveAfter : Nat → Nat := fun _ => 0x4014000000000000

/-! ## Queries that wrap a pointer again -/

/-- Entry point `ocamlode_dBodyGetWorld (idv)`: `return Val_dWorldID (wid)` for
the `wid` that `dBodyGetWorld` returns, here `ret`. -/
def ocamlode_dBodyGetWorld (s : State) (idv : hvalue) (ret : Nat) : Option (State × hvalue) :=
  (unwrap_val dBodyID_val s.heap idv).map fun id =>
    return_handle Val_dWorldID (s.foreign "dBodyGetWorld" [Arg.ptr id]) ret

/-- Entry point `ocamlode_dSpaceGetGeom (space, i)`: `Val_dGeomID (id)` for the
`id` that `dSpaceGetGeom` returns, here `ret`. -/
def ocamlode_dSpaceGetGeom (s : State) (space i : hvalue) (ret : Nat) :
    Option (State × hvalue) :=
  (unwrap_val dSpaceID_val s.heap space).bind fun sp =>
  (Int_val i).map fun n =>
    return_handle Val_dGeomID (s.foreign "dSpaceGetGeom" [Arg.ptr sp, Arg.int n]) ret

/-! ## Convex data -/

/-- Expression `sizeof (dReal)`. -/
def sizeof_dReal : Precision → Nat
  | Precision.dSINGLE => 4
  | Precision.dDOUBLE => 8

/-- The state after `malloc (size)` has returned `ret`. -/
def State.malloc (s : State) (size ret : Nat) : State :=
  { s with calls := s.calls ++ [ForeignCall.malloc size ret] }

/-- The state after `free (ptr)`. -/
def State.free (s : State) (ptr : Nat) : State :=
  { s with calls := s.calls ++ [ForeignCall.free ptr] }

/-- Entry point `ocamlode_get_dConvexDataID (planesv, pointsv, polygonesv)`.  The
three counts are `unsigned int`; `m_planes`, `m_points` and `m_polygons` are
the pointers that the three calls of `malloc` return (0 for `NULL`).  The
test `!_planes || !_points || !_polygons` after the three checks of the
pointers cannot hold and is left out.  The counter of the three loops is
`int i`: with a count of `2 ^ 31` or more `++i` overflows, which is undefined
(`none`).  A count is at most the length of its array, so no read leaves the
array. -/
def ocamlode_get_dConvexDataID (P : Precision) (A : Arch) (s : State)
    (planesv pointsv polygonesv : hvalue) (m_planes m_points m_polygons : Nat) :
    Option Outcome :=
  match planesv, pointsv, polygonesv with
  | hvalue.floatarray planes, hvalue.floatarray points, hvalue.block _ polygones =>
      let _planecount := (Wosize_val_floatarray A planes / Double_wosize A) % 2 ^ 32
      let _pointcount := (Wosize_val_floatarray A points / Double_wosize A) % 2 ^ 32
      let polyscount := polygones.length % 2 ^ 32
      if polyscount ≠ (_planecount / 4 * 5) % 2 ^ 32 then
        some (Except.error (Fault.invalid_argument "dCreateConvex: wrong polygones number", s))
      else
        let s1 := s.malloc (_planecount * sizeof_dReal P % 2 ^ A.bits) m_planes
        if m_planes = 0 then some (Except.error (Fault.failwith "Out of memory", s1))
        else
          let s2 := s1.malloc (_pointcount * sizeof_dReal P % 2 ^ A.bits) m_points
          if m_points = 0 then
            some (Except.error (Fault.failwith "Out of memory", s2.free m_planes))
          else
            let s3 := s2.malloc (polyscount * 4 % 2 ^ A.bits) m_polygons
            if m_polygons = 0 then
              some (Except.error (Fault.failwith "Out of memory",
                (s3.free m_planes).free m_points))
            else if 2 ^ 31 ≤ _planecount ∨ 2 ^ 31 ≤ _pointcount ∨ 2 ^ 31 ≤ polyscount then none
            else
              ((List.range polyscount).mapM fun i => (polygones[i]?).bind Long_val).map
                fun ls =>
                  Except.ok (s3, hvalue.convexdata
                    { planecount := _planecount / 4,
                      pointcount := _pointcount / 3,
                      planes := m_planes,
                      points := m_points,
                      polygons := m_polygons,
                      planes_data := (List.range _planecount).map
                        fun i => to_dReal P (Double_field unread planes i),
                      points_data := (List.range _pointcount).map
                        fun i => to_dReal P (Double_field unread points i),
                      polygons_data := ls.map fun l => (l % 2 ^ 32).toNat })
  | _, _, _ => none

/-- Function `finalize_convexdata (v)`: each of the three buffer pointers is
read from the block into a local variable and, when not `NULL`, passed to
`free`; the `NULL` is then assigned to the local variable.  No member of
the block is assigned.  (The `fflush (stdout)` at the end is left out.)
Gives the state and what the block of `v` holds afterwards. -/
def finalize_convexdata (s : State) (v : hvalue) : Option (State × dConvexDataID) :=
  match v with
  | hvalue.convexdata d =>
      let planes := d.planes
      let points := d.points
      let polygs := d.polygons
      let s1 := if planes ≠ 0 then s.free planes else s
      let s2 := if points ≠ 0 then s1.free points else s1
      let s3 := if polygs ≠ 0 then s2.free polygs else s2
      some (s3, d)
  | _ => none

/-- Entry point `ocamlode_free_dConvexDataID (v)`: `finalize_convexdata (v)`, then
`Val_unit`.  Gives also what the block of `v` holds afterwards. -/
def ocamlode_free_dConvexDataID (s : State) (v : hvalue) :
    Option (State × hvalue × dConvexDataID) :=
  (finalize_convexdata s v).map fun r => (r.1, Val_unit, r.2)

/-- A convex-data descriptor of one plane and three points, with its buffers
at 4096, 8192 and 12288. -/
def sampleConvex : dConvexDataID :=
  { planecount := 1, pointcount := 3, planes := 4096, points := 8192, polygons := 12288,
    planes_data := [0, 0, 0x3FF0000000000000, 0],
    points_data := [0, 0, 0, 0x3FF0000000000000, 0, 0, 0, 0x3FF0000000000000, 0],
    polygons_data := [3, 0, 1, 2, 0] }

/-! ## Mass descriptors -/

/-- Function `copy_dMass (mass)`: a new custom block with a copy of `*mass`. -/
def copy_dMass (heap : Heap) (mass : dMass) : Heap × value :=
  (heap ++ [Custom.dMass mass], heap.length)

/-- A `dMass` after `memset (&mass, 0, sizeof (dMass))`. -/
def zero_dMass : dMass :=
  { mass := 0, c := List.replicate 4 0, I := List.replicate 12 0 }

/-- Entry point `ocamlode_dMassCreate (unit)`: the local `mass` is cleared with
`memset` and copied into a new custom block. -/
def ocamlode_dMassCreate (s : State) : State × hvalue :=
  ({ s with heap := (copy_dMass s.heap zero_dMass).1 },
   hvalue.custom (copy_dMass s.heap zero_dMass).2)

/-- The first-generation `ocamlode_dMassCreate (unit)`: the local `mass` is
copied into a new custom block without having been assigned; `stack` is what
its memory holds. -/
def Gen1.ocamlode_dMassCreate (s : State) (stack : dMass) : State × hvalue :=
  ({ s with heap := (copy_dMass s.heap stack).1 },
   hvalue.custom (copy_dMass s.heap stack).2)

/-- Entry point `ocamlode_dMass_set_mass (massv, m)`. -/
def ocamlode_dMass_set_mass (P : Precision) (s : State) (massv m : hvalue) :
    Option (State × hvalue) :=
  (dMass_data_custom_val s.heap massv).bind fun v =>
  (dMass_deref s.heap massv).bind fun mp =>
  (Double_val m).map fun x =>
    ({ s with heap := s.heap.set v (Custom.dMass { mp with mass := to_dReal P x }) }, Val_unit)

/-- Entry point `ocamlode_dMass_mass (massv)`, the same in both generations. -/
def ocamlode_dMass_mass (P : Precision) (s : State) (massv : hvalue) : Option hvalue :=
  (dMass_deref s.heap massv).map fun mp => hvalue.double (of_dReal P mp.mass)

/-- Entry point `ocamlode_dMass_c (massv)`. -/
def ocamlode_dMass_c (P : Precision) (s : State) (massv : hvalue) : Option hvalue :=
  (dMass_deref s.heap massv).map fun mp => hvalue.floatarray (copy_dVector4 P mp.c)

/-- Entry point `ocamlode_dMass_I (massv)`. -/
def ocamlode_dMass_I (P : Precision) (s : State) (massv : hvalue) : Option hvalue :=
  (dMass_deref s.heap massv).map fun mp => hvalue.floatarray (copy_dReal_array P mp.I 12)

/-- A `dMass` whose members all hold the bits of 1.0 in double precision. -/
def onesMass : dMass :=
  { mass := 0x3FF0000000000000, c := List.replicate 4 0x3FF0000000000000,
    I := List.replicate 12 0x3FF0000000000000 }

/-! ## Hash of a handle -/

/-- Function `hash_voidptr (v)`: `(long) data`. -/
def hash_voidptr (A : Arch) (heap : Heap) (v : value) : Option Int :=
  (_Voidptr_val heap v).map fun data => wrap_signed A.bits (data : Int)

/-- Two live handles whose addresses are 2 GiB apart. -/
def halfHeap : Heap := [Custom.voidptr 0x7f0080000000, Custom.voidptr 0x7f0000000000]

/-! ## Collision of two geometries -/

/-- The first-generation `copy_float_array (a, n)`: a fresh float array of `n`
elements, filled by the loop `Store_double_field (av, i, a[i])`; `a` is an
array of `double`. -/
def Gen1.copy_float_array (a : List Nat) (n : Nat) : List Nat :=
  (List.range n).foldl (fun av i => av.set i (a.getD i 0)) (List.replicate n 0)

/-- The first-generation `copy_dContactGeom (c)`, which differs from the second
in using `copy_float_array` for `pos` and `normal`; these are passed as arrays
of `double`, which they are in the `dDOUBLE` build that the model takes here. -/
def Gen1.copy_dContactGeom (heap : Heap) (c : dContactGeom) :
    Except (Fault × Heap) (Heap × hvalue) :=
  let posv := Gen1.copy_float_array c.pos 4
  let normalv := Gen1.copy_float_array c.normal 4
  let depthv := of_dReal Precision.dDOUBLE c.depth
  if c.g1 = 0 then Except.error (Fault.assertion, heap)
  else
    let g1v := Val_dGeomID heap c.g1
    if c.g2 = 0 then Except.error (Fault.assertion, g1v.1)
    else
      let g2v := Val_dGeomID g1v.1 c.g2
      Except.ok (g2v.1,
        hvalue.block 0 [hvalue.floatarray posv, hvalue.floatarray normalv,
          hvalue.double depthv, hvalue.custom g1v.2, hvalue.custom g2v.2])

/-- The loop `for (i = 0; i < n; ++i) caml_modify (&Field (contactsv, i),
copy_dContactGeom (&contacts[i]));` over the contacts it reads, with the
`copy_dContactGeom` of the generation for `copy`: the heap and the fields
stored, or the fault of the first `copy_dContactGeom` that stops. -/
def copy_contacts (copy : Heap → dContactGeom → Except (Fault × Heap) (Heap × hvalue)) :
    Heap → List dContactGeom → Except (Fault × Heap) (Heap × List hvalue)
  | heap, [] => Except.ok (heap, [])
  | heap, c :: cs =>
      match copy heap c with
      | Except.error e => Except.error e
      | Except.ok r =>
          match copy_contacts copy r.1 cs with
          | Except.error e => Except.error e
          | Except.ok rs => Except.ok (rs.1, r.2 :: rs.2)

/-- The body of `ocamlode_dCollide (geom1v, geom2v, maxv)`, which is the same
in both generations (the second has an `#if 0` block besides), with the
`copy_dContactGeom` of the generation for `copy`.  `n` is the `int` that
`dCollide` returns and `contacts` what the array `contacts` holds after the
call.  `none` where C leaves the behaviour undefined: an array of negative
size, or elements read outside the array. -/
def dCollide_body (copy : Heap → dContactGeom → Except (Fault × Heap) (Heap × hvalue))
    (s : State) (geom1v geom2v maxv : hvalue) (n : Int) (contacts : List dContactGeom) :
    Option Outcome :=
  (unwrap_val dGeomID_val s.heap geom1v).bind fun geom1 =>
  (unwrap_val dGeomID_val s.heap geom2v).bind fun geom2 =>
  (Int_val maxv).bind fun max =>
    let flags := (max % 2 ^ 32).toNat &&& 0xffff
    if max < 0 then none
    else
      let s1 := s.foreign "dCollide"
        [Arg.ptr geom1, Arg.ptr geom2, Arg.uint flags, Arg.buffer max.toNat,
         Arg.sizeof "dContactGeom"]
      if n < 0 ∨ max < n ∨ contacts.length < n.toNat then none
      else
        match copy_contacts copy s1.heap (contacts.take n.toNat) with
        | Except.error e => some (Except.error (e.1, { s1 with heap := e.2 }))
        | Except.ok r => some (Except.ok ({ s1 with heap := r.1 }, hvalue.block 0 r.2))

/-- Entry point `ocamlode_dCollide (geom1v, geom2v, maxv)`. -/
def ocamlode_dCollide (P : Precision) (s : State) (geom1v geom2v maxv : hvalue) (n : Int)
    (contacts : List dContactGeom) : Option Outcome :=
  dCollide_body (copy_dContactGeom P) s geom1v geom2v maxv n contacts

/-- The first-generation `ocamlode_dCollide (geom1v, geom2v, maxv)`. -/
def Gen1.ocamlode_dCollide (s : State) (geom1v geom2v maxv : hvalue) (n : Int)
    (contacts : List dContactGeom) : Option Outcome :=
  dCollide_body Gen1.copy_dContactGeom s geom1v geom2v maxv n contacts

/-- The handles that `copy_dContactGeom` makes for a list of contacts, in the
order in which they are allocated. -/
def contact_handles (cs : List dContactGeom) : List Custom :=
  cs.flatMap fun c => [Custom.voidptr c.g1, Custom.voidptr c.g2]

/-- A contact in double precision with position (1, 0, 0), normal (0, 0, 1)
and depth 0.5, between the geometries at 4096 and 8192. -/
def doubleContactGeom : dContactGeom :=
  { pos := [0x3FF0000000000000, 0, 0, 0],
    normal := [0, 0, 0x3FF0000000000000, 0],
    depth := 0x3FE0000000000000, g1 := 4096, g2 := 8192 }

/-! ## Handle kinds -/

/-- The kinds of handle for which `ode_c.c` defines a wrap and an unwrap macro. -/
inductive HandleKind where
  | world
  | body
  | space
  | geom
  | jointgroup
  | joint
  | trimeshdata
deriving DecidableEq, Repr

/-- The wrap macro of a kind: `Val_dWorldID`, `Val_dBodyID`, and so on. -/
def Val_handle : HandleKind → Heap → Nat → Heap × value
  | HandleKind.world => Val_dWorldID
  | HandleKind.body => Val_dBodyID
  | HandleKind.space => Val_dSpaceID
  | HandleKind.geom => Val_dGeomID
  | HandleKind.jointgroup => Val_dJointGroupID
  | HandleKind.joint => Val_dJointID
  | HandleKind.trimeshdata => Val_dTriMeshDataID

/-- The unwrap macro of a kind: `dWorldID_val`, `dBodyID_val`, and so on. -/
def handle_val : HandleKind → Heap → value → Option Nat
  | HandleKind.world => dWorldID_val
  | HandleKind.body => dBodyID_val
  | HandleKind.space => dSpaceID_val
  | HandleKind.geom => dGeomID_val
  | HandleKind.jointgroup => dJointGroupID_val
  | HandleKind.joint => dJointID_val
  | HandleKind.trimeshdata => dTriMeshDataID_val

/-! ## Trimesh data -/

/-- Entry point `ocamlode_dGeomTriMeshDataDestroy (idv)`: unwraps the handle and
calls `dGeomTriMeshDataDestroy`; there is no other statement. -/
def ocamlode_dGeomTriMeshDataDestroy (s : State) (idv : value) : Option State :=
  (dTriMeshDataID_val s.heap idv).map fun id =>
    { s with calls := s.calls ++ [ForeignCall.dGeomTriMeshDataDestroy id] }

/-- A state with one trimesh-data wrapper, as `ocamlode_dGeomTriMeshDataCreate`
makes it, around the address 4096. -/
def trimeshState : State := { heap := (Val_dTriMeshDataID_2 [] 4096 0).1, calls := [] }

/-- The trace of what `set_data2` did on the block `rv`: the calls of `free`,
then the store after the block if there was one. -/
def Data2Result.events (r : Data2Result) (rv : value) : List ForeignCall :=
  r.freed.map ForeignCall.free ++
    (match r.stored_after with
     | some word => [ForeignCall.store_after_block rv word]
     | none => [])

/-- Entry point `ocamlode_dGeomTriMeshGetData (geom)`: the pointer that
`dGeomTriMeshGetData` returns, here `ret`, wrapped with `Val_dTriMeshDataID`, in
a block of one pointer.  (`ocamlode_dGeomTriMeshGetTriMeshDataID` is the same
with `dGeomTriMeshGetTriMeshDataID`.) -/
def ocamlode_dGeomTriMeshGetData (s : State) (geom : hvalue) (ret : Nat) :
    Option (State × hvalue) :=
  (unwrap_val dGeomID_val s.heap geom).map fun g =>
    return_handle Val_dTriMeshDataID (s.foreign "dGeomTriMeshGetData" [Arg.ptr g]) ret

/-- Entry point `ocamlode_dGeomTriMeshDataBuildDouble (idv, vertices, indicesv)`.
The float array `vertices` and the int array `indicesv` are given by their
elements; `malloc_ret` is the pointer that `malloc` returns (0 for `NULL`) and
`after` the word of memory after the block of `idv`, which `set_data2` reads
when that block has one pointer.  The lengths are held in the variables
`int lenv, leni`.  The two length checks raise `Invalid_argument`; after them
the index buffer of `leni * sizeof (int)` bytes (computed in `size_t`) is
allocated and filled by the loop `for (i = 0; i < leni; i++)`, the foreign
build function is called, and `set_data2` stores the buffer in the wrapper.
`none` where the loop would write past the buffer. -/
def ocamlode_dGeomTriMeshDataBuildDouble (A : Arch) (s : State) (idv : value)
    (vertices : List Nat) (indicesv : List Int) (malloc_ret after : Nat) :
    Option (Run State) :=
  (dTriMeshDataID_val s.heap idv).bind fun id =>
    let lenv : Int := wrap_signed 32 ((Wosize_val_floatarray A vertices / Double_wosize A : Nat) : Int)
    if lenv.tmod 3 ≠ 0 then
      some { fault := some (Fault.invalid_argument "vertices array length not multiple of 3"),
             out := s }
    else
      let leni : Int := wrap_signed 32 ((indicesv.length : Nat) : Int)
      if leni.tmod 3 ≠ 0 then
        some { fault := some (Fault.invalid_argument "indices array length not multiple of 3"),
               out := s }
      else
        let size : Nat := ((leni % 2 ^ A.bits) * 4 % 2 ^ A.bits).toNat
        let s1 : State := { s with calls := s.calls ++ [ForeignCall.malloc size malloc_ret] }
        if malloc_ret = 0 then
          some { fault := some (Fault.failwith "Out of memory"), out := s1 }
        else if size < leni.toNat * 4 then none
        else
          let indices := (indicesv.take leni.toNat).map (wrap_signed 32)
          let s2 : State :=
            { s1 with calls := s1.calls ++
                [ForeignCall.dGeomTriMeshDataBuildDouble id vertices (3 * 8) (lenv.tdiv 3)
                  malloc_ret indices leni (3 * 4)] }
          (set_data2 s2.heap idv malloc_ret after).map fun r =>
            { fault := none,
              out := { heap := r.heap, calls := s2.calls ++ r.events idv } }

/-- Entry point `ocamlode_dGeomTriMeshDataCreate (unit)`: the pointer that
`dGeomTriMeshDataCreate` returns, here `ret`, wrapped with
`Val_dTriMeshDataID_2 (id, NULL)`, in a block of two pointers. -/
def ocamlode_dGeomTriMeshDataCreate (s : State) (ret : Nat) : State × hvalue :=
  return_handle (fun heap id => Val_dTriMeshDataID_2 heap id 0)
    (s.foreign "dGeomTriMeshDataCreate" []) ret

/-! ## First-generation joint parameter decoder -/

/-- A statement in the body of the `switch` of the first-generation
`dJointParam_val`: an assignment `p = c;` or `abort ();`. -/
inductive Gen1.Stmt where
  | assign (c : JointParam)
  | abort
deriving DecidableEq, Repr

/-- The body of the `switch` of the first-generation `dJointParam_val`: each
label (`none` for `default`) with the statement after it.  No statement of
the body is a `break`. -/
def Gen1.dJointParam_switch : List (Option Int × Gen1.Stmt) :=
  [(some 0, Gen1.Stmt.assign JointParam.dParamLoStop),
   (some 1, Gen1.Stmt.assign JointParam.dParamHiStop),
   (some 2, Gen1.Stmt.assign JointParam.dParamVel),
   (some 3, Gen1.Stmt.assign JointParam.dParamFMax),
   (some 4, Gen1.Stmt.assign JointParam.dParamFudgeFactor),
   (some 5, Gen1.Stmt.assign JointParam.dParamBounce),
   (some 6, Gen1.Stmt.assign JointParam.dParamCFM),
   (some 7, Gen1.Stmt.assign JointParam.dParamStopERP),
   (some 8, Gen1.Stmt.assign JointParam.dParamStopCFM),
   (some 9, Gen1.Stmt.assign JointParam.dParamSuspensionERP),
   (some 10, Gen1.Stmt.assign JointParam.dParamSuspensionCFM),
   (none, Gen1.Stmt.abort)]

/-- The statements of a `switch` body run in order from a label on: without a
`break`, control falls through to the next label.  The second argument is the
variable `p` (`none` while not assigned). -/
def Gen1.run_stmts (K : JointParam → Int) :
    List (Option Int × Gen1.Stmt) → Option Int → Except Fault (Option Int)
  | [], p => Except.ok p
  | (_, Gen1.Stmt.assign c) :: rest, _ => Gen1.run_stmts K rest (some (K c))
  | (_, Gen1.Stmt.abort) :: _, _ => Except.error Fault.abort

/-- The statement `switch (i) { body }`: control jumps to the label `case i:`,
or to `default:` when no label matches, or past the body when there is
neither. -/
def Gen1.switch (K : JointParam → Int) (body : List (Option Int × Gen1.Stmt)) (i : Int) :
    Except Fault (Option Int) :=
  match body.dropWhile (fun e => decide (e.1 ≠ some i)) with
  | e :: rest => Gen1.run_stmts K (e :: rest) none
  | [] => Gen1.run_stmts K (body.dropWhile (fun e => decide (e.1 ≠ none))) none

/-- The first-generation `dJointParam_val (paramv)`: the `switch` on
`Int_val (paramv)`, here `i`, followed by `CAMLreturn (p)`. -/
def Gen1.dJointParam_val (K : JointParam → Int) (i : Int) : Except Fault (Option Int) :=
  Gen1.switch K Gen1.dJointParam_switch i

/-! ## Lemmas on the heap -/

theorem Voidptr_val_wrap (heap : Heap) (p : Nat) :
    _Voidptr_val (Val_voidptr heap p).1 (Val_voidptr heap p).2 = some p := by
  simp [_Voidptr_val, Val_voidptr, Custom.data]

theorem Voidptr_val_wrap2 (heap : Heap) (p p2 : Nat) :
    _Voidptr_val (Val_voidptr2 heap p p2).1 (Val_voidptr2 heap p p2).2 = some p := by
  simp [_Voidptr_val, Val_voidptr2, Custom.data]

theorem destroy_length (heap : Heap) (rv : value) :
    (destroy_voidptr heap rv).length = heap.length := by
  unfold destroy_voidptr
  split <;> simp

theorem Voidptr_val_destroy_same (heap : Heap) (h : value) (hh : h < heap.length) :
    _Voidptr_val (destroy_voidptr heap h) h = some 0 := by
  unfold destroy_voidptr _Voidptr_val
  have hget : heap[h]? = some heap[h] := List.getElem?_eq_getElem hh
  rw [hget]
  simp only [List.getElem?_set_self hh, Option.map_some']
  cases heap[h] <;> rfl

theorem Voidptr_val_destroy_other (heap : Heap) (h k : value) (hne : k ≠ h) :
    _Voidptr_val (destroy_voidptr heap k) h = _Voidptr_val heap h := by
  unfold destroy_voidptr _Voidptr_val
  split
  · rw [List.getElem?_set_ne hne]
  · rfl

theorem lt_of_Voidptr_val (heap : Heap) (h : value) (d : Nat)
    (hd : _Voidptr_val heap h = some d) : h < heap.length := by
  unfold _Voidptr_val at hd
  by_contra hge
  rw [List.getElem?_eq_none (Nat.le_of_not_lt hge)] at hd
  simp at hd

theorem Voidptr_val_append (heap : Heap) (h : value) (d : Nat) (c : Custom)
    (hd : _Voidptr_val heap h = some d) : _Voidptr_val (heap ++ [c]) h = some d := by
  have hlt := lt_of_Voidptr_val heap h d hd
  unfold _Voidptr_val at hd ⊢
  rw [List.getElem?_append_left hlt]
  exact hd

theorem Voidptr_val_set_data2 (heap : Heap) (rv h : value) (d2 after : Nat)
    (r : Data2Result) (hr : set_data2 heap rv d2 after = some r) :
    _Voidptr_val r.heap h = _Voidptr_val heap h := by
  unfold set_data2 at hr
  split at hr
  next d old heq =>
    simp only [Option.some.injEq] at hr
    subst hr
    by_cases hrv : rv = h
    · subst hrv
      have hlt : rv < heap.length := by
        by_contra hge
        rw [List.getElem?_eq_none (Nat.le_of_not_lt hge)] at heq
        simp at heq
      simp [_Voidptr_val, List.getElem?_set_self hlt, heq, Custom.data]
    · simp only [_Voidptr_val]
      rw [List.getElem?_set_ne hrv]
  next d heq =>
    simp only [Option.some.injEq] at hr
    subst hr
    rfl
  next => simp at hr

theorem Voidptr_val_run_preserved (op : HeapOp) (heap : Heap) (h : value) (d : Nat)
    (hd : _Voidptr_val heap h = some d) (hop : op ≠ HeapOp.destroy h) :
    _Voidptr_val (op.run heap) h = some d := by
  cases op with
  | wrap p => exact Voidptr_val_append heap h d _ hd
  | wrap2 p p2 => exact Voidptr_val_append heap h d _ hd
  | destroy rv =>
      have hne : rv ≠ h := fun e => hop (by rw [e])
      simp only [HeapOp.run]
      rw [Voidptr_val_destroy_other heap h rv hne]
      exact hd

theorem Voidptr_val_run_null (op : HeapOp) (heap : Heap) (h : value)
    (hd : _Voidptr_val heap h = some 0) :
    _Voidptr_val (op.run heap) h = some 0 := by
  by_cases hop : op = HeapOp.destroy h
  · subst hop
    exact Voidptr_val_destroy_same heap h (lt_of_Voidptr_val heap h 0 hd)
  · exact Voidptr_val_run_preserved op heap h 0 hd hop

theorem Voidptr_val_runOps_null (ops : List HeapOp) (heap : Heap) (h : value)
    (hd : _Voidptr_val heap h = some 0) :
    _Voidptr_val (runOps ops heap) h = some 0 := by
  induction ops generalizing heap with
  | nil => exact hd
  | cons op rest ih =>
      simp only [runOps, List.foldl_cons]
      exact ih (op.run heap) (Voidptr_val_run_null op heap h hd)

theorem destroy_idem (heap : Heap) (h : value) :
    destroy_voidptr (destroy_voidptr heap h) h = destroy_voidptr heap h := by
  by_cases hlt : h < heap.length
  · have hget : heap[h]? = some heap[h] := List.getElem?_eq_getElem hlt
    unfold destroy_voidptr
    rw [hget]
    simp only [List.getElem?_set_self hlt, List.set_set]
    cases heap[h] <;> rfl
  · have hnone : heap[h]? = none := List.getElem?_eq_none (Nat.le_of_not_lt hlt)
    unfold destroy_voidptr
    rw [hnone]
    simp only [hnone]

/-! ## The handle wrapper: round trip, poisoning, destroy entry points -/

/-- C1: for every foreign pointer `p` and every handle kind (world, body, space,
geom, joint group, joint, trimesh data), unwrapping the handle produced by
wrapping `p` returns `p`; so does unwrapping a trimesh-data handle made with
`Val_dTriMeshDataID_2`, whatever its auxiliary pointer `d`. -/
theorem C1_handle_round_trip (heap : Heap) (p d : Nat) :
    _Voidptr_val (Val_voidptr heap p).1 (Val_voidptr heap p).2 = some p
    ∧ dWorldID_val (Val_dWorldID heap p).1 (Val_dWorldID heap p).2 = some p
    ∧ dBodyID_val (Val_dBodyID heap p).1 (Val_dBodyID heap p).2 = some p
    ∧ dSpaceID_val (Val_dSpaceID heap p).1 (Val_dSpaceID heap p).2 = some p
    ∧ dGeomID_val (Val_dGeomID heap p).1 (Val_dGeomID heap p).2 = some p
    ∧ dJointGroupID_val (Val_dJointGroupID heap p).1 (Val_dJointGroupID heap p).2 = some p
    ∧ dJointID_val (Val_dJointID heap p).1 (Val_dJointID heap p).2 = some p
    ∧ dTriMeshDataID_val (Val_dTriMeshDataID heap p).1 (Val_dTriMeshDataID heap p).2
        = some p
    ∧ dTriMeshDataID_val (Val_dTriMeshDataID_2 heap p d).1 (Val_dTriMeshDataID_2 heap p d).2
        = some p :=
  ⟨Voidptr_val_wrap heap p, Voidptr_val_wrap heap p, Voidptr_val_wrap heap p,
   Voidptr_val_wrap heap p, Voidptr_val_wrap heap p, Voidptr_val_wrap heap p,
   Voidptr_val_wrap heap p, Voidptr_val_wrap heap p, Voidptr_val_wrap2 heap p d⟩

/-- C2: for every handle `h`, holding the address `p`, after
`destroy_voidptr (h)` every later unwrap of `h`, after any sequence of wraps
and destroys, returns the null address and never the address `p` that `h`
held before (an address, so not null); and destroying `h` a second time
leaves the heap as it was after the first time. -/
theorem C2_poison (heap : Heap) (h : value) (p : Nat)
    (hp : _Voidptr_val heap h = some p) (ops : List HeapOp) :
    _Voidptr_val (runOps ops (destroy_voidptr heap h)) h = some 0
    ∧ (p ≠ 0 → _Voidptr_val (runOps ops (destroy_voidptr heap h)) h ≠ some p)
    ∧ destroy_voidptr (destroy_voidptr heap h) h = destroy_voidptr heap h := by
  have h0 : _Voidptr_val (runOps ops (destroy_voidptr heap h)) h = some 0 :=
    Voidptr_val_runOps_null ops _ h
      (Voidptr_val_destroy_same heap h (lt_of_Voidptr_val heap h p hp))
  refine ⟨h0, ?_, destroy_idem heap h⟩
  intro hne heq
  rw [h0] at heq
  exact hne (Option.some.inj heq).symm

/-- C2 witness: a handle around the address 4096, destroyed, then followed by
a wrap, a second destroy and a wrap of the old address. -/
theorem C2_poison_witness :
    _Voidptr_val [Custom.voidptr 4096] 0 = some 4096
    ∧ (_Voidptr_val (runOps [HeapOp.wrap 7, HeapOp.destroy 0, HeapOp.wrap 4096]
          (destroy_voidptr [Custom.voidptr 4096] 0)) 0 = some 0
      ∧ (4096 ≠ 0 → _Voidptr_val (runOps [HeapOp.wrap 7, HeapOp.destroy 0, HeapOp.wrap 4096]
          (destroy_voidptr [Custom.voidptr 4096] 0)) 0 ≠ some 4096)
      ∧ destroy_voidptr (destroy_voidptr [Custom.voidptr 4096] 0) 0
          = destroy_voidptr [Custom.voidptr 4096] 0) :=
  ⟨by decide, C2_poison [Custom.voidptr 4096] 0 4096 (by decide)
    [HeapOp.wrap 7, HeapOp.destroy 0, HeapOp.wrap 4096]⟩

/-- C3: each of the six destroy entry points, applied to a handle holding the
address `p`, makes exactly one foreign call, the matching destroy function
with argument `p`, and poisons that handle in the same operation: on return
the handle unwraps to null. -/
theorem C3_destroy_entry_points (s : State) (idv : value) (p : Nat)
    (hp : _Voidptr_val s.heap idv = some p) :
    (ocamlode_dWorldDestroy s idv
        = some ⟨destroy_voidptr s.heap idv, s.calls ++ [ForeignCall.dWorldDestroy p]⟩
      ∧ ocamlode_dBodyDestroy s idv
        = some ⟨destroy_voidptr s.heap idv, s.calls ++ [ForeignCall.dBodyDestroy p]⟩
      ∧ ocamlode_dJointDestroy s idv
        = some ⟨destroy_voidptr s.heap idv, s.calls ++ [ForeignCall.dJointDestroy p]⟩
      ∧ ocamlode_dJointGroupDestroy s idv
        = some ⟨destroy_voidptr s.heap idv, s.calls ++ [ForeignCall.dJointGroupDestroy p]⟩
      ∧ ocamlode_dSpaceDestroy s idv
        = some ⟨destroy_voidptr s.heap idv, s.calls ++ [ForeignCall.dSpaceDestroy p]⟩
      ∧ ocamlode_dGeomDestroy s idv
        = some ⟨destroy_voidptr s.heap idv, s.calls ++ [ForeignCall.dGeomDestroy p]⟩)
    ∧ _Voidptr_val (destroy_voidptr s.heap idv) idv = some 0 := by
  refine ⟨⟨?_, ?_, ?_, ?_, ?_, ?_⟩,
    Voidptr_val_destroy_same s.heap idv (lt_of_Voidptr_val s.heap idv p hp)⟩
  · simp [ocamlode_dWorldDestroy, dWorldID_val, Voidptr_val, hp]
  · simp [ocamlode_dBodyDestroy, dBodyID_val, Voidptr_val, hp]
  · simp [ocamlode_dJointDestroy, dJointID_val, Voidptr_val, hp]
  · simp [ocamlode_dJointGroupDestroy, dJointGroupID_val, Voidptr_val, hp]
  · simp [ocamlode_dSpaceDestroy, dSpaceID_val, Voidptr_val, hp]
  · simp [ocamlode_dGeomDestroy, dGeomID_val, Voidptr_val, hp]

/-- C3 witness: a state with two handles and one earlier foreign call; the
handle destroyed holds the address 8192. -/
theorem C3_destroy_entry_points_witness :
    _Voidptr_val [Custom.voidptr 4096, Custom.voidptr 8192] 1 = some 8192
    ∧ ocamlode_dBodyDestroy
        ⟨[Custom.voidptr 4096, Custom.voidptr 8192], [ForeignCall.dGeomDestroy 1]⟩ 1
      = some ⟨[Custom.voidptr 4096, Custom.voidptr 0],
          [ForeignCall.dGeomDestroy 1, ForeignCall.dBodyDestroy 8192]⟩ :=
  ⟨by decide,
   (C3_destroy_entry_points
      ⟨[Custom.voidptr 4096, Custom.voidptr 8192], [ForeignCall.dGeomDestroy 1]⟩ 1 8192
      (by decide)).1.2.1⟩

/-! ## Comparison of handles -/

theorem wrap_signed_eq_sub (w : Nat) (n : Int) :
    wrap_signed w n = n - 2 ^ w * ((n + 2 ^ (w - 1)) / 2 ^ w) := by
  unfold wrap_signed
  rw [Int.emod_def]
  ring

theorem dvd_wrap_signed_iff (w : Nat) (n : Int) :
    (2 : Int) ^ w ∣ wrap_signed w n ↔ (2 : Int) ^ w ∣ n := by
  rw [wrap_signed_eq_sub]
  constructor
  · intro h
    have h2 := dvd_add h (dvd_mul_right ((2 : Int) ^ w) ((n + 2 ^ (w - 1)) / 2 ^ w))
    simpa using h2
  · intro h
    exact dvd_sub h (dvd_mul_right _ _)

theorem wrap_signed_eq_zero_iff (w : Nat) (hw : 0 < w) (n : Int) :
    wrap_signed w n = 0 ↔ (2 : Int) ^ w ∣ n := by
  constructor
  · intro h
    rw [← dvd_wrap_signed_iff, h]
    exact dvd_zero _
  · intro h
    have h2 : (2 : Int) ^ w = 2 * 2 ^ (w - 1) := by
      rw [← pow_succ']
      congr 1
      omega
    have hpos : (0 : Int) < 2 ^ (w - 1) := by positivity
    obtain ⟨k, hk⟩ := h
    unfold wrap_signed
    have hlt : (2 : Int) ^ (w - 1) < 2 ^ w := by omega
    have : (n + 2 ^ (w - 1)) % 2 ^ w = 2 ^ (w - 1) := by
      rw [hk, add_comm, Int.add_mul_emod_self_left]
      exact Int.emod_eq_of_lt (le_of_lt hpos) hlt
    omega

/-- On ILP32 the comparison is zero exactly for equal addresses. -/
theorem compare_voidptrs_ILP32 (heap : Heap) (v1 v2 : value) (d1 d2 : Nat)
    (h1 : _Voidptr_val heap v1 = some d1) (h2 : _Voidptr_val heap v2 = some d2)
    (b1 : d1 < 2 ^ 32) (b2 : d2 < 2 ^ 32) :
    compare_voidptrs Arch.ILP32 heap v1 v2 = some 0 ↔ d1 = d2 := by
  simp only [compare_voidptrs, h1, h2, Arch.bits, Option.some.injEq]
  rw [wrap_signed_eq_zero_iff 32 (by norm_num), dvd_wrap_signed_iff]
  constructor
  · rintro ⟨k, hk⟩
    have e1 : ((2 : Int) ^ 32) = 4294967296 := by norm_num
    have e2 : (2 : Nat) ^ 32 = 4294967296 := by norm_num
    rw [e1] at hk
    rw [e2] at b1 b2
    omega
  · intro h
    subst h
    simp

/-- C4 (the code at the failing input): on LP64, two handles holding the
different addresses `0x7f0100000000` and `0x7f0000000000` compare as 0. -/
theorem C4_compare_truncates :
    _Voidptr_val farHeap 0 = some 0x7f0100000000
    ∧ _Voidptr_val farHeap 1 = some 0x7f0000000000
    ∧ compare_voidptrs Arch.LP64 farHeap 0 1 = some 0 := by
  decide

/-! ## Numeric array transcoder -/

theorem fill_length (g : Nat → Nat) (k : Nat) (v : List Nat) :
    ((List.range k).foldl (fun v i => v.set i (g i)) v).length = v.length := by
  induction k with
  | zero => rfl
  | succ k ih => simp [List.range_succ, List.foldl_append, ih]

theorem fill_getElem? (g : Nat → Nat) (k : Nat) (v : List Nat) (j : Nat) :
    ((List.range k).foldl (fun v i => v.set i (g i)) v)[j]?
      = if j < k ∧ j < v.length then some (g j) else v[j]? := by
  induction k with
  | zero => simp
  | succ k ih =>
      simp only [List.range_succ, List.foldl_append, List.foldl_cons, List.foldl_nil]
      rw [List.getElem?_set, fill_length, ih]
      by_cases hkj : k = j
      · subst hkj
        by_cases hlt : k < v.length
        · simp [hlt]
        · simp [hlt, List.getElem?_eq_none (Nat.le_of_not_lt hlt)]
      · simp only [hkj, if_false]
        by_cases hjk : j < k
        · have : j < k + 1 := by omega
          simp [hjk, this]
        · have : ¬ j < k + 1 := by omega
          simp [hjk, this]

theorem fill_eq_map (g : Nat → Nat) (a v : List Nat) (n : Nat)
    (ha : a.length = n) (hv : v.length = n) :
    (List.range n).foldl (fun v i => v.set i (g (a.getD i 0))) v = a.map g := by
  apply List.ext_getElem?
  intro j
  rw [fill_getElem? (fun i => g (a.getD i 0)) n v j]
  by_cases hj : j < n
  · have hja : j < a.length := by omega
    simp [hj, hv, List.getD_eq_getElem?_getD, List.getElem?_eq_getElem hja]
  · have h1 : v[j]? = none := List.getElem?_eq_none (by omega)
    have h2 : a[j]? = none := List.getElem?_eq_none (by omega)
    simp [hj, h1, h2]

theorem fill_eq_range_map (g : Nat → Nat) (n : Nat) (v : List Nat) (hv : v.length = n) :
    (List.range n).foldl (fun v i => v.set i (g i)) v = (List.range n).map g := by
  apply List.ext_getElem?
  intro j
  rw [fill_getElem? g n v j]
  by_cases hj : j < n
  · simp [hj, hv, List.getElem?_range hj]
  · have h1 : v[j]? = none := List.getElem?_eq_none (by omega)
    have h2 : (List.range n)[j]? = none := List.getElem?_eq_none (by simp; omega)
    simp [hj, h1, h2]

theorem Double_field_eq (past : Nat → Nat) (vv : List Nat) (i : Nat) (h : i < vv.length) :
    Double_field past vv i = vv.getD i 0 := by
  simp [Double_field, List.getD_eq_getElem?_getD, List.getElem?_eq_getElem h]

theorem range_map_read (g : Nat → Nat) (past : Nat → Nat) (a : List Nat) (n : Nat) :
    (List.range n).map (fun i => g (Double_field past a i))
      = ((a ++ (List.range (n - a.length)).map past).take n).map g := by
  apply List.ext_getElem?
  intro j
  by_cases hj : j < n
  · rw [List.getElem?_map, List.getElem?_map, List.getElem?_range hj,
      List.getElem?_take_of_lt hj]
    by_cases hja : j < a.length
    · rw [List.getElem?_append_left hja]
      simp [Double_field, List.getElem?_eq_getElem hja]
    · have hle : a.length ≤ j := Nat.le_of_not_lt hja
      have hr : j - a.length < n - a.length := by omega
      rw [List.getElem?_append_right hle, List.getElem?_map, List.getElem?_range hr]
      simp [Double_field, List.getElem?_eq_none hle]
  · have h2 : (List.range n)[j]? = none := List.getElem?_eq_none (by simp; omega)
    have h3 : ((a ++ (List.range (n - a.length)).map past).take n)[j]? = none :=
      List.getElem?_eq_none (by simp; omega)
    rw [List.getElem?_map, List.getElem?_map, h2, h3]
    rfl

theorem range_map_take (g : Nat → Nat) (past : Nat → Nat) (a : List Nat) (n : Nat)
    (ha : n ≤ a.length) :
    (List.range n).map (fun i => g (Double_field past a i)) = (a.take n).map g := by
  rw [range_map_read]
  have h0 : n - a.length = 0 := by omega
  simp [h0]

theorem fill_read (g : Nat → Nat) (past : Nat → Nat) (a v : List Nat) (n : Nat)
    (hv : v.length = n) :
    (List.range n).foldl (fun v i => v.set i (g (Double_field past a i))) v
      = ((a ++ (List.range (n - a.length)).map past).take n).map g := by
  rw [fill_eq_range_map (fun i => g (Double_field past a i)) n v hv, range_map_read]

theorem fill_Double_field (g : Nat → Nat) (past : Nat → Nat) (a v : List Nat) (n : Nat)
    (ha : a.length = n) (hv : v.length = n) :
    (List.range n).foldl (fun v i => v.set i (g (Double_field past a i))) v = a.map g := by
  rw [fill_read g past a v n hv]
  simp [ha]

theorem memcpy_read (dst : List Nat) (past : Nat → Nat) (a : List Nat) (n : Nat)
    (hd : dst.length = n) :
    memcpy dst (Double_field past a) n
      = (a ++ (List.range (n - a.length)).map past).take n := by
  unfold memcpy
  have h := fill_read id past a dst n hd
  simpa using h

theorem memcpy_Double_field (dst src : List Nat) (past : Nat → Nat) (n : Nat)
    (hs : src.length = n) (hd : dst.length = n) :
    memcpy dst (Double_field past src) n = src := by
  rw [memcpy_read dst past src n hd]
  simp [hs]

theorem memcpy_eq (dst src : List Nat) (n : Nat)
    (hs : src.length = n) (hd : dst.length = n) :
    memcpy dst (fun i => src.getD i 0) n = src := by
  unfold memcpy
  have := fill_eq_map id src dst n hs hd
  simpa using this

theorem copy_dReal_array_eq (P : Precision) (a : List Nat) (n : Nat) (ha : a.length = n) :
    copy_dReal_array P a n = a.map (of_dReal P) := by
  unfold copy_dReal_array
  cases P with
  | dSINGLE =>
      simp only [MEM_CPY, MEM_SHARE, Bool.not_false, if_true]
      exact fill_eq_map (of_dReal Precision.dSINGLE) a _ n ha (List.length_replicate n 0)
  | dDOUBLE =>
      simp only [MEM_CPY, MEM_SHARE, Bool.not_true, Bool.false_eq_true, if_false]
      rw [memcpy_eq _ a n ha (List.length_replicate n 0)]
      have hid : of_dReal Precision.dDOUBLE = id := by
        funext x
        rfl
      rw [hid, List.map_id]

theorem dMatrix3_val_read (P : Precision) (past : Nat → Nat) (rv r : List Nat)
    (hr : r.length = 12) :
    dMatrix3_val P past rv r
      = ((rv ++ (List.range (12 - rv.length)).map past).take 12).map (to_dReal P) := by
  unfold dMatrix3_val
  cases P with
  | dSINGLE =>
      simp only [MEM_CPY, MEM_SHARE, Bool.not_false, if_true]
      exact fill_read (to_dReal Precision.dSINGLE) past rv r 12 hr
  | dDOUBLE =>
      simp only [MEM_CPY, MEM_SHARE, Bool.not_true, Bool.false_eq_true, if_false]
      rw [memcpy_read r past rv 12 hr]
      have hid : to_dReal Precision.dDOUBLE = id := by
        funext x
        rfl
      rw [hid, List.map_id]

theorem dMatrix3_val_eq (P : Precision) (past : Nat → Nat) (rv r : List Nat)
    (hrv : rv.length = 12) (hr : r.length = 12) :
    dMatrix3_val P past rv r = rv.map (to_dReal P) := by
  rw [dMatrix3_val_read P past rv r hr]
  simp [hrv]

theorem Double_wosize_pos (A : Arch) : 0 < Double_wosize A := by
  cases A <;> decide

theorem size_check_iff (A : Arch) (vv : List Nat) :
    Wosize_val_floatarray A vv = 4 * Double_wosize A ↔ vv.length = 4 := by
  unfold Wosize_val_floatarray
  exact Nat.mul_left_inj (Nat.pos_iff_ne_zero.mp (Double_wosize_pos A))

theorem dVector3_val_eq (P : Precision) (A : Arch) (vv v : List Nat)
    (hvv : vv.length = 4) (hv : v.length = 4) :
    dVector3_val P A vv v = { fault := none, out := vv.map (to_dReal P) } := by
  unfold dVector3_val
  have hsz := (size_check_iff A vv).mpr hvv
  cases P with
  | dSINGLE =>
      simp only [hsz, not_true_eq_false, and_false, if_false, MEM_CPY, MEM_SHARE,
        Bool.not_false, if_true]
      rw [fill_Double_field (to_dReal Precision.dSINGLE) unread vv v 4 hvv hv]
  | dDOUBLE =>
      simp only [hsz, not_true_eq_false, and_false, if_false, MEM_CPY, MEM_SHARE,
        Bool.not_true, Bool.false_eq_true]
      rw [memcpy_Double_field v vv unread 4 hvv hv]
      have hid : to_dReal Precision.dDOUBLE = id := by
        funext x
        rfl
      rw [hid, List.map_id]

theorem map_eq_self_iff (g : Nat → Nat) (a : List Nat) :
    a.map g = a ↔ ∀ x ∈ a, g x = x := by
  induction a with
  | nil => simp
  | cons x xs ih => simp [ih]

set_option exponentiation.threshold 1100 in
/-- C5 (as stated, refuted): in the `MEM_CPY` build, where `dReal` is `float`,
decoding the float array `[0.1, 0, 0, 0]` with `dVector3_val` and encoding the
buffer back with `copy_dReal_array` gives `0x3FB99999A0000000`
(0.100000001490116...) in place of `0x3FB999999999999A` (0.1). -/
theorem C5_counterexample :
    (dVector3_val Precision.dSINGLE Arch.LP64 tenthVector [0, 0, 0, 0]).fault = none
    ∧ copy_dReal_array Precision.dSINGLE
        (dVector3_val Precision.dSINGLE Arch.LP64 tenthVector [0, 0, 0, 0]).out 4
      = [0x3FB99999A0000000, 0, 0, 0]
    ∧ copy_dReal_array Precision.dSINGLE
        (dVector3_val Precision.dSINGLE Arch.LP64 tenthVector [0, 0, 0, 0]).out 4
      ≠ tenthVector := by
  decide

/-- C5 (amended): for a host array `a` of 4 floats and a host array `m` of 12
floats, decoding with `dVector3_val` / `dMatrix3_val` and encoding back with
`copy_dReal_array` returns, element for element, the float converted to
`dReal` and back.  In the `MEM_SHARE` build that is the array itself; in the
`MEM_CPY` build it is the array itself exactly when every element survives
the conversion to `float` and back, that is, is exact in single precision. -/
theorem C5_numeric_round_trip (P : Precision) (A : Arch) (past : Nat → Nat)
    (a v m r : List Nat)
    (ha : a.length = 4) (hv : v.length = 4) (hm : m.length = 12) (hr : r.length = 12) :
    (dVector3_val P A a v).fault = none
    ∧ copy_dReal_array P (dVector3_val P A a v).out 4
        = a.map (fun x => of_dReal P (to_dReal P x))
    ∧ copy_dReal_array P (dMatrix3_val P past m r) 12
        = m.map (fun x => of_dReal P (to_dReal P x))
    ∧ (MEM_SHARE P = true →
        copy_dReal_array P (dVector3_val P A a v).out 4 = a
        ∧ copy_dReal_array P (dMatrix3_val P past m r) 12 = m)
    ∧ (MEM_CPY P = true →
        (copy_dReal_array P (dVector3_val P A a v).out 4 = a
          ↔ ∀ x ∈ a, float_to_double (double_to_float x) = x)
        ∧ (copy_dReal_array P (dMatrix3_val P past m r) 12 = m
          ↔ ∀ x ∈ m, float_to_double (double_to_float x) = x)) := by
  have hvec : copy_dReal_array P (dVector3_val P A a v).out 4
      = a.map (fun x => of_dReal P (to_dReal P x)) := by
    rw [dVector3_val_eq P A a v ha hv]
    rw [copy_dReal_array_eq P _ 4 (by simp [ha]), List.map_map]
    rfl
  have hmat : copy_dReal_array P (dMatrix3_val P past m r) 12
      = m.map (fun x => of_dReal P (to_dReal P x)) := by
    rw [dMatrix3_val_eq P past m r hm hr]
    rw [copy_dReal_array_eq P _ 12 (by simp [hm]), List.map_map]
    rfl
  refine ⟨by rw [dVector3_val_eq P A a v ha hv], hvec, hmat, ?_, ?_⟩
  · intro hshare
    cases P with
    | dSINGLE => simp [MEM_SHARE] at hshare
    | dDOUBLE =>
        rw [hvec, hmat]
        have hid : (fun x => of_dReal Precision.dDOUBLE (to_dReal Precision.dDOUBLE x)) = id := by
          funext x
          rfl
        rw [hid, List.map_id, List.map_id]
        exact ⟨rfl, rfl⟩
  · intro hcpy
    cases P with
    | dDOUBLE => simp [MEM_CPY, MEM_SHARE] at hcpy
    | dSINGLE =>
        rw [hvec, hmat]
        exact ⟨map_eq_self_iff _ a, map_eq_self_iff _ m⟩

/-- C5 witness: the vector `[1.0, -2.5, 0.0, 0.5]` and the identity matrix in
the `MEM_CPY` build, decoded over buffers that held other data. -/
theorem C5_numeric_round_trip_witness :
    exactVector.length = 4 ∧ [7, 7, 7, 7].length = 4
    ∧ identityMatrix.length = 12 ∧ (List.replicate 12 9).length = 12
    ∧ copy_dReal_array Precision.dSINGLE
        (dVector3_val Precision.dSINGLE Arch.LP64 exactVector [7, 7, 7, 7]).out 4
      = exactVector.map (fun x => of_dReal Precision.dSINGLE (to_dReal Precision.dSINGLE x))
    ∧ copy_dReal_array Precision.dSINGLE
        (dMatrix3_val Precision.dSINGLE unread identityMatrix (List.replicate 12 9)) 12
      = identityMatrix.map
          (fun x => of_dReal Precision.dSINGLE (to_dReal Precision.dSINGLE x)) :=
  have h := C5_numeric_round_trip Precision.dSINGLE Arch.LP64 unread exactVector [7, 7, 7, 7]
    identityMatrix (List.replicate 12 9) (by decide) (by decide) (by decide) (by decide)
  ⟨by decide, by decide, by decide, by decide, h.2.1, h.2.2.1⟩

/-- C6: with type checking enabled, `dVector3_val` (of either generation)
faults, by assertion failure, if and only if the host array does not have
exactly 4 float elements, and when it faults the output vector holds what it
held before the call. -/
theorem C6_dVector3_val_check (P : Precision) (A : Arch) (vv v : List Nat) :
    TYPE_CHECKING = 1
    ∧ ((dVector3_val P A vv v).fault ≠ none ↔ vv.length ≠ 4)
    ∧ ((dVector3_val P A vv v).fault ≠ none →
        (dVector3_val P A vv v) = { fault := some Fault.assertion, out := v })
    ∧ ((Gen1.dVector3_val P A vv v).fault ≠ none ↔ vv.length ≠ 4)
    ∧ ((Gen1.dVector3_val P A vv v).fault ≠ none →
        (Gen1.dVector3_val P A vv v) = { fault := some Fault.assertion, out := v }) := by
  have htc : TYPE_CHECKING ≠ 0 := by decide
  refine ⟨rfl, ?_, ?_, ?_, ?_⟩
  · unfold dVector3_val
    by_cases h4 : vv.length = 4
    · have hsz := (size_check_iff A vv).mpr h4
      simp only [hsz, not_true_eq_false, and_false, if_false, h4]
      split <;> simp
    · have hsz : ¬ Wosize_val_floatarray A vv = 4 * Double_wosize A :=
        fun h => h4 ((size_check_iff A vv).mp h)
      simp [htc, hsz, h4]
  · unfold dVector3_val
    by_cases hc : TYPE_CHECKING ≠ 0 ∧ ¬ (Wosize_val_floatarray A vv = 4 * Double_wosize A)
    · simp only [hc, and_self, if_true]
      intro _
      trivial
    · simp only [hc, if_false]
      split <;> simp
  · unfold Gen1.dVector3_val
    by_cases h4 : vv.length = 4
    · have hsz := (size_check_iff A vv).mpr h4
      simp only [hsz, not_true_eq_false, and_false, if_false, h4]
      simp
    · have hsz : ¬ Wosize_val_floatarray A vv = 4 * Double_wosize A :=
        fun h => h4 ((size_check_iff A vv).mp h)
      simp [htc, hsz, h4]
  · unfold Gen1.dVector3_val
    by_cases hc : TYPE_CHECKING ≠ 0 ∧ ¬ (Wosize_val_floatarray A vv = 4 * Double_wosize A)
    · simp only [hc, and_self, if_true]
      intro _
      trivial
    · simp only [hc, if_false]
      simp

/-! ## Enum tables -/

theorem index_static_in_range (table : List Int) (mem : Int → Option Int) (i : Int)
    (h0 : 0 ≤ i) (h1 : i < table.length) :
    index_static table mem i = Except.ok (table.getD i.toNat 0) := by
  unfold index_static
  rw [if_pos ⟨h0, h1⟩]

theorem index_static_out_of_range (table : List Int) (mem : Int → Option Int) (i : Int)
    (h : i < 0 ∨ (table.length : Int) ≤ i) :
    index_static table mem i
      = match mem i with
        | some w => Except.ok w
        | none => Except.error Fault.segv := by
  unfold index_static
  have hn : ¬ (0 ≤ i ∧ i < table.length) := by omega
  rw [if_neg hn]

/-- C7: for every geometry-class ordinal `i` in 0..14, `dGeomClass_val` returns
the entry `geom_class_table[i]`, and `Val_dGeomClass` applied to it gives back
`i`, with the enum values of the header excerpt. -/
theorem C7_geom_class_round_trip (mem : Int → Option Int) (i : Int)
    (h0 : 0 ≤ i) (h1 : i < 15) :
    dGeomClass_val mem i = Except.ok (geom_class_table.getD i.toNat 0)
    ∧ (dGeomClass_val mem i).bind Val_dGeomClass = Except.ok i := by
  have hin : dGeomClass_val mem i = Except.ok (geom_class_table.getD i.toNat 0) :=
    index_static_in_range geom_class_table mem i h0 (by simpa [geom_class_table] using h1)
  refine ⟨hin, ?_⟩
  rw [hin]
  interval_cases i <;> rfl

/-- C7 witness: the ordinal 14, decoded to `dLastUserClass` (16). -/
theorem C7_geom_class_round_trip_witness :
    (0 : Int) ≤ 14 ∧ (14 : Int) < 15
    ∧ dGeomClass_val readable_mem 14 = Except.ok 16
    ∧ (dGeomClass_val readable_mem 14).bind Val_dGeomClass = Except.ok 14 :=
  have h := C7_geom_class_round_trip readable_mem 14 (by decide) (by decide)
  ⟨by decide, by decide, h.1, h.2⟩

/-- C8 (as stated, refuted): where the memory next to the tables is readable,
the ordinal 37 for `dJointParam_val`, 15 for `dGeomClass_val` and -1 for
`joint_type_val` give no fault: each decoder returns the word found there. -/
theorem C8_counterexample :
    dJointParam_val ode_joint_param readable_mem 37 = Except.ok 12345
    ∧ dGeomClass_val readable_mem 15 = Except.ok 12345
    ∧ joint_type_val ode_joint_type readable_mem (-1) = Except.ok 12345 :=
  ⟨rfl, rfl, rfl⟩

/-- C8 (amended): for every ordinal outside its table's range the decoders
`dJointParam_val`, `dGeomClass_val` and `joint_type_val` make no check of the
ordinal: they return the word of memory at that index from the table, and
stop only where that memory is not readable. -/
theorem C8_unchecked_index (Kp : JointParam → Int) (Kt : JointType → Int)
    (mem : Int → Option Int) (i j k : Int)
    (hi : i < 0 ∨ 37 ≤ i) (hj : j < 0 ∨ 15 ≤ j) (hk : k < 0 ∨ 13 ≤ k) :
    (dJointParam_val Kp mem i
      = match mem i with
        | some w => Except.ok w
        | none => Except.error Fault.segv)
    ∧ (dGeomClass_val mem j
      = match mem j with
        | some w => Except.ok w
        | none => Except.error Fault.segv)
    ∧ (joint_type_val Kt mem k
      = match mem k with
        | some w => Except.ok w
        | none => Except.error Fault.segv) := by
  refine ⟨?_, ?_, ?_⟩
  · exact index_static_out_of_range _ mem i (by simpa [joint_param_table] using hi)
  · exact index_static_out_of_range _ mem j (by simpa [geom_class_table] using hj)
  · exact index_static_out_of_range _ mem k (by simpa [joint_type_table] using hk)

/-- C8 witness: the ordinals 37, -1 and 13 with readable memory. -/
theorem C8_unchecked_index_witness :
    ((37 : Int) < 0 ∨ (37 : Int) ≤ 37) ∧ ((-1 : Int) < 0 ∨ (15 : Int) ≤ -1)
    ∧ ((13 : Int) < 0 ∨ (13 : Int) ≤ 13)
    ∧ dJointParam_val ode_joint_param readable_mem 37
      = (match readable_mem 37 with
        | some w => Except.ok w
        | none => Except.error Fault.segv) :=
  ⟨by decide, by decide, by decide,
   (C8_unchecked_index ode_joint_param ode_joint_type readable_mem 37 (-1) 13
      (by decide) (by decide) (by decide)).1⟩

/-! ## Contact mode flags -/

theorem mode_chain_eq (K : ContactConsts) (hash : ContactFlag → Int) (mode : Nat) (m : Int) :
    mode_chain K hash mode m
      = match contact_flag_of hash m with
        | some f => Except.ok (mode ||| K.bit f)
        | none => Except.error Fault.abort := by
  unfold mode_chain contact_flag_of
  by_cases h0 : m = hash ContactFlag.dContactMu2
  · rw [if_pos h0, if_pos h0]
  rw [if_neg h0, if_neg h0]
  by_cases h1 : m = hash ContactFlag.dContactFDir1
  · rw [if_pos h1, if_pos h1]
  rw [if_neg h1, if_neg h1]
  by_cases h2 : m = hash ContactFlag.dContactBounce
  · rw [if_pos h2, if_pos h2]
  rw [if_neg h2, if_neg h2]
  by_cases h3 : m = hash ContactFlag.dContactSoftERP
  · rw [if_pos h3, if_pos h3]
  rw [if_neg h3, if_neg h3]
  by_cases h4 : m = hash ContactFlag.dContactSoftCFM
  · rw [if_pos h4, if_pos h4]
  rw [if_neg h4, if_neg h4]
  by_cases h5 : m = hash ContactFlag.dContactMotion1
  · rw [if_pos h5, if_pos h5]
  rw [if_neg h5, if_neg h5]
  by_cases h6 : m = hash ContactFlag.dContactMotion2
  · rw [if_pos h6, if_pos h6]
  rw [if_neg h6, if_neg h6]
  by_cases h7 : m = hash ContactFlag.dContactSlip1
  · rw [if_pos h7, if_pos h7]
  rw [if_neg h7, if_neg h7]
  by_cases h8 : m = hash ContactFlag.dContactSlip2
  · rw [if_pos h8, if_pos h8]
  rw [if_neg h8, if_neg h8]
  by_cases h9 : m = hash ContactFlag.dContactApprox1_1
  · rw [if_pos h9, if_pos h9]
  rw [if_neg h9, if_neg h9]
  by_cases h10 : m = hash ContactFlag.dContactApprox1_2
  · rw [if_pos h10, if_pos h10]
  rw [if_neg h10, if_neg h10]
  by_cases h11 : m = hash ContactFlag.dContactApprox1
  · rw [if_pos h11, if_pos h11]
  rw [if_neg h11, if_neg h11]

theorem contact_flag_of_eq_none (hash : ContactFlag → Int) (m : Int) :
    contact_flag_of hash m = none ↔ ∀ f, m ≠ hash f := by
  unfold contact_flag_of
  by_cases h0 : m = hash ContactFlag.dContactMu2
  · rw [if_pos h0]
    exact ⟨fun h => (nomatch h), fun h => absurd h0 (h _)⟩
  rw [if_neg h0]
  by_cases h1 : m = hash ContactFlag.dContactFDir1
  · rw [if_pos h1]
    exact ⟨fun h => (nomatch h), fun h => absurd h1 (h _)⟩
  rw [if_neg h1]
  by_cases h2 : m = hash ContactFlag.dContactBounce
  · rw [if_pos h2]
    exact ⟨fun h => (nomatch h), fun h => absurd h2 (h _)⟩
  rw [if_neg h2]
  by_cases h3 : m = hash ContactFlag.dContactSoftERP
  · rw [if_pos h3]
    exact ⟨fun h => (nomatch h), fun h => absurd h3 (h _)⟩
  rw [if_neg h3]
  by_cases h4 : m = hash ContactFlag.dContactSoftCFM
  · rw [if_pos h4]
    exact ⟨fun h => (nomatch h), fun h => absurd h4 (h _)⟩
  rw [if_neg h4]
  by_cases h5 : m = hash ContactFlag.dContactMotion1
  · rw [if_pos h5]
    exact ⟨fun h => (nomatch h), fun h => absurd h5 (h _)⟩
  rw [if_neg h5]
  by_cases h6 : m = hash ContactFlag.dContactMotion2
  · rw [if_pos h6]
    exact ⟨fun h => (nomatch h), fun h => absurd h6 (h _)⟩
  rw [if_neg h6]
  by_cases h7 : m = hash ContactFlag.dContactSlip1
  · rw [if_pos h7]
    exact ⟨fun h => (nomatch h), fun h => absurd h7 (h _)⟩
  rw [if_neg h7]
  by_cases h8 : m = hash ContactFlag.dContactSlip2
  · rw [if_pos h8]
    exact ⟨fun h => (nomatch h), fun h => absurd h8 (h _)⟩
  rw [if_neg h8]
  by_cases h9 : m = hash ContactFlag.dContactApprox1_1
  · rw [if_pos h9]
    exact ⟨fun h => (nomatch h), fun h => absurd h9 (h _)⟩
  rw [if_neg h9]
  by_cases h10 : m = hash ContactFlag.dContactApprox1_2
  · rw [if_pos h10]
    exact ⟨fun h => (nomatch h), fun h => absurd h10 (h _)⟩
  rw [if_neg h10]
  by_cases h11 : m = hash ContactFlag.dContactApprox1
  · rw [if_pos h11]
    exact ⟨fun h => (nomatch h), fun h => absurd h11 (h _)⟩
  rw [if_neg h11]
  simp only [true_iff]
  intro f
  cases f <;> assumption

theorem contact_flag_of_hash (hash : ContactFlag → Int) (hinj : Function.Injective hash)
    (f : ContactFlag) : contact_flag_of hash (hash f) = some f := by
  have hne : ∀ g, f ≠ g → ¬ hash f = hash g := fun g hfg h => hfg (hinj h)
  unfold contact_flag_of
  cases f
  · rw [if_pos rfl]
  · rw [if_neg (hne _ (by decide))]
    rw [if_pos rfl]
  · rw [if_neg (hne _ (by decide))]
    rw [if_neg (hne _ (by decide))]
    rw [if_pos rfl]
  · rw [if_neg (hne _ (by decide))]
    rw [if_neg (hne _ (by decide))]
    rw [if_neg (hne _ (by decide))]
    rw [if_pos rfl]
  · rw [if_neg (hne _ (by decide))]
    rw [if_neg (hne _ (by decide))]
    rw [if_neg (hne _ (by decide))]
    rw [if_neg (hne _ (by decide))]
    rw [if_pos rfl]
  · rw [if_neg (hne _ (by decide))]
    rw [if_neg (hne _ (by decide))]
    rw [if_neg (hne _ (by decide))]
    rw [if_neg (hne _ (by decide))]
    rw [if_neg (hne _ (by decide))]
    rw [if_pos rfl]
  · rw [if_neg (hne _ (by decide))]
    rw [if_neg (hne _ (by decide))]
    rw [if_neg (hne _ (by decide))]
    rw [if_neg (hne _ (by decide))]
    rw [if_neg (hne _ (by decide))]
    rw [if_neg (hne _ (by decide))]
    rw [if_pos rfl]
  · rw [if_neg (hne _ (by decide))]
    rw [if_neg (hne _ (by decide))]
    rw [if_neg (hne _ (by decide))]
    rw [if_neg (hne _ (by decide))]
    rw [if_neg (hne _ (by decide))]
    rw [if_neg (hne _ (by decide))]
    rw [if_neg (hne _ (by decide))]
    rw [if_pos rfl]
  · rw [if_neg (hne _ (by decide))]
    rw [if_neg (hne _ (by decide))]
    rw [if_neg (hne _ (by decide))]
    rw [if_neg (hne _ (by decide))]
    rw [if_neg (hne _ (by decide))]
    rw [if_neg (hne _ (by decide))]
    rw [if_neg (hne _ (by decide))]
    rw [if_neg (hne _ (by decide))]
    rw [if_pos rfl]
  · rw [if_neg (hne _ (by decide))]
    rw [if_neg (hne _ (by decide))]
    rw [if_neg (hne _ (by decide))]
    rw [if_neg (hne _ (by decide))]
    rw [if_neg (hne _ (by decide))]
    rw [if_neg (hne _ (by decide))]
    rw [if_neg (hne _ (by decide))]
    rw [if_neg (hne _ (by decide))]
    rw [if_neg (hne _ (by decide))]
    rw [if_pos rfl]
  · rw [if_neg (hne _ (by decide))]
    rw [if_neg (hne _ (by decide))]
    rw [if_neg (hne _ (by decide))]
    rw [if_neg (hne _ (by decide))]
    rw [if_neg (hne _ (by decide))]
    rw [if_neg (hne _ (by decide))]
    rw [if_neg (hne _ (by decide))]
    rw [if_neg (hne _ (by decide))]
    rw [if_neg (hne _ (by decide))]
    rw [if_neg (hne _ (by decide))]
    rw [if_pos rfl]
  · rw [if_neg (hne _ (by decide))]
    rw [if_neg (hne _ (by decide))]
    rw [if_neg (hne _ (by decide))]
    rw [if_neg (hne _ (by decide))]
    rw [if_neg (hne _ (by decide))]
    rw [if_neg (hne _ (by decide))]
    rw [if_neg (hne _ (by decide))]
    rw [if_neg (hne _ (by decide))]
    rw [if_neg (hne _ (by decide))]
    rw [if_neg (hne _ (by decide))]
    rw [if_neg (hne _ (by decide))]
    rw [if_pos rfl]

theorem decode_bits_none (bs : List (Option Nat)) (mode : Nat) (h : none ∈ bs) :
    decode_bits bs mode = Except.error Fault.abort := by
  induction bs generalizing mode with
  | nil => simp at h
  | cons b rest ih =>
      cases b with
      | none => rfl
      | some x =>
          have hr : none ∈ rest := by simpa using h
          exact ih (mode ||| x) hr

theorem decode_bits_some (bs : List (Option Nat)) (mode : Nat) (h : none ∉ bs) :
    decode_bits bs mode
      = Except.ok ((bs.map (fun b => b.getD 0)).foldl (fun acc b => acc ||| b) mode) := by
  induction bs generalizing mode with
  | nil => rfl
  | cons b rest ih =>
      cases b with
      | none => simp at h
      | some x =>
          have hr : none ∉ rest := fun hm => h (List.mem_cons_of_mem _ hm)
          simp only [decode_bits, List.map_cons, List.foldl_cons, Option.getD_some]
          exact ih (mode ||| x) hr

theorem decode_bits_perm (bs cs : List (Option Nat)) (hperm : bs.Perm cs) (mode : Nat) :
    decode_bits bs mode = decode_bits cs mode := by
  by_cases h : none ∈ bs
  · rw [decode_bits_none bs mode h, decode_bits_none cs mode (hperm.mem_iff.mp h)]
  · have hc : none ∉ cs := fun hm => h (hperm.mem_iff.mpr hm)
    rw [decode_bits_some bs mode h, decode_bits_some cs mode hc]
    congr 1
    apply List.Perm.foldl_eq' (hperm.map _)
    intro x _ y _ z
    rw [Nat.or_assoc, Nat.or_comm x y, ← Nat.or_assoc]

theorem mode_loop_eq (K : ContactConsts) (l : List Int) (mode : Nat) :
    mode_loop K l mode
      = decode_bits (l.map (fun e =>
          (contact_flag_of (fun f => wrap_signed 32 (K.caml_hash_variant f))
            (wrap_signed 32 e)).map K.bit)) mode := by
  induction l generalizing mode with
  | nil => rfl
  | cons e rest ih =>
      simp only [mode_loop, mode_step, mode_chain_eq, List.map_cons]
      cases hc : contact_flag_of (fun f => wrap_signed 32 (K.caml_hash_variant f))
          (wrap_signed 32 e) with
      | none => rfl
      | some f =>
          simp only [Option.map_some', decode_bits]
          exact ih (mode ||| K.bit f)

theorem Gen1_mode_loop_eq (K : ContactConsts) (l : List Int) (mode : Nat) :
    Gen1.mode_loop K l mode
      = decode_bits (l.map (fun e =>
          (contact_flag_of K.caml_hash_variant e).map K.bit)) mode := by
  induction l generalizing mode with
  | nil => rfl
  | cons e rest ih =>
      simp only [Gen1.mode_loop, Gen1.mode_step, mode_chain_eq, List.map_cons]
      cases hc : contact_flag_of K.caml_hash_variant e with
      | none => rfl
      | some f =>
          simp only [Option.map_some', decode_bits]
          exact ih (mode ||| K.bit f)

theorem wrap_signed_32_id (x : Int) (hlo : -2 ^ 31 ≤ x) (hhi : x < 2 ^ 31) :
    wrap_signed 32 x = x := by
  unfold wrap_signed
  norm_num at hlo hhi ⊢
  omega

theorem dContact_val_mode_perm (K : ContactConsts) (l1 l2 : List Int) (hperm : l1.Perm l2)
    (old1 old2 : Nat) :
    dContact_val_mode K l1 old1 = dContact_val_mode K l2 old2 := by
  simp only [dContact_val_mode, Function.const_apply, mode_loop_eq]
  exact decode_bits_perm _ _ (hperm.map _) 0

theorem Gen1_dContact_val_mode_perm (K : ContactConsts) (l1 l2 : List Int)
    (hperm : l1.Perm l2) (old1 old2 : Nat) :
    Gen1.dContact_val_mode K l1 old1 = Gen1.dContact_val_mode K l2 old2 := by
  simp only [Gen1.dContact_val_mode, Function.const_apply, Gen1_mode_loop_eq]
  exact decode_bits_perm _ _ (hperm.map _) 0

theorem dContact_val_mode_recognised (K : ContactConsts) (fs : List ContactFlag) (old : Nat) :
    ∃ mask, dContact_val_mode K (fs.map K.caml_hash_variant) old = Except.ok mask := by
  simp only [dContact_val_mode, Function.const_apply, mode_loop_eq]
  refine ⟨_, decode_bits_some _ 0 ?_⟩
  intro hmem
  simp only [List.map_map, List.mem_map, Function.comp] at hmem
  obtain ⟨f, _, hf⟩ := hmem
  rw [Option.map_eq_none'] at hf
  exact (contact_flag_of_eq_none _ _).mp hf f rfl

theorem Gen1_dContact_val_mode_recognised (K : ContactConsts) (fs : List ContactFlag)
    (old : Nat) :
    ∃ mask, Gen1.dContact_val_mode K (fs.map K.caml_hash_variant) old = Except.ok mask := by
  simp only [Gen1.dContact_val_mode, Function.const_apply, Gen1_mode_loop_eq]
  refine ⟨_, decode_bits_some _ 0 ?_⟩
  intro hmem
  simp only [List.map_map, List.mem_map, Function.comp] at hmem
  obtain ⟨f, _, hf⟩ := hmem
  rw [Option.map_eq_none'] at hf
  exact (contact_flag_of_eq_none _ _).mp hf f rfl

/-- C9: for every list of recognised contact-mode flags and every permutation
of it, in particular for `[A, B]` and `[B, A]`, the mode decoding of
`dContact_val` (of either generation) returns normally and computes the same
`surface.mode` bitmask, whatever `surface.mode` held before. -/
theorem C9_flag_order_independent (K : ContactConsts) (fs gs : List ContactFlag)
    (hperm : fs.Perm gs) (old1 old2 : Nat) :
    (∃ mask, dContact_val_mode K (fs.map K.caml_hash_variant) old1 = Except.ok mask
      ∧ dContact_val_mode K (gs.map K.caml_hash_variant) old2 = Except.ok mask)
    ∧ (∃ mask, Gen1.dContact_val_mode K (fs.map K.caml_hash_variant) old1 = Except.ok mask
      ∧ Gen1.dContact_val_mode K (gs.map K.caml_hash_variant) old2 = Except.ok mask) := by
  constructor
  · obtain ⟨mask, hm⟩ := dContact_val_mode_recognised K fs old1
    refine ⟨mask, hm, ?_⟩
    rw [← hm]
    exact dContact_val_mode_perm K _ _ (hperm.symm.map _) old2 old1
  · obtain ⟨mask, hm⟩ := Gen1_dContact_val_mode_recognised K fs old1
    refine ⟨mask, hm, ?_⟩
    rw [← hm]
    exact Gen1_dContact_val_mode_perm K _ _ (hperm.symm.map _) old2 old1

/-- C9 witness: `[dContactMu2, dContactApprox1]` and its swap. -/
theorem C9_flag_order_independent_witness :
    [ContactFlag.dContactMu2, ContactFlag.dContactApprox1].Perm
      [ContactFlag.dContactApprox1, ContactFlag.dContactMu2]
    ∧ ∃ mask,
      dContact_val_mode ode_contact_consts
        ([ContactFlag.dContactMu2, ContactFlag.dContactApprox1].map
          ode_contact_consts.caml_hash_variant) 0 = Except.ok mask
      ∧ dContact_val_mode ode_contact_consts
        ([ContactFlag.dContactApprox1, ContactFlag.dContactMu2].map
          ode_contact_consts.caml_hash_variant) 5 = Except.ok mask :=
  ⟨List.Perm.swap _ _ [],
   (C9_flag_order_independent ode_contact_consts
      [ContactFlag.dContactMu2, ContactFlag.dContactApprox1]
      [ContactFlag.dContactApprox1, ContactFlag.dContactMu2]
      (List.Perm.swap _ _ []) 0 5).1⟩

theorem recognised_list (hash : ContactFlag → Int) (modev : List Int)
    (h : ∀ e ∈ modev, ∃ f, e = hash f) : ∃ fs : List ContactFlag, modev = fs.map hash := by
  induction modev with
  | nil => exact ⟨[], rfl⟩
  | cons e rest ih =>
      obtain ⟨f, hf⟩ := h e (List.mem_cons_self _ _)
      obtain ⟨fs, hfs⟩ := ih (fun x hx => h x (List.mem_cons_of_mem _ hx))
      exact ⟨f :: fs, by rw [hf, hfs]; rfl⟩

theorem dContact_val_mode_map (K : ContactConsts)
    (hinj : Function.Injective K.caml_hash_variant)
    (hrange : ∀ f, -2 ^ 31 ≤ K.caml_hash_variant f ∧ K.caml_hash_variant f < 2 ^ 31)
    (fs : List ContactFlag) (old : Nat) :
    dContact_val_mode K (fs.map K.caml_hash_variant) old
      = Except.ok (fs.foldl (fun acc f => acc ||| K.bit f) 0) := by
  have hw : (fun f => wrap_signed 32 (K.caml_hash_variant f)) = K.caml_hash_variant := by
    funext f
    exact wrap_signed_32_id _ (hrange f).1 (hrange f).2
  have hbits : (fs.map K.caml_hash_variant).map (fun e =>
      (contact_flag_of (fun f => wrap_signed 32 (K.caml_hash_variant f))
        (wrap_signed 32 e)).map K.bit) = fs.map (fun f => some (K.bit f)) := by
    rw [List.map_map]
    apply List.map_congr_left
    intro f _
    simp only [Function.comp]
    rw [hw, wrap_signed_32_id _ (hrange f).1 (hrange f).2,
      contact_flag_of_hash _ hinj f]
    rfl
  simp only [dContact_val_mode, Function.const_apply, mode_loop_eq]
  rw [hbits, decode_bits_some _ 0 (by simp), List.map_map, List.foldl_map]
  rfl

/-- C10: for every host flag list (of tag values, which fit an `int`), the
mode decoding of `dContact_val` aborts the process if and only if some element
is not one of the twelve recognised tags; otherwise the list is the list of
tags of some flags `fs` and `surface.mode` is set to exactly the bitwise OR of
the bit values of `fs` (0 for the empty list), whatever it held before. -/
theorem C10_mode_decoding (K : ContactConsts)
    (hinj : Function.Injective K.caml_hash_variant)
    (hrange : ∀ f, -2 ^ 31 ≤ K.caml_hash_variant f ∧ K.caml_hash_variant f < 2 ^ 31)
    (modev : List Int) (hel : ∀ e ∈ modev, -2 ^ 31 ≤ e ∧ e < 2 ^ 31) (old : Nat) :
    (dContact_val_mode K modev old = Except.error Fault.abort
      ↔ ∃ e ∈ modev, ∀ f, e ≠ K.caml_hash_variant f)
    ∧ ((∀ e ∈ modev, ∃ f, e = K.caml_hash_variant f) →
        ∃ fs : List ContactFlag, modev = fs.map K.caml_hash_variant
          ∧ dContact_val_mode K modev old
            = Except.ok (fs.foldl (fun acc f => acc ||| K.bit f) 0))
    ∧ dContact_val_mode K [] old = Except.ok 0 := by
  have hw : (fun f => wrap_signed 32 (K.caml_hash_variant f)) = K.caml_hash_variant := by
    funext f
    exact wrap_signed_32_id _ (hrange f).1 (hrange f).2
  refine ⟨?_, ?_, rfl⟩
  · simp only [dContact_val_mode, Function.const_apply, mode_loop_eq]
    constructor
    · intro habort
      by_contra hno
      have hnone : none ∉ modev.map (fun e =>
          (contact_flag_of (fun f => wrap_signed 32 (K.caml_hash_variant f))
            (wrap_signed 32 e)).map K.bit) := by
        intro hmem
        simp only [List.mem_map] at hmem
        obtain ⟨e, he, hf⟩ := hmem
        rw [Option.map_eq_none', hw, wrap_signed_32_id _ (hel e he).1 (hel e he).2] at hf
        exact hno ⟨e, he, (contact_flag_of_eq_none _ _).mp hf⟩
      rw [decode_bits_some _ 0 hnone] at habort
      cases habort
    · rintro ⟨e, he, hf⟩
      apply decode_bits_none
      simp only [List.mem_map]
      refine ⟨e, he, ?_⟩
      rw [Option.map_eq_none', hw, wrap_signed_32_id _ (hel e he).1 (hel e he).2]
      exact (contact_flag_of_eq_none _ _).mpr hf
  · intro hall
    obtain ⟨fs, hfs⟩ := recognised_list K.caml_hash_variant modev hall
    refine ⟨fs, hfs, ?_⟩
    rw [hfs]
    exact dContact_val_mode_map K hinj hrange fs old

theorem ode_hash_injective : Function.Injective ode_contact_consts.caml_hash_variant := by
  intro a b h
  cases a <;> cases b <;> first | rfl | exact absurd h (by decide)

theorem ode_hash_range (f : ContactFlag) :
    -2 ^ 31 ≤ ode_contact_consts.caml_hash_variant f
      ∧ ode_contact_consts.caml_hash_variant f < 2 ^ 31 := by
  cases f <;> decide

/-- C10 witness: the list of the tags `dContactBounce`, `dContactSlip1` and
`dContactBounce` again, decoded over a `surface.mode` that held 77. -/
theorem C10_mode_decoding_witness :
    (∀ e ∈ [(-1650845047 : Int), 2093426283, -1650845047], -2 ^ 31 ≤ e ∧ e < 2 ^ 31)
    ∧ (dContact_val_mode ode_contact_consts [-1650845047, 2093426283, -1650845047] 77
        = Except.error Fault.abort
      ↔ ∃ e ∈ [(-1650845047 : Int), 2093426283, -1650845047],
          ∀ f, e ≠ ode_contact_consts.caml_hash_variant f) :=
  ⟨by decide,
   (C10_mode_decoding ode_contact_consts ode_hash_injective ode_hash_range
      [-1650845047, 2093426283, -1650845047] (by decide) 77).1⟩

/-! ## Handle kinds, trimesh data, first-generation joint parameters -/

/-- C18 (as stated, refuted): a body handle around the address 4096, unwrapped
with `dWorldID_val`, gives no fault: the stored address is returned. -/
theorem C18_counterexample :
    TYPE_CHECKING = 1
    ∧ dWorldID_val (Val_dBodyID [] 4096).1 (Val_dBodyID [] 4096).2 = some 4096 := by
  decide

/-- C18 (amended): with type checking enabled, unwrapping a handle at a kind
different from (or equal to) the kind it was wrapped as makes no check of the
kind and returns the stored address: the handle holds no kind. -/
theorem C18_unwrap_ignores_kind (k1 k2 : HandleKind) (heap : Heap) (p : Nat) :
    TYPE_CHECKING = 1
    ∧ handle_val k2 (Val_handle k1 heap p).1 (Val_handle k1 heap p).2 = some p := by
  refine ⟨rfl, ?_⟩
  cases k1 <;> cases k2 <;> exact Voidptr_val_wrap heap p

/-- C19 (the code at the failing input): `ocamlode_dGeomTriMeshDataDestroy`
calls the foreign destroy function and leaves the heap as it was, so the
wrapper still unwraps to the address of the destroyed object; shown for every
state and for the wrapper around 4096. -/
theorem C19_trimesh_destroy_keeps_address :
    (∀ (s : State) (idv : value) (p : Nat), dTriMeshDataID_val s.heap idv = some p →
      ocamlode_dGeomTriMeshDataDestroy s idv
        = some ⟨s.heap, s.calls ++ [ForeignCall.dGeomTriMeshDataDestroy p]⟩)
    ∧ dTriMeshDataID_val trimeshState.heap 0 = some 4096
    ∧ ocamlode_dGeomTriMeshDataDestroy trimeshState 0
        = some ⟨trimeshState.heap, [ForeignCall.dGeomTriMeshDataDestroy 4096]⟩ := by
  refine ⟨?_, by decide, by decide⟩
  intro s idv p hp
  simp [ocamlode_dGeomTriMeshDataDestroy, hp]

/-- C20 (the code at every input): the first-generation `dJointParam_val`
aborts for every ordinal, those in 0..10 included, because no `case` of its
`switch` ends in `break`; the second-generation lookup returns the constant. -/
theorem C20_switch_falls_through (K : JointParam → Int) (mem : Int → Option Int) (i : Int) :
    Gen1.dJointParam_val K i = Except.error Fault.abort
    ∧ Gen1.dJointParam_val K 0 = Except.error Fault.abort
    ∧ dJointParam_val K mem 0 = Except.ok (K JointParam.dParamLoStop) := by
  refine ⟨?_, rfl, rfl⟩
  unfold Gen1.dJointParam_val Gen1.switch
  by_cases h : 0 ≤ i ∧ i ≤ 10
  · obtain ⟨h0, h1⟩ := h
    interval_cases i <;> rfl
  · have hne : ∀ k : Int, 0 ≤ k → k ≤ 10 → ¬ (k = i) := by
      intro k hk0 hk1 hki
      exact h (hki ▸ ⟨hk0, hk1⟩)
    simp [Gen1.dJointParam_switch, List.dropWhile, hne, Gen1.run_stmts]

/-! ## Auxiliary buffer of trimesh data -/

theorem build_only_set_data2 (A : Arch) (s : State) (w : value) (vertices : List Nat) (indicesv : List Int)
        (b after : Nat) (r : Run State)
        (h : ocamlode_dGeomTriMeshDataBuildDouble A s w vertices indicesv b after = some r) :
        (r.out.heap = s.heap ∧ ∀ p, ForeignCall.free p ∉ r.out.calls.drop s.calls.length)
        ∨ ∃ d2, set_data2 s.heap w b after = some d2 ∧ r.out.heap = d2.heap
            ∧ ∀ p, ForeignCall.free p ∈ r.out.calls.drop s.calls.length ↔ p ∈ d2.freed := by
  unfold ocamlode_dGeomTriMeshDataBuildDouble at h
  cases hid : dTriMeshDataID_val s.heap w with
  | none =>
      rw [hid, Option.none_bind] at h
      exact absurd h (by simp)
  | some id =>
      rw [hid, Option.some_bind] at h
      by_cases c1 : (wrap_signed 32
          ((Wosize_val_floatarray A vertices / Double_wosize A : Nat) : Int)).tmod 3 ≠ 0
      · rw [if_pos c1] at h
        have h := Option.some.inj h
        subst h
        exact Or.inl ⟨rfl, fun p => by simp⟩
      · rw [if_neg c1] at h
        by_cases c2 : (wrap_signed 32 ((indicesv.length : Nat) : Int)).tmod 3 ≠ 0
        · rw [if_pos c2] at h
          have h := Option.some.inj h
          subst h
          exact Or.inl ⟨rfl, fun p => by simp⟩
        · rw [if_neg c2] at h
          by_cases c3 : b = 0
          · rw [if_pos c3] at h
            have h := Option.some.inj h
            subst h
            exact Or.inl ⟨rfl, fun p => by simp⟩
          · rw [if_neg c3] at h
            by_cases c4 : (((wrap_signed 32 ((indicesv.length : Nat) : Int)) % 2 ^ A.bits) * 4
                % 2 ^ A.bits).toNat < (wrap_signed 32 ((indicesv.length : Nat) : Int)).toNat * 4
            · rw [if_pos c4] at h
              exact absurd h (by simp)
            · rw [if_neg c4] at h
              have h2 : (set_data2 s.heap w b after).map (fun d =>
                  ({ fault := none,
                     out := { heap := d.heap,
                              calls := (s.calls ++ [ForeignCall.malloc _ b]
                                ++ [ForeignCall.dGeomTriMeshDataBuildDouble id vertices (3 * 8) _ b
                                      _ _ (3 * 4)]) ++ d.events w } } : Run State)) = some r := h
              obtain ⟨d2, hd, hr⟩ := Option.map_eq_some'.mp h2
              subst hr
              refine Or.inr ⟨d2, hd, rfl, ?_⟩
              intro p
              cases hs : d2.stored_after <;> simp [Data2Result.events, hs]
/-- C17 (the code at the failing input): the trimesh-data wrapper that
`ocamlode_dGeomTriMeshGetData` returns is a block of one pointer, where
`ocamlode_dGeomTriMeshDataCreate` makes a block of two.  On the block of one
pointer `set_data2` takes the word of memory after the block for the
auxiliary buffer: with that word holding 24576 and the new buffer at 12288,
`set_data2` passes 24576 to `free` and stores 12288 outside the block, and
these are the last two steps of `ocamlode_dGeomTriMeshDataBuildDouble` on that
wrapper.  So it is for every wrapper of one pointer.  On every wrapper of
two pointers `set_data2` frees the stored buffer exactly when it is not null,
stores the new buffer in the wrapper and leaves the wrapped address as it
was; and `ocamlode_dGeomTriMeshDataBuildDouble` leaves the heap and makes
the calls of `free` that `set_data2` does. -/
theorem C17_set_data2_one_pointer :
    (ocamlode_dGeomTriMeshDataCreate ⟨[], []⟩ 8192).1.heap = [Custom.voidptr2 8192 0]
    ∧ (ocamlode_dGeomTriMeshGetData ⟨[Custom.voidptr 4096], []⟩ (hvalue.custom 0) 8192).map
        (fun r => r.1.heap) = some [Custom.voidptr 4096, Custom.voidptr 8192]
    ∧ set_data2 [Custom.voidptr 4096, Custom.voidptr 8192] 1 12288 24576
      = some { heap := [Custom.voidptr 4096, Custom.voidptr 8192],
               freed := [24576], stored_after := some 12288 }
    ∧ ocamlode_dGeomTriMeshDataBuildDouble Arch.LP64
        ⟨[Custom.voidptr 4096, Custom.voidptr 8192], []⟩ 1 [0, 0, 0] [0, 1, 2] 12288 24576
      = some { fault := none,
               out := { heap := [Custom.voidptr 4096, Custom.voidptr 8192],
                        calls := [ForeignCall.malloc 12 12288,
                          ForeignCall.dGeomTriMeshDataBuildDouble 8192 [0, 0, 0] 24 1 12288
                            [0, 1, 2] 3 12,
                          ForeignCall.free 24576,
                          ForeignCall.store_after_block 1 12288] } }
    ∧ (∀ (heap : Heap) (w : value) (d b after : Nat),
        heap[w]? = some (Custom.voidptr d) →
        set_data2 heap w b after
          = some { heap := heap, freed := if after ≠ 0 then [after] else [],
                   stored_after := some b })
    ∧ (∀ (heap : Heap) (w : value) (d old b after : Nat),
        heap[w]? = some (Custom.voidptr2 d old) →
        set_data2 heap w b after
          = some { heap := heap.set w (Custom.voidptr2 d b),
                   freed := if old ≠ 0 then [old] else [],
                   stored_after := none }
        ∧ (heap.set w (Custom.voidptr2 d b))[w]? = some (Custom.voidptr2 d b)
        ∧ dTriMeshDataID_val (heap.set w (Custom.voidptr2 d b)) w = dTriMeshDataID_val heap w)
    ∧ (∀ (A : Arch) (s : State) (w : value) (vertices : List Nat) (indicesv : List Int)
        (b after : Nat) (r : Run State),
        ocamlode_dGeomTriMeshDataBuildDouble A s w vertices indicesv b after = some r →
        (r.out.heap = s.heap ∧ ∀ p, ForeignCall.free p ∉ r.out.calls.drop s.calls.length)
        ∨ ∃ d2, set_data2 s.heap w b after = some d2 ∧ r.out.heap = d2.heap
            ∧ ∀ p, ForeignCall.free p ∈ r.out.calls.drop s.calls.length ↔ p ∈ d2.freed) := by
  refine ⟨by decide, by decide, by decide, by decide, ?_, ?_, ?_⟩
  · intro heap w d b after h
    simp only [set_data2, h]
  · intro heap w d old b after h
    have hlt : w < heap.length := by
      by_contra hge
      rw [List.getElem?_eq_none (Nat.le_of_not_lt hge)] at h
      simp at h
    refine ⟨by simp only [set_data2, h], List.getElem?_set_self hlt, ?_⟩
    simp [dTriMeshDataID_val, Voidptr_val, _Voidptr_val, List.getElem?_set_self hlt, h,
      Custom.data]
  · intro A s w vertices indicesv b after r h
    exact build_only_set_data2 A s w vertices indicesv b after r h

/-! ## Contact records -/

theorem dContactGeom_val_short (P : Precision) (A : Arch) (heap : Heap) (t : Nat)
    (fields : List hvalue) (geom : dContactGeom) (h : fields.length ≠ 5) :
    dContactGeom_val P A heap (hvalue.block t fields) geom
      = some { fault := some Fault.assertion, out := geom } := by
  have htc : TYPE_CHECKING ≠ 0 := by decide
  simp [dContactGeom_val, Wosize_val, htc, h]

theorem dContact_val_geom_short (P : Precision) (A : Arch) (heap : Heap) (t tg : Nat)
    (surfacev fdir1v : hvalue) (gfields : List hvalue) (contact : dContact)
    (h : gfields.length ≠ 5) :
    dContact_val_geom P A heap (hvalue.block t [surfacev, hvalue.block tg gfields, fdir1v])
        contact
      = some { fault := some Fault.assertion, out := contact } := by
  simp [dContact_val_geom, Field, dContactGeom_val_short P A heap tg gfields contact.geom h]

theorem dContact_val_surface_short (K : ContactConsts) (P : Precision) (A : Arch)
    (heap : Heap) (t tg : Nat) (surfacev fdir1v : hvalue) (gfields : List hvalue)
    (contact : dContact) (h : gfields.length ≠ 5) (r : Run dContact)
    (hr : dContact_val_surface K P A heap
      (hvalue.block t [surfacev, hvalue.block tg gfields, fdir1v]) surfacev contact = some r) :
    r.fault ≠ none ∧ r.out.geom = contact.geom ∧ r.out.fdir1 = contact.fdir1 := by
  unfold dContact_val_surface at hr
  cases hm : (Field surfacev 0).bind mode_list with
  | none =>
      rw [hm] at hr
      cases hr
  | some modes =>
      rw [hm, Option.some_bind] at hr
      generalize mode_loop_run K modes (Function.const Nat 0 contact.surface.mode) = rm at hr
      by_cases hf : rm.fault.isSome = true
      · simp only [hf, if_true] at hr
        cases hr
        refine ⟨?_, rfl, rfl⟩
        intro hnone
        have hnone2 : rm.fault = none := hnone
        rw [hnone2] at hf
        cases hf
      · simp only [hf] at hr
        cases hsp : surface_params_val P surfacev rm.out with
        | none =>
            simp [hsp] at hr
        | some surface =>
            simp only [hsp, Option.some_bind, Bool.false_eq_true, if_false] at hr
            rw [dContact_val_geom_short P A heap t tg surfacev fdir1v gfields _ h] at hr
            cases hr
            exact ⟨by simp, rfl, rfl⟩

theorem dContact_val_three (K : ContactConsts) (P : Precision) (A : Arch) (heap : Heap)
    (t : Nat) (surfacev geomv fdir1v : hvalue) (contact : dContact) :
    dContact_val K P A heap (hvalue.block t [surfacev, geomv, fdir1v]) contact
      = (Wosize_val A surfacev).bind fun ws =>
          if TYPE_CHECKING ≠ 0 ∧ ¬ (ws = 11) then
            some { fault := some Fault.assertion, out := contact }
          else
            dContact_val_surface K P A heap (hvalue.block t [surfacev, geomv, fdir1v])
              surfacev contact := by
  simp [dContact_val, Wosize_val, Field]

set_option exponentiation.threshold 1100 in
/-- C13 (as stated, refuted): for a contact record whose nested
contact-geometry record has four fields, but whose other blocks are well
formed, `dContact_val` faults after it has decoded the surface record: the
output struct, which held 7 in every member, has its surface members
overwritten. -/
theorem C13_counterexample :
    dContact_val ode_contact_consts Precision.dDOUBLE Arch.LP64 twoGeomHeap shortGeomContact
        sevenContact
      = some { fault := some Fault.assertion,
               out := { sevenContact with
                 surface := { mode := 4, mu := 0x3FF0000000000000, mu2 := 0x3FE0000000000000,
                              bounce := 0, bounce_vel := 0, soft_erp := 0, soft_cfm := 0,
                              motion1 := 0, motion2 := 0, slip1 := 0, slip2 := 0 } } }
    ∧ dContact_val ode_contact_consts Precision.dDOUBLE Arch.LP64 twoGeomHeap shortGeomContact
        sevenContact
      ≠ some { fault := some Fault.assertion, out := sevenContact } := by
  decide

/-- C13 (amended): a contact record whose top-level block has a field count
other than 3, or whose surface block has a field count other than 11, makes
`dContact_val` fault before it decodes any field, the output struct being left
as it was; a geometry record whose field count is not 5 does the same to
`dContactGeom_val`.  When it is the nested contact-geometry block of a contact
record that has the wrong count, `dContact_val` faults as well, whenever it
is defined, but not before the surface record is decoded: only the members
`geom` and `fdir1` of the output are sure to be as they were. -/
theorem C13_field_count_gate (K : ContactConsts) (P : Precision) (A : Arch) (heap : Heap)
    (contact : dContact) (geom : dContactGeom) (t ts tg : Nat)
    (fields sfields gfields rest : List hvalue) (surfacev fdir1v : hvalue)
    (h3 : fields.length ≠ 3) (h11 : sfields.length ≠ 11) (hrest : rest.length = 2)
    (h5 : gfields.length ≠ 5) :
    dContact_val K P A heap (hvalue.block t fields) contact
      = some { fault := some Fault.assertion, out := contact }
    ∧ dContact_val K P A heap (hvalue.block t (hvalue.block ts sfields :: rest)) contact
      = some { fault := some Fault.assertion, out := contact }
    ∧ dContactGeom_val P A heap (hvalue.block tg gfields) geom
      = some { fault := some Fault.assertion, out := geom }
    ∧ (∀ r : Run dContact,
        dContact_val K P A heap
          (hvalue.block t [surfacev, hvalue.block tg gfields, fdir1v]) contact = some r →
        r.fault ≠ none ∧ r.out.geom = contact.geom ∧ r.out.fdir1 = contact.fdir1) := by
  have htc : TYPE_CHECKING ≠ 0 := by decide
  refine ⟨?_, ?_, dContactGeom_val_short P A heap tg gfields geom h5, ?_⟩
  · simp [dContact_val, Wosize_val, htc, h3]
  · simp [dContact_val, Wosize_val, Field, htc, h11, hrest]
  · intro r hr
    rw [dContact_val_three] at hr
    cases hws : Wosize_val A surfacev with
    | none =>
        rw [hws] at hr
        cases hr
    | some ws =>
        rw [hws, Option.some_bind] at hr
        by_cases h11s : TYPE_CHECKING ≠ 0 ∧ ¬ (ws = 11)
        · rw [if_pos h11s] at hr
          cases hr
          exact ⟨by simp, rfl, rfl⟩
        · rw [if_neg h11s] at hr
          exact dContact_val_surface_short K P A heap t tg surfacev fdir1v gfields contact h5 r hr

set_option exponentiation.threshold 1100 in
/-- C13 witness: an empty top-level block, a surface block of one field, and
the contact-geometry record of four fields. -/
theorem C13_field_count_gate_witness :
    ([] : List hvalue).length ≠ 3 ∧ [hvalue.long 0].length ≠ 11
    ∧ [sampleGeom, hvalue.floatarray exactVector].length = 2
    ∧ [hvalue.floatarray exactVector].length ≠ 5
    ∧ dContact_val ode_contact_consts Precision.dDOUBLE Arch.LP64 twoGeomHeap
        (hvalue.block 0 []) sevenContact
      = some { fault := some Fault.assertion, out := sevenContact }
    ∧ dContact_val ode_contact_consts Precision.dDOUBLE Arch.LP64 twoGeomHeap
        (hvalue.block 0 (hvalue.block 0 [hvalue.long 0]
          :: [sampleGeom, hvalue.floatarray exactVector])) sevenContact
      = some { fault := some Fault.assertion, out := sevenContact } :=
  have h := C13_field_count_gate ode_contact_consts Precision.dDOUBLE Arch.LP64 twoGeomHeap
    sevenContact sevenContact.geom 0 0 0 [] [hvalue.long 0] [hvalue.floatarray exactVector]
    [sampleGeom, hvalue.floatarray exactVector] sampleSurface (hvalue.floatarray exactVector)
    (by decide) (by decide) (by decide) (by decide)
  ⟨by decide, by decide, by decide, by decide, h.1, h.2.1⟩

/-! ## Optional handles -/

theorem option_handle_val_none (unwrap : Heap → value → Option Nat) (heap : Heap) :
    option_handle_val unwrap heap hNone = some 0 := rfl

theorem option_handle_val_some (unwrap : Heap → value → Option Nat) (heap : Heap) (h : value) :
    option_handle_val unwrap heap (hSome h) = unwrap heap h := rfl

/-- C11: in every entry point that takes an optional handle (parent space,
joint group, body, geom), `None` is decoded to the null pointer and `Some h`
to the address `p` held by `h`, and that pointer is what the foreign function
receives; `ocamlode_dJointAttach` does so for each of its two bodies.  Here `w`
is the handle the entry point takes besides (world, joint, geom or trimesh
data), `r1` to `r4` are floats, `n` an integer, `ret` the pointer the foreign
function returns. -/
theorem C11_option_decoding (K : ContactConsts) (P : Precision) (A : Arch) (s : State)
    (h h2 w : value) (p p2 pw : Nat) (r1 r2 r3 r4 ret : Nat) (n : Int)
    (c e c0 e0 : List Nat) (d : dConvexDataID) (contactv : hvalue) (contact0 contact1 : dContact)
    (hp : _Voidptr_val s.heap h = some p) (hp2 : _Voidptr_val s.heap h2 = some p2)
    (hw : _Voidptr_val s.heap w = some pw)
    (hc : c.length = 4) (he : e.length = 4) (hc0 : c0.length = 4) (he0 : e0.length = 4)
    (hcontact : dContact_val K P A s.heap contactv contact0
      = some { fault := none, out := contact1 }) :
    option_handle_val dSpaceID_val s.heap hNone = some 0
    ∧ option_handle_val dSpaceID_val s.heap (hSome h) = some p
    ∧ option_handle_val dJointGroupID_val s.heap hNone = some 0
    ∧ option_handle_val dJointGroupID_val s.heap (hSome h) = some p
    ∧ option_handle_val dBodyID_val s.heap hNone = some 0
    ∧ option_handle_val dBodyID_val s.heap (hSome h) = some p
    ∧ option_handle_val dGeomID_val s.heap hNone = some 0
    ∧ option_handle_val dGeomID_val s.heap (hSome h) = some p
    ∧ ocamlode_dJointCreateBall s (hvalue.custom w) hNone ret
      = some (return_handle Val_dJointID
          (s.foreign "dJointCreateBall" [Arg.ptr pw, Arg.ptr 0]) ret)
    ∧ ocamlode_dJointCreateBall s (hvalue.custom w) (hSome h) ret
      = some (return_handle Val_dJointID
          (s.foreign "dJointCreateBall" [Arg.ptr pw, Arg.ptr p]) ret)
    ∧ ocamlode_dJointCreateHinge s (hvalue.custom w) hNone ret
      = some (return_handle Val_dJointID
          (s.foreign "dJointCreateHinge" [Arg.ptr pw, Arg.ptr 0]) ret)
    ∧ ocamlode_dJointCreateHinge s (hvalue.custom w) (hSome h) ret
      = some (return_handle Val_dJointID
          (s.foreign "dJointCreateHinge" [Arg.ptr pw, Arg.ptr p]) ret)
    ∧ ocamlode_dJointCreateSlider s (hvalue.custom w) hNone ret
      = some (return_handle Val_dJointID
          (s.foreign "dJointCreateSlider" [Arg.ptr pw, Arg.ptr 0]) ret)
    ∧ ocamlode_dJointCreateSlider s (hvalue.custom w) (hSome h) ret
      = some (return_handle Val_dJointID
          (s.foreign "dJointCreateSlider" [Arg.ptr pw, Arg.ptr p]) ret)
    ∧ ocamlode_dJointCreateUniversal s (hvalue.custom w) hNone ret
      = some (return_handle Val_dJointID
          (s.foreign "dJointCreateUniversal" [Arg.ptr pw, Arg.ptr 0]) ret)
    ∧ ocamlode_dJointCreateUniversal s (hvalue.custom w) (hSome h) ret
      = some (return_handle Val_dJointID
          (s.foreign "dJointCreateUniversal" [Arg.ptr pw, Arg.ptr p]) ret)
    ∧ ocamlode_dJointCreateHinge2 s (hvalue.custom w) hNone ret
      = some (return_handle Val_dJointID
          (s.foreign "dJointCreateHinge2" [Arg.ptr pw, Arg.ptr 0]) ret)
    ∧ ocamlode_dJointCreateHinge2 s (hvalue.custom w) (hSome h) ret
      = some (return_handle Val_dJointID
          (s.foreign "dJointCreateHinge2" [Arg.ptr pw, Arg.ptr p]) ret)
    ∧ ocamlode_dJointCreateFixed s (hvalue.custom w) hNone ret
      = some (return_handle Val_dJointID
          (s.foreign "dJointCreateFixed" [Arg.ptr pw, Arg.ptr 0]) ret)
    ∧ ocamlode_dJointCreateFixed s (hvalue.custom w) (hSome h) ret
      = some (return_handle Val_dJointID
          (s.foreign "dJointCreateFixed" [Arg.ptr pw, Arg.ptr p]) ret)
    ∧ ocamlode_dJointCreateAMotor s (hvalue.custom w) hNone ret
      = some (return_handle Val_dJointID
          (s.foreign "dJointCreateAMotor" [Arg.ptr pw, Arg.ptr 0]) ret)
    ∧ ocamlode_dJointCreateAMotor s (hvalue.custom w) (hSome h) ret
      = some (return_handle Val_dJointID
          (s.foreign "dJointCreateAMotor" [Arg.ptr pw, Arg.ptr p]) ret)
    ∧ ocamlode_dJointCreateLMotor s (hvalue.custom w) hNone ret
      = some (return_handle Val_dJointID
          (s.foreign "dJointCreateLMotor" [Arg.ptr pw, Arg.ptr 0]) ret)
    ∧ ocamlode_dJointCreateLMotor s (hvalue.custom w) (hSome h) ret
      = some (return_handle Val_dJointID
          (s.foreign "dJointCreateLMotor" [Arg.ptr pw, Arg.ptr p]) ret)
    ∧ ocamlode_dJointCreatePlane2D s (hvalue.custom w) hNone ret
      = some (return_handle Val_dJointID
          (s.foreign "dJointCreatePlane2D" [Arg.ptr pw, Arg.ptr 0]) ret)
    ∧ ocamlode_dJointCreatePlane2D s (hvalue.custom w) (hSome h) ret
      = some (return_handle Val_dJointID
          (s.foreign "dJointCreatePlane2D" [Arg.ptr pw, Arg.ptr p]) ret)
    ∧ ocamlode_dJointAttach s (hvalue.custom w) hNone hNone
      = some (s.foreign "dJointAttach" [Arg.ptr pw, Arg.ptr 0, Arg.ptr 0], Val_unit)
    ∧ ocamlode_dJointAttach s (hvalue.custom w) hNone (hSome h2)
      = some (s.foreign "dJointAttach" [Arg.ptr pw, Arg.ptr 0, Arg.ptr p2], Val_unit)
    ∧ ocamlode_dJointAttach s (hvalue.custom w) (hSome h) hNone
      = some (s.foreign "dJointAttach" [Arg.ptr pw, Arg.ptr p, Arg.ptr 0], Val_unit)
    ∧ ocamlode_dJointAttach s (hvalue.custom w) (hSome h) (hSome h2)
      = some (s.foreign "dJointAttach" [Arg.ptr pw, Arg.ptr p, Arg.ptr p2], Val_unit)
    ∧ ocamlode_dSimpleSpaceCreate s hNone ret
      = some (return_handle Val_dSpaceID (s.foreign "dSimpleSpaceCreate" [Arg.ptr 0]) ret)
    ∧ ocamlode_dSimpleSpaceCreate s (hSome h) ret
      = some (return_handle Val_dSpaceID (s.foreign "dSimpleSpaceCreate" [Arg.ptr p]) ret)
    ∧ ocamlode_dHashSpaceCreate s hNone ret
      = some (return_handle Val_dSpaceID (s.foreign "dHashSpaceCreate" [Arg.ptr 0]) ret)
    ∧ ocamlode_dHashSpaceCreate s (hSome h) ret
      = some (return_handle Val_dSpaceID (s.foreign "dHashSpaceCreate" [Arg.ptr p]) ret)
    ∧ ocamlode_dGeomSetBody s (hvalue.custom w) hNone
      = some (s.foreign "dGeomSetBody" [Arg.ptr pw, Arg.ptr 0], Val_unit)
    ∧ ocamlode_dGeomSetBody s (hvalue.custom w) (hSome h)
      = some (s.foreign "dGeomSetBody" [Arg.ptr pw, Arg.ptr p], Val_unit)
    ∧ ocamlode_dCreateSphere P s hNone (hvalue.double r1) ret
      = some (return_handle Val_dGeomID
          (s.foreign "dCreateSphere" [Arg.ptr 0, Arg.real (to_dReal P r1)]) ret)
    ∧ ocamlode_dCreateSphere P s (hSome h) (hvalue.double r1) ret
      = some (return_handle Val_dGeomID
          (s.foreign "dCreateSphere" [Arg.ptr p, Arg.real (to_dReal P r1)]) ret)
    ∧ ocamlode_dCreateBox P s hNone (hvalue.double r1) (hvalue.double r2) (hvalue.double r3) ret
      = some (return_handle Val_dGeomID
          (s.foreign "dCreateBox" [Arg.ptr 0, Arg.real (to_dReal P r1), Arg.real (to_dReal P r2), Arg.real (to_dReal P r3)]) ret)
    ∧ ocamlode_dCreateBox P s (hSome h) (hvalue.double r1) (hvalue.double r2) (hvalue.double r3) ret
      = some (return_handle Val_dGeomID
          (s.foreign "dCreateBox" [Arg.ptr p, Arg.real (to_dReal P r1), Arg.real (to_dReal P r2), Arg.real (to_dReal P r3)]) ret)
    ∧ ocamlode_dCreatePlane P s hNone (hvalue.double r1) (hvalue.double r2) (hvalue.double r3) (hvalue.double r4) ret
      = some (return_handle Val_dGeomID
          (s.foreign "dCreatePlane" [Arg.ptr 0, Arg.real (to_dReal P r1), Arg.real (to_dReal P r2), Arg.real (to_dReal P r3), Arg.real (to_dReal P r4)]) ret)
    ∧ ocamlode_dCreatePlane P s (hSome h) (hvalue.double r1) (hvalue.double r2) (hvalue.double r3) (hvalue.double r4) ret
      = some (return_handle Val_dGeomID
          (s.foreign "dCreatePlane" [Arg.ptr p, Arg.real (to_dReal P r1), Arg.real (to_dReal P r2), Arg.real (to_dReal P r3), Arg.real (to_dReal P r4)]) ret)
    ∧ ocamlode_dCreateCapsule P s hNone (hvalue.double r1) (hvalue.double r2) ret
      = some (return_handle Val_dGeomID
          (s.foreign "dCreateCapsule" [Arg.ptr 0, Arg.real (to_dReal P r1), Arg.real (to_dReal P r2)]) ret)
    ∧ ocamlode_dCreateCapsule P s (hSome h) (hvalue.double r1) (hvalue.double r2) ret
      = some (return_handle Val_dGeomID
          (s.foreign "dCreateCapsule" [Arg.ptr p, Arg.real (to_dReal P r1), Arg.real (to_dReal P r2)]) ret)
    ∧ ocamlode_dCreateCylinder P s hNone (hvalue.double r1) (hvalue.double r2) ret
      = some (return_handle Val_dGeomID
          (s.foreign "dCreateCylinder" [Arg.ptr 0, Arg.real (to_dReal P r1), Arg.real (to_dReal P r2)]) ret)
    ∧ ocamlode_dCreateCylinder P s (hSome h) (hvalue.double r1) (hvalue.double r2) ret
      = some (return_handle Val_dGeomID
          (s.foreign "dCreateCylinder" [Arg.ptr p, Arg.real (to_dReal P r1), Arg.real (to_dReal P r2)]) ret)
    ∧ ocamlode_dCreateRay P s hNone (hvalue.double r1) ret
      = some (return_handle Val_dGeomID
          (s.foreign "dCreateRay" [Arg.ptr 0, Arg.real (to_dReal P r1)]) ret)
    ∧ ocamlode_dCreateRay P s (hSome h) (hvalue.double r1) ret
      = some (return_handle Val_dGeomID
          (s.foreign "dCreateRay" [Arg.ptr p, Arg.real (to_dReal P r1)]) ret)
    ∧ ocamlode_dCreateGeomTransform s hNone ret
      = some (return_handle Val_dGeomID (s.foreign "dCreateGeomTransform" [Arg.ptr 0]) ret)
    ∧ ocamlode_dCreateGeomTransform s (hSome h) ret
      = some (return_handle Val_dGeomID (s.foreign "dCreateGeomTransform" [Arg.ptr p]) ret)
    ∧ ocamlode_dGeomTransformSetGeom s (hvalue.custom w) hNone
      = some (s.foreign "dGeomTransformSetGeom" [Arg.ptr pw, Arg.ptr 0], Val_unit)
    ∧ ocamlode_dGeomTransformSetGeom s (hvalue.custom w) (hSome h)
      = some (s.foreign "dGeomTransformSetGeom" [Arg.ptr pw, Arg.ptr p], Val_unit)
    ∧ ocamlode_dCreateConvex s hNone (hvalue.convexdata d) ret
      = some (return_handle Val_dGeomID
          (s.foreign "dCreateConvex"
            [Arg.ptr 0, Arg.ptr d.planes, Arg.uint d.planecount, Arg.ptr d.points,
             Arg.uint d.pointcount, Arg.ptr d.polygons]) ret)
    ∧ ocamlode_dCreateConvex s (hSome h) (hvalue.convexdata d) ret
      = some (return_handle Val_dGeomID
          (s.foreign "dCreateConvex"
            [Arg.ptr p, Arg.ptr d.planes, Arg.uint d.planecount, Arg.ptr d.points,
             Arg.uint d.pointcount, Arg.ptr d.polygons]) ret)
    ∧ ocamlode_dCreateHeightfield s hNone (hvalue.naked r1) (hvalue.long n) ret
      = some (return_handle Val_dGeomID
          (s.foreign "dCreateHeightfield" [Arg.ptr 0, Arg.ptr r1, Arg.int (wrap_signed 32 n)]) ret)
    ∧ ocamlode_dCreateHeightfield s (hSome h) (hvalue.naked r1) (hvalue.long n) ret
      = some (return_handle Val_dGeomID
          (s.foreign "dCreateHeightfield" [Arg.ptr p, Arg.ptr r1, Arg.int (wrap_signed 32 n)]) ret)
    ∧ ocamlode_dCreateTriMesh_native s hNone (hvalue.custom w) hNone hNone hNone Val_unit ret
      = some (Except.ok (return_handle Val_dGeomID
          (s.foreign "dCreateTriMesh"
            [Arg.ptr 0, Arg.ptr pw, Arg.ptr 0, Arg.ptr 0, Arg.ptr 0]) ret))
    ∧ ocamlode_dCreateTriMesh_native s (hSome h) (hvalue.custom w) hNone hNone hNone Val_unit ret
      = some (Except.ok (return_handle Val_dGeomID
          (s.foreign "dCreateTriMesh"
            [Arg.ptr p, Arg.ptr pw, Arg.ptr 0, Arg.ptr 0, Arg.ptr 0]) ret))
    ∧ ocamlode_dQuadTreeSpaceCreate P A s hNone (hvalue.floatarray c) (hvalue.floatarray e)
        (hvalue.long n) c0 e0 ret
      = some (Except.ok (return_handle Val_dSpaceID
          (s.foreign "dQuadTreeSpaceCreate"
            [Arg.ptr 0, Arg.reals (c.map (to_dReal P)), Arg.reals (e.map (to_dReal P)),
             Arg.int (wrap_signed 32 n)]) ret))
    ∧ ocamlode_dQuadTreeSpaceCreate P A s (hSome h) (hvalue.floatarray c) (hvalue.floatarray e)
        (hvalue.long n) c0 e0 ret
      = some (Except.ok (return_handle Val_dSpaceID
          (s.foreign "dQuadTreeSpaceCreate"
            [Arg.ptr p, Arg.reals (c.map (to_dReal P)), Arg.reals (e.map (to_dReal P)),
             Arg.int (wrap_signed 32 n)]) ret))
    ∧ ocamlode_dJointCreateContact K P A s (hvalue.custom w) hNone contactv contact0 ret
      = some (Except.ok (return_handle Val_dJointID
          (s.foreign "dJointCreateContact" [Arg.ptr pw, Arg.ptr 0, Arg.contact contact1])
          ret))
    ∧ ocamlode_dJointCreateContact K P A s (hvalue.custom w) (hSome h) contactv contact0 ret
      = some (Except.ok (return_handle Val_dJointID
          (s.foreign "dJointCreateContact" [Arg.ptr pw, Arg.ptr p, Arg.contact contact1])
          ret)) := by
  have hN : ∀ unwrap : Heap → value → Option Nat,
      option_handle_val unwrap s.heap hNone = some 0 := fun _ => rfl
  have hS : option_handle_val dSpaceID_val s.heap (hSome h) = some p := hp
  have hJ : option_handle_val dJointGroupID_val s.heap (hSome h) = some p := hp
  have hB : option_handle_val dBodyID_val s.heap (hSome h) = some p := hp
  have hB2 : option_handle_val dBodyID_val s.heap (hSome h2) = some p2 := hp2
  have hG : option_handle_val dGeomID_val s.heap (hSome h) = some p := hp
  have hW : ∀ unwrap : Heap → value → Option Nat, unwrap = _Voidptr_val →
      unwrap_val unwrap s.heap (hvalue.custom w) = some pw := by
    intro unwrap hu
    subst hu
    exact hw
  have hWw := hW dWorldID_val rfl
  have hWj := hW dJointID_val rfl
  have hWg := hW dGeomID_val rfl
  have hWt := hW dTriMeshDataID_val rfl
  have hIb : Is_block hNone = false := rfl
  have hvc := dVector3_val_eq P A c c0 hc hc0
  have hve := dVector3_val_eq P A e e0 he he0
  have hszc := (size_check_iff A c).mpr hc
  have hsze := (size_check_iff A e).mpr he
  refine ⟨?_, ?_, ?_, ?_, ?_, ?_, ?_, ?_, ?_, ?_, ?_, ?_, ?_, ?_, ?_, ?_, ?_, ?_, ?_, ?_, ?_, ?_, ?_, ?_, ?_, ?_, ?_, ?_, ?_, ?_, ?_, ?_, ?_, ?_, ?_, ?_, ?_, ?_, ?_, ?_, ?_, ?_, ?_, ?_, ?_, ?_, ?_, ?_, ?_, ?_, ?_, ?_, ?_, ?_, ?_, ?_, ?_, ?_, ?_, ?_, ?_, ?_⟩
  · rfl
  · exact hp
  · rfl
  · exact hp
  · rfl
  · exact hp
  · rfl
  · exact hp
  · simp [ocamlode_dJointCreateBall, ocamlode_dJointCreateHinge, ocamlode_dJointCreateSlider,
      ocamlode_dJointCreateUniversal, ocamlode_dJointCreateHinge2, ocamlode_dJointCreateFixed,
      ocamlode_dJointCreateAMotor, ocamlode_dJointCreateLMotor, ocamlode_dJointCreatePlane2D,
      ocamlode_dJointAttach, ocamlode_dSimpleSpaceCreate, ocamlode_dHashSpaceCreate,
      ocamlode_dGeomSetBody, ocamlode_dCreateSphere, ocamlode_dCreateBox, ocamlode_dCreatePlane,
      ocamlode_dCreateCapsule, ocamlode_dCreateCylinder, ocamlode_dCreateRay,
      ocamlode_dCreateGeomTransform, ocamlode_dGeomTransformSetGeom, ocamlode_dCreateConvex,
      ocamlode_dCreateHeightfield, ocamlode_dCreateTriMesh_native, ocamlode_dQuadTreeSpaceCreate,
      ocamlode_dJointCreateContact, hN, hS, hJ, hB, hB2, hG, hWw, hWj, hWg, hWt, dReal_val,
      Double_val, convexdata_val, dHeightfieldDataID_val, Int_val, Long_val, hIb,
      dVector3_val_h, Wosize_val, hszc, hsze, hvc, hve, hcontact]
  · simp [ocamlode_dJointCreateBall, ocamlode_dJointCreateHinge, ocamlode_dJointCreateSlider,
      ocamlode_dJointCreateUniversal, ocamlode_dJointCreateHinge2, ocamlode_dJointCreateFixed,
      ocamlode_dJointCreateAMotor, ocamlode_dJointCreateLMotor, ocamlode_dJointCreatePlane2D,
      ocamlode_dJointAttach, ocamlode_dSimpleSpaceCreate, ocamlode_dHashSpaceCreate,
      ocamlode_dGeomSetBody, ocamlode_dCreateSphere, ocamlode_dCreateBox, ocamlode_dCreatePlane,
      ocamlode_dCreateCapsule, ocamlode_dCreateCylinder, ocamlode_dCreateRay,
      ocamlode_dCreateGeomTransform, ocamlode_dGeomTransformSetGeom, ocamlode_dCreateConvex,
      ocamlode_dCreateHeightfield, ocamlode_dCreateTriMesh_native, ocamlode_dQuadTreeSpaceCreate,
      ocamlode_dJointCreateContact, hN, hS, hJ, hB, hB2, hG, hWw, hWj, hWg, hWt, dReal_val,
      Double_val, convexdata_val, dHeightfieldDataID_val, Int_val, Long_val, hIb,
      dVector3_val_h, Wosize_val, hszc, hsze, hvc, hve, hcontact]
  · simp [ocamlode_dJointCreateBall, ocamlode_dJointCreateHinge, ocamlode_dJointCreateSlider,
      ocamlode_dJointCreateUniversal, ocamlode_dJointCreateHinge2, ocamlode_dJointCreateFixed,
      ocamlode_dJointCreateAMotor, ocamlode_dJointCreateLMotor, ocamlode_dJointCreatePlane2D,
      ocamlode_dJointAttach, ocamlode_dSimpleSpaceCreate, ocamlode_dHashSpaceCreate,
      ocamlode_dGeomSetBody, ocamlode_dCreateSphere, ocamlode_dCreateBox, ocamlode_dCreatePlane,
      ocamlode_dCreateCapsule, ocamlode_dCreateCylinder, ocamlode_dCreateRay,
      ocamlode_dCreateGeomTransform, ocamlode_dGeomTransformSetGeom, ocamlode_dCreateConvex,
      ocamlode_dCreateHeightfield, ocamlode_dCreateTriMesh_native, ocamlode_dQuadTreeSpaceCreate,
      ocamlode_dJointCreateContact, hN, hS, hJ, hB, hB2, hG, hWw, hWj, hWg, hWt, dReal_val,
      Double_val, convexdata_val, dHeightfieldDataID_val, Int_val, Long_val, hIb,
      dVector3_val_h, Wosize_val, hszc, hsze, hvc, hve, hcontact]
  · simp [ocamlode_dJointCreateBall, ocamlode_dJointCreateHinge, ocamlode_dJointCreateSlider,
      ocamlode_dJointCreateUniversal, ocamlode_dJointCreateHinge2, ocamlode_dJointCreateFixed,
      ocamlode_dJointCreateAMotor, ocamlode_dJointCreateLMotor, ocamlode_dJointCreatePlane2D,
      ocamlode_dJointAttach, ocamlode_dSimpleSpaceCreate, ocamlode_dHashSpaceCreate,
      ocamlode_dGeomSetBody, ocamlode_dCreateSphere, ocamlode_dCreateBox, ocamlode_dCreatePlane,
      ocamlode_dCreateCapsule, ocamlode_dCreateCylinder, ocamlode_dCreateRay,
      ocamlode_dCreateGeomTransform, ocamlode_dGeomTransformSetGeom, ocamlode_dCreateConvex,
      ocamlode_dCreateHeightfield, ocamlode_dCreateTriMesh_native, ocamlode_dQuadTreeSpaceCreate,
      ocamlode_dJointCreateContact, hN, hS, hJ, hB, hB2, hG, hWw, hWj, hWg, hWt, dReal_val,
      Double_val, convexdata_val, dHeightfieldDataID_val, Int_val, Long_val, hIb,
      dVector3_val_h, Wosize_val, hszc, hsze, hvc, hve, hcontact]
  · simp [ocamlode_dJointCreateBall, ocamlode_dJointCreateHinge, ocamlode_dJointCreateSlider,
      ocamlode_dJointCreateUniversal, ocamlode_dJointCreateHinge2, ocamlode_dJointCreateFixed,
      ocamlode_dJointCreateAMotor, ocamlode_dJointCreateLMotor, ocamlode_dJointCreatePlane2D,
      ocamlode_dJointAttach, ocamlode_dSimpleSpaceCreate, ocamlode_dHashSpaceCreate,
      ocamlode_dGeomSetBody, ocamlode_dCreateSphere, ocamlode_dCreateBox, ocamlode_dCreatePlane,
      ocamlode_dCreateCapsule, ocamlode_dCreateCylinder, ocamlode_dCreateRay,
      ocamlode_dCreateGeomTransform, ocamlode_dGeomTransformSetGeom, ocamlode_dCreateConvex,
      ocamlode_dCreateHeightfield, ocamlode_dCreateTriMesh_native, ocamlode_dQuadTreeSpaceCreate,
      ocamlode_dJointCreateContact, hN, hS, hJ, hB, hB2, hG, hWw, hWj, hWg, hWt, dReal_val,
      Double_val, convexdata_val, dHeightfieldDataID_val, Int_val, Long_val, hIb,
      dVector3_val_h, Wosize_val, hszc, hsze, hvc, hve, hcontact]
  · simp [ocamlode_dJointCreateBall, ocamlode_dJointCreateHinge, ocamlode_dJointCreateSlider,
      ocamlode_dJointCreateUniversal, ocamlode_dJointCreateHinge2, ocamlode_dJointCreateFixed,
      ocamlode_dJointCreateAMotor, ocamlode_dJointCreateLMotor, ocamlode_dJointCreatePlane2D,
      ocamlode_dJointAttach, ocamlode_dSimpleSpaceCreate, ocamlode_dHashSpaceCreate,
      ocamlode_dGeomSetBody, ocamlode_dCreateSphere, ocamlode_dCreateBox, ocamlode_dCreatePlane,
      ocamlode_dCreateCapsule, ocamlode_dCreateCylinder, ocamlode_dCreateRay,
      ocamlode_dCreateGeomTransform, ocamlode_dGeomTransformSetGeom, ocamlode_dCreateConvex,
      ocamlode_dCreateHeightfield, ocamlode_dCreateTriMesh_native, ocamlode_dQuadTreeSpaceCreate,
      ocamlode_dJointCreateContact, hN, hS, hJ, hB, hB2, hG, hWw, hWj, hWg, hWt, dReal_val,
      Double_val, convexdata_val, dHeightfieldDataID_val, Int_val, Long_val, hIb,
      dVector3_val_h, Wosize_val, hszc, hsze, hvc, hve, hcontact]
  · simp [ocamlode_dJointCreateBall, ocamlode_dJointCreateHinge, ocamlode_dJointCreateSlider,
      ocamlode_dJointCreateUniversal, ocamlode_dJointCreateHinge2, ocamlode_dJointCreateFixed,
      ocamlode_dJointCreateAMotor, ocamlode_dJointCreateLMotor, ocamlode_dJointCreatePlane2D,
      ocamlode_dJointAttach, ocamlode_dSimpleSpaceCreate, ocamlode_dHashSpaceCreate,
      ocamlode_dGeomSetBody, ocamlode_dCreateSphere, ocamlode_dCreateBox, ocamlode_dCreatePlane,
      ocamlode_dCreateCapsule, ocamlode_dCreateCylinder, ocamlode_dCreateRay,
      ocamlode_dCreateGeomTransform, ocamlode_dGeomTransformSetGeom, ocamlode_dCreateConvex,
      ocamlode_dCreateHeightfield, ocamlode_dCreateTriMesh_native, ocamlode_dQuadTreeSpaceCreate,
      ocamlode_dJointCreateContact, hN, hS, hJ, hB, hB2, hG, hWw, hWj, hWg, hWt, dReal_val,
      Double_val, convexdata_val, dHeightfieldDataID_val, Int_val, Long_val, hIb,
      dVector3_val_h, Wosize_val, hszc, hsze, hvc, hve, hcontact]
  · simp [ocamlode_dJointCreateBall, ocamlode_dJointCreateHinge, ocamlode_dJointCreateSlider,
      ocamlode_dJointCreateUniversal, ocamlode_dJointCreateHinge2, ocamlode_dJointCreateFixed,
      ocamlode_dJointCreateAMotor, ocamlode_dJointCreateLMotor, ocamlode_dJointCreatePlane2D,
      ocamlode_dJointAttach, ocamlode_dSimpleSpaceCreate, ocamlode_dHashSpaceCreate,
      ocamlode_dGeomSetBody, ocamlode_dCreateSphere, ocamlode_dCreateBox, ocamlode_dCreatePlane,
      ocamlode_dCreateCapsule, ocamlode_dCreateCylinder, ocamlode_dCreateRay,
      ocamlode_dCreateGeomTransform, ocamlode_dGeomTransformSetGeom, ocamlode_dCreateConvex,
      ocamlode_dCreateHeightfield, ocamlode_dCreateTriMesh_native, ocamlode_dQuadTreeSpaceCreate,
      ocamlode_dJointCreateContact, hN, hS, hJ, hB, hB2, hG, hWw, hWj, hWg, hWt, dReal_val,
      Double_val, convexdata_val, dHeightfieldDataID_val, Int_val, Long_val, hIb,
      dVector3_val_h, Wosize_val, hszc, hsze, hvc, hve, hcontact]
  · simp [ocamlode_dJointCreateBall, ocamlode_dJointCreateHinge, ocamlode_dJointCreateSlider,
      ocamlode_dJointCreateUniversal, ocamlode_dJointCreateHinge2, ocamlode_dJointCreateFixed,
      ocamlode_dJointCreateAMotor, ocamlode_dJointCreateLMotor, ocamlode_dJointCreatePlane2D,
      ocamlode_dJointAttach, ocamlode_dSimpleSpaceCreate, ocamlode_dHashSpaceCreate,
      ocamlode_dGeomSetBody, ocamlode_dCreateSphere, ocamlode_dCreateBox, ocamlode_dCreatePlane,
      ocamlode_dCreateCapsule, ocamlode_dCreateCylinder, ocamlode_dCreateRay,
      ocamlode_dCreateGeomTransform, ocamlode_dGeomTransformSetGeom, ocamlode_dCreateConvex,
      ocamlode_dCreateHeightfield, ocamlode_dCreateTriMesh_native, ocamlode_dQuadTreeSpaceCreate,
      ocamlode_dJointCreateContact, hN, hS, hJ, hB, hB2, hG, hWw, hWj, hWg, hWt, dReal_val,
      Double_val, convexdata_val, dHeightfieldDataID_val, Int_val, Long_val, hIb,
      dVector3_val_h, Wosize_val, hszc, hsze, hvc, hve, hcontact]
  · simp [ocamlode_dJointCreateBall, ocamlode_dJointCreateHinge, ocamlode_dJointCreateSlider,
      ocamlode_dJointCreateUniversal, ocamlode_dJointCreateHinge2, ocamlode_dJointCreateFixed,
      ocamlode_dJointCreateAMotor, ocamlode_dJointCreateLMotor, ocamlode_dJointCreatePlane2D,
      ocamlode_dJointAttach, ocamlode_dSimpleSpaceCreate, ocamlode_dHashSpaceCreate,
      ocamlode_dGeomSetBody, ocamlode_dCreateSphere, ocamlode_dCreateBox, ocamlode_dCreatePlane,
      ocamlode_dCreateCapsule, ocamlode_dCreateCylinder, ocamlode_dCreateRay,
      ocamlode_dCreateGeomTransform, ocamlode_dGeomTransformSetGeom, ocamlode_dCreateConvex,
      ocamlode_dCreateHeightfield, ocamlode_dCreateTriMesh_native, ocamlode_dQuadTreeSpaceCreate,
      ocamlode_dJointCreateContact, hN, hS, hJ, hB, hB2, hG, hWw, hWj, hWg, hWt, dReal_val,
      Double_val, convexdata_val, dHeightfieldDataID_val, Int_val, Long_val, hIb,
      dVector3_val_h, Wosize_val, hszc, hsze, hvc, hve, hcontact]
  · simp [ocamlode_dJointCreateBall, ocamlode_dJointCreateHinge, ocamlode_dJointCreateSlider,
      ocamlode_dJointCreateUniversal, ocamlode_dJointCreateHinge2, ocamlode_dJointCreateFixed,
      ocamlode_dJointCreateAMotor, ocamlode_dJointCreateLMotor, ocamlode_dJointCreatePlane2D,
      ocamlode_dJointAttach, ocamlode_dSimpleSpaceCreate, ocamlode_dHashSpaceCreate,
      ocamlode_dGeomSetBody, ocamlode_dCreateSphere, ocamlode_dCreateBox, ocamlode_dCreatePlane,
      ocamlode_dCreateCapsule, ocamlode_dCreateCylinder, ocamlode_dCreateRay,
      ocamlode_dCreateGeomTransform, ocamlode_dGeomTransformSetGeom, ocamlode_dCreateConvex,
      ocamlode_dCreateHeightfield, ocamlode_dCreateTriMesh_native, ocamlode_dQuadTreeSpaceCreate,
      ocamlode_dJointCreateContact, hN, hS, hJ, hB, hB2, hG, hWw, hWj, hWg, hWt, dReal_val,
      Double_val, convexdata_val, dHeightfieldDataID_val, Int_val, Long_val, hIb,
      dVector3_val_h, Wosize_val, hszc, hsze, hvc, hve, hcontact]
  · simp [ocamlode_dJointCreateBall, ocamlode_dJointCreateHinge, ocamlode_dJointCreateSlider,
      ocamlode_dJointCreateUniversal, ocamlode_dJointCreateHinge2, ocamlode_dJointCreateFixed,
      ocamlode_dJointCreateAMotor, ocamlode_dJointCreateLMotor, ocamlode_dJointCreatePlane2D,
      ocamlode_dJointAttach, ocamlode_dSimpleSpaceCreate, ocamlode_dHashSpaceCreate,
      ocamlode_dGeomSetBody, ocamlode_dCreateSphere, ocamlode_dCreateBox, ocamlode_dCreatePlane,
      ocamlode_dCreateCapsule, ocamlode_dCreateCylinder, ocamlode_dCreateRay,
      ocamlode_dCreateGeomTransform, ocamlode_dGeomTransformSetGeom, ocamlode_dCreateConvex,
      ocamlode_dCreateHeightfield, ocamlode_dCreateTriMesh_native, ocamlode_dQuadTreeSpaceCreate,
      ocamlode_dJointCreateContact, hN, hS, hJ, hB, hB2, hG, hWw, hWj, hWg, hWt, dReal_val,
      Double_val, convexdata_val, dHeightfieldDataID_val, Int_val, Long_val, hIb,
      dVector3_val_h, Wosize_val, hszc, hsze, hvc, hve, hcontact]
  · simp [ocamlode_dJointCreateBall, ocamlode_dJointCreateHinge, ocamlode_dJointCreateSlider,
      ocamlode_dJointCreateUniversal, ocamlode_dJointCreateHinge2, ocamlode_dJointCreateFixed,
      ocamlode_dJointCreateAMotor, ocamlode_dJointCreateLMotor, ocamlode_dJointCreatePlane2D,
      ocamlode_dJointAttach, ocamlode_dSimpleSpaceCreate, ocamlode_dHashSpaceCreate,
      ocamlode_dGeomSetBody, ocamlode_dCreateSphere, ocamlode_dCreateBox, ocamlode_dCreatePlane,
      ocamlode_dCreateCapsule, ocamlode_dCreateCylinder, ocamlode_dCreateRay,
      ocamlode_dCreateGeomTransform, ocamlode_dGeomTransformSetGeom, ocamlode_dCreateConvex,
      ocamlode_dCreateHeightfield, ocamlode_dCreateTriMesh_native, ocamlode_dQuadTreeSpaceCreate,
      ocamlode_dJointCreateContact, hN, hS, hJ, hB, hB2, hG, hWw, hWj, hWg, hWt, dReal_val,
      Double_val, convexdata_val, dHeightfieldDataID_val, Int_val, Long_val, hIb,
      dVector3_val_h, Wosize_val, hszc, hsze, hvc, hve, hcontact]
  · simp [ocamlode_dJointCreateBall, ocamlode_dJointCreateHinge, ocamlode_dJointCreateSlider,
      ocamlode_dJointCreateUniversal, ocamlode_dJointCreateHinge2, ocamlode_dJointCreateFixed,
      ocamlode_dJointCreateAMotor, ocamlode_dJointCreateLMotor, ocamlode_dJointCreatePlane2D,
      ocamlode_dJointAttach, ocamlode_dSimpleSpaceCreate, ocamlode_dHashSpaceCreate,
      ocamlode_dGeomSetBody, ocamlode_dCreateSphere, ocamlode_dCreateBox, ocamlode_dCreatePlane,
      ocamlode_dCreateCapsule, ocamlode_dCreateCylinder, ocamlode_dCreateRay,
      ocamlode_dCreateGeomTransform, ocamlode_dGeomTransformSetGeom, ocamlode_dCreateConvex,
      ocamlode_dCreateHeightfield, ocamlode_dCreateTriMesh_native, ocamlode_dQuadTreeSpaceCreate,
      ocamlode_dJointCreateContact, hN, hS, hJ, hB, hB2, hG, hWw, hWj, hWg, hWt, dReal_val,
      Double_val, convexdata_val, dHeightfieldDataID_val, Int_val, Long_val, hIb,
      dVector3_val_h, Wosize_val, hszc, hsze, hvc, hve, hcontact]
  · simp [ocamlode_dJointCreateBall, ocamlode_dJointCreateHinge, ocamlode_dJointCreateSlider,
      ocamlode_dJointCreateUniversal, ocamlode_dJointCreateHinge2, ocamlode_dJointCreateFixed,
      ocamlode_dJointCreateAMotor, ocamlode_dJointCreateLMotor, ocamlode_dJointCreatePlane2D,
      ocamlode_dJointAttach, ocamlode_dSimpleSpaceCreate, ocamlode_dHashSpaceCreate,
      ocamlode_dGeomSetBody, ocamlode_dCreateSphere, ocamlode_dCreateBox, ocamlode_dCreatePlane,
      ocamlode_dCreateCapsule, ocamlode_dCreateCylinder, ocamlode_dCreateRay,
      ocamlode_dCreateGeomTransform, ocamlode_dGeomTransformSetGeom, ocamlode_dCreateConvex,
      ocamlode_dCreateHeightfield, ocamlode_dCreateTriMesh_native, ocamlode_dQuadTreeSpaceCreate,
      ocamlode_dJointCreateContact, hN, hS, hJ, hB, hB2, hG, hWw, hWj, hWg, hWt, dReal_val,
      Double_val, convexdata_val, dHeightfieldDataID_val, Int_val, Long_val, hIb,
      dVector3_val_h, Wosize_val, hszc, hsze, hvc, hve, hcontact]
  · simp [ocamlode_dJointCreateBall, ocamlode_dJointCreateHinge, ocamlode_dJointCreateSlider,
      ocamlode_dJointCreateUniversal, ocamlode_dJointCreateHinge2, ocamlode_dJointCreateFixed,
      ocamlode_dJointCreateAMotor, ocamlode_dJointCreateLMotor, ocamlode_dJointCreatePlane2D,
      ocamlode_dJointAttach, ocamlode_dSimpleSpaceCreate, ocamlode_dHashSpaceCreate,
      ocamlode_dGeomSetBody, ocamlode_dCreateSphere, ocamlode_dCreateBox, ocamlode_dCreatePlane,
      ocamlode_dCreateCapsule, ocamlode_dCreateCylinder, ocamlode_dCreateRay,
      ocamlode_dCreateGeomTransform, ocamlode_dGeomTransformSetGeom, ocamlode_dCreateConvex,
      ocamlode_dCreateHeightfield, ocamlode_dCreateTriMesh_native, ocamlode_dQuadTreeSpaceCreate,
      ocamlode_dJointCreateContact, hN, hS, hJ, hB, hB2, hG, hWw, hWj, hWg, hWt, dReal_val,
      Double_val, convexdata_val, dHeightfieldDataID_val, Int_val, Long_val, hIb,
      dVector3_val_h, Wosize_val, hszc, hsze, hvc, hve, hcontact]
  · simp [ocamlode_dJointCreateBall, ocamlode_dJointCreateHinge, ocamlode_dJointCreateSlider,
      ocamlode_dJointCreateUniversal, ocamlode_dJointCreateHinge2, ocamlode_dJointCreateFixed,
      ocamlode_dJointCreateAMotor, ocamlode_dJointCreateLMotor, ocamlode_dJointCreatePlane2D,
      ocamlode_dJointAttach, ocamlode_dSimpleSpaceCreate, ocamlode_dHashSpaceCreate,
      ocamlode_dGeomSetBody, ocamlode_dCreateSphere, ocamlode_dCreateBox, ocamlode_dCreatePlane,
      ocamlode_dCreateCapsule, ocamlode_dCreateCylinder, ocamlode_dCreateRay,
      ocamlode_dCreateGeomTransform, ocamlode_dGeomTransformSetGeom, ocamlode_dCreateConvex,
      ocamlode_dCreateHeightfield, ocamlode_dCreateTriMesh_native, ocamlode_dQuadTreeSpaceCreate,
      ocamlode_dJointCreateContact, hN, hS, hJ, hB, hB2, hG, hWw, hWj, hWg, hWt, dReal_val,
      Double_val, convexdata_val, dHeightfieldDataID_val, Int_val, Long_val, hIb,
      dVector3_val_h, Wosize_val, hszc, hsze, hvc, hve, hcontact]
  · simp [ocamlode_dJointCreateBall, ocamlode_dJointCreateHinge, ocamlode_dJointCreateSlider,
      ocamlode_dJointCreateUniversal, ocamlode_dJointCreateHinge2, ocamlode_dJointCreateFixed,
      ocamlode_dJointCreateAMotor, ocamlode_dJointCreateLMotor, ocamlode_dJointCreatePlane2D,
      ocamlode_dJointAttach, ocamlode_dSimpleSpaceCreate, ocamlode_dHashSpaceCreate,
      ocamlode_dGeomSetBody, ocamlode_dCreateSphere, ocamlode_dCreateBox, ocamlode_dCreatePlane,
      ocamlode_dCreateCapsule, ocamlode_dCreateCylinder, ocamlode_dCreateRay,
      ocamlode_dCreateGeomTransform, ocamlode_dGeomTransformSetGeom, ocamlode_dCreateConvex,
      ocamlode_dCreateHeightfield, ocamlode_dCreateTriMesh_native, ocamlode_dQuadTreeSpaceCreate,
      ocamlode_dJointCreateContact, hN, hS, hJ, hB, hB2, hG, hWw, hWj, hWg, hWt, dReal_val,
      Double_val, convexdata_val, dHeightfieldDataID_val, Int_val, Long_val, hIb,
      dVector3_val_h, Wosize_val, hszc, hsze, hvc, hve, hcontact]
  · simp [ocamlode_dJointCreateBall, ocamlode_dJointCreateHinge, ocamlode_dJointCreateSlider,
      ocamlode_dJointCreateUniversal, ocamlode_dJointCreateHinge2, ocamlode_dJointCreateFixed,
      ocamlode_dJointCreateAMotor, ocamlode_dJointCreateLMotor, ocamlode_dJointCreatePlane2D,
      ocamlode_dJointAttach, ocamlode_dSimpleSpaceCreate, ocamlode_dHashSpaceCreate,
      ocamlode_dGeomSetBody, ocamlode_dCreateSphere, ocamlode_dCreateBox, ocamlode_dCreatePlane,
      ocamlode_dCreateCapsule, ocamlode_dCreateCylinder, ocamlode_dCreateRay,
      ocamlode_dCreateGeomTransform, ocamlode_dGeomTransformSetGeom, ocamlode_dCreateConvex,
      ocamlode_dCreateHeightfield, ocamlode_dCreateTriMesh_native, ocamlode_dQuadTreeSpaceCreate,
      ocamlode_dJointCreateContact, hN, hS, hJ, hB, hB2, hG, hWw, hWj, hWg, hWt, dReal_val,
      Double_val, convexdata_val, dHeightfieldDataID_val, Int_val, Long_val, hIb,
      dVector3_val_h, Wosize_val, hszc, hsze, hvc, hve, hcontact]
  · simp [ocamlode_dJointCreateBall, ocamlode_dJointCreateHinge, ocamlode_dJointCreateSlider,
      ocamlode_dJointCreateUniversal, ocamlode_dJointCreateHinge2, ocamlode_dJointCreateFixed,
      ocamlode_dJointCreateAMotor, ocamlode_dJointCreateLMotor, ocamlode_dJointCreatePlane2D,
      ocamlode_dJointAttach, ocamlode_dSimpleSpaceCreate, ocamlode_dHashSpaceCreate,
      ocamlode_dGeomSetBody, ocamlode_dCreateSphere, ocamlode_dCreateBox, ocamlode_dCreatePlane,
      ocamlode_dCreateCapsule, ocamlode_dCreateCylinder, ocamlode_dCreateRay,
      ocamlode_dCreateGeomTransform, ocamlode_dGeomTransformSetGeom, ocamlode_dCreateConvex,
      ocamlode_dCreateHeightfield, ocamlode_dCreateTriMesh_native, ocamlode_dQuadTreeSpaceCreate,
      ocamlode_dJointCreateContact, hN, hS, hJ, hB, hB2, hG, hWw, hWj, hWg, hWt, dReal_val,
      Double_val, convexdata_val, dHeightfieldDataID_val, Int_val, Long_val, hIb,
      dVector3_val_h, Wosize_val, hszc, hsze, hvc, hve, hcontact]
  · simp [ocamlode_dJointCreateBall, ocamlode_dJointCreateHinge, ocamlode_dJointCreateSlider,
      ocamlode_dJointCreateUniversal, ocamlode_dJointCreateHinge2, ocamlode_dJointCreateFixed,
      ocamlode_dJointCreateAMotor, ocamlode_dJointCreateLMotor, ocamlode_dJointCreatePlane2D,
      ocamlode_dJointAttach, ocamlode_dSimpleSpaceCreate, ocamlode_dHashSpaceCreate,
      ocamlode_dGeomSetBody, ocamlode_dCreateSphere, ocamlode_dCreateBox, ocamlode_dCreatePlane,
      ocamlode_dCreateCapsule, ocamlode_dCreateCylinder, ocamlode_dCreateRay,
      ocamlode_dCreateGeomTransform, ocamlode_dGeomTransformSetGeom, ocamlode_dCreateConvex,
      ocamlode_dCreateHeightfield, ocamlode_dCreateTriMesh_native, ocamlode_dQuadTreeSpaceCreate,
      ocamlode_dJointCreateContact, hN, hS, hJ, hB, hB2, hG, hWw, hWj, hWg, hWt, dReal_val,
      Double_val, convexdata_val, dHeightfieldDataID_val, Int_val, Long_val, hIb,
      dVector3_val_h, Wosize_val, hszc, hsze, hvc, hve, hcontact]
  · simp [ocamlode_dJointCreateBall, ocamlode_dJointCreateHinge, ocamlode_dJointCreateSlider,
      ocamlode_dJointCreateUniversal, ocamlode_dJointCreateHinge2, ocamlode_dJointCreateFixed,
      ocamlode_dJointCreateAMotor, ocamlode_dJointCreateLMotor, ocamlode_dJointCreatePlane2D,
      ocamlode_dJointAttach, ocamlode_dSimpleSpaceCreate, ocamlode_dHashSpaceCreate,
      ocamlode_dGeomSetBody, ocamlode_dCreateSphere, ocamlode_dCreateBox, ocamlode_dCreatePlane,
      ocamlode_dCreateCapsule, ocamlode_dCreateCylinder, ocamlode_dCreateRay,
      ocamlode_dCreateGeomTransform, ocamlode_dGeomTransformSetGeom, ocamlode_dCreateConvex,
      ocamlode_dCreateHeightfield, ocamlode_dCreateTriMesh_native, ocamlode_dQuadTreeSpaceCreate,
      ocamlode_dJointCreateContact, hN, hS, hJ, hB, hB2, hG, hWw, hWj, hWg, hWt, dReal_val,
      Double_val, convexdata_val, dHeightfieldDataID_val, Int_val, Long_val, hIb,
      dVector3_val_h, Wosize_val, hszc, hsze, hvc, hve, hcontact]
  · simp [ocamlode_dJointCreateBall, ocamlode_dJointCreateHinge, ocamlode_dJointCreateSlider,
      ocamlode_dJointCreateUniversal, ocamlode_dJointCreateHinge2, ocamlode_dJointCreateFixed,
      ocamlode_dJointCreateAMotor, ocamlode_dJointCreateLMotor, ocamlode_dJointCreatePlane2D,
      ocamlode_dJointAttach, ocamlode_dSimpleSpaceCreate, ocamlode_dHashSpaceCreate,
      ocamlode_dGeomSetBody, ocamlode_dCreateSphere, ocamlode_dCreateBox, ocamlode_dCreatePlane,
      ocamlode_dCreateCapsule, ocamlode_dCreateCylinder, ocamlode_dCreateRay,
      ocamlode_dCreateGeomTransform, ocamlode_dGeomTransformSetGeom, ocamlode_dCreateConvex,
      ocamlode_dCreateHeightfield, ocamlode_dCreateTriMesh_native, ocamlode_dQuadTreeSpaceCreate,
      ocamlode_dJointCreateContact, hN, hS, hJ, hB, hB2, hG, hWw, hWj, hWg, hWt, dReal_val,
      Double_val, convexdata_val, dHeightfieldDataID_val, Int_val, Long_val, hIb,
      dVector3_val_h, Wosize_val, hszc, hsze, hvc, hve, hcontact]
  · simp [ocamlode_dJointCreateBall, ocamlode_dJointCreateHinge, ocamlode_dJointCreateSlider,
      ocamlode_dJointCreateUniversal, ocamlode_dJointCreateHinge2, ocamlode_dJointCreateFixed,
      ocamlode_dJointCreateAMotor, ocamlode_dJointCreateLMotor, ocamlode_dJointCreatePlane2D,
      ocamlode_dJointAttach, ocamlode_dSimpleSpaceCreate, ocamlode_dHashSpaceCreate,
      ocamlode_dGeomSetBody, ocamlode_dCreateSphere, ocamlode_dCreateBox, ocamlode_dCreatePlane,
      ocamlode_dCreateCapsule, ocamlode_dCreateCylinder, ocamlode_dCreateRay,
      ocamlode_dCreateGeomTransform, ocamlode_dGeomTransformSetGeom, ocamlode_dCreateConvex,
      ocamlode_dCreateHeightfield, ocamlode_dCreateTriMesh_native, ocamlode_dQuadTreeSpaceCreate,
      ocamlode_dJointCreateContact, hN, hS, hJ, hB, hB2, hG, hWw, hWj, hWg, hWt, dReal_val,
      Double_val, convexdata_val, dHeightfieldDataID_val, Int_val, Long_val, hIb,
      dVector3_val_h, Wosize_val, hszc, hsze, hvc, hve, hcontact]
  · simp [ocamlode_dJointCreateBall, ocamlode_dJointCreateHinge, ocamlode_dJointCreateSlider,
      ocamlode_dJointCreateUniversal, ocamlode_dJointCreateHinge2, ocamlode_dJointCreateFixed,
      ocamlode_dJointCreateAMotor, ocamlode_dJointCreateLMotor, ocamlode_dJointCreatePlane2D,
      ocamlode_dJointAttach, ocamlode_dSimpleSpaceCreate, ocamlode_dHashSpaceCreate,
      ocamlode_dGeomSetBody, ocamlode_dCreateSphere, ocamlode_dCreateBox, ocamlode_dCreatePlane,
      ocamlode_dCreateCapsule, ocamlode_dCreateCylinder, ocamlode_dCreateRay,
      ocamlode_dCreateGeomTransform, ocamlode_dGeomTransformSetGeom, ocamlode_dCreateConvex,
      ocamlode_dCreateHeightfield, ocamlode_dCreateTriMesh_native, ocamlode_dQuadTreeSpaceCreate,
      ocamlode_dJointCreateContact, hN, hS, hJ, hB, hB2, hG, hWw, hWj, hWg, hWt, dReal_val,
      Double_val, convexdata_val, dHeightfieldDataID_val, Int_val, Long_val, hIb,
      dVector3_val_h, Wosize_val, hszc, hsze, hvc, hve, hcontact]
  · simp [ocamlode_dJointCreateBall, ocamlode_dJointCreateHinge, ocamlode_dJointCreateSlider,
      ocamlode_dJointCreateUniversal, ocamlode_dJointCreateHinge2, ocamlode_dJointCreateFixed,
      ocamlode_dJointCreateAMotor, ocamlode_dJointCreateLMotor, ocamlode_dJointCreatePlane2D,
      ocamlode_dJointAttach, ocamlode_dSimpleSpaceCreate, ocamlode_dHashSpaceCreate,
      ocamlode_dGeomSetBody, ocamlode_dCreateSphere, ocamlode_dCreateBox, ocamlode_dCreatePlane,
      ocamlode_dCreateCapsule, ocamlode_dCreateCylinder, ocamlode_dCreateRay,
      ocamlode_dCreateGeomTransform, ocamlode_dGeomTransformSetGeom, ocamlode_dCreateConvex,
      ocamlode_dCreateHeightfield, ocamlode_dCreateTriMesh_native, ocamlode_dQuadTreeSpaceCreate,
      ocamlode_dJointCreateContact, hN, hS, hJ, hB, hB2, hG, hWw, hWj, hWg, hWt, dReal_val,
      Double_val, convexdata_val, dHeightfieldDataID_val, Int_val, Long_val, hIb,
      dVector3_val_h, Wosize_val, hszc, hsze, hvc, hve, hcontact]
  · simp [ocamlode_dJointCreateBall, ocamlode_dJointCreateHinge, ocamlode_dJointCreateSlider,
      ocamlode_dJointCreateUniversal, ocamlode_dJointCreateHinge2, ocamlode_dJointCreateFixed,
      ocamlode_dJointCreateAMotor, ocamlode_dJointCreateLMotor, ocamlode_dJointCreatePlane2D,
      ocamlode_dJointAttach, ocamlode_dSimpleSpaceCreate, ocamlode_dHashSpaceCreate,
      ocamlode_dGeomSetBody, ocamlode_dCreateSphere, ocamlode_dCreateBox, ocamlode_dCreatePlane,
      ocamlode_dCreateCapsule, ocamlode_dCreateCylinder, ocamlode_dCreateRay,
      ocamlode_dCreateGeomTransform, ocamlode_dGeomTransformSetGeom, ocamlode_dCreateConvex,
      ocamlode_dCreateHeightfield, ocamlode_dCreateTriMesh_native, ocamlode_dQuadTreeSpaceCreate,
      ocamlode_dJointCreateContact, hN, hS, hJ, hB, hB2, hG, hWw, hWj, hWg, hWt, dReal_val,
      Double_val, convexdata_val, dHeightfieldDataID_val, Int_val, Long_val, hIb,
      dVector3_val_h, Wosize_val, hszc, hsze, hvc, hve, hcontact]
  · simp [ocamlode_dJointCreateBall, ocamlode_dJointCreateHinge, ocamlode_dJointCreateSlider,
      ocamlode_dJointCreateUniversal, ocamlode_dJointCreateHinge2, ocamlode_dJointCreateFixed,
      ocamlode_dJointCreateAMotor, ocamlode_dJointCreateLMotor, ocamlode_dJointCreatePlane2D,
      ocamlode_dJointAttach, ocamlode_dSimpleSpaceCreate, ocamlode_dHashSpaceCreate,
      ocamlode_dGeomSetBody, ocamlode_dCreateSphere, ocamlode_dCreateBox, ocamlode_dCreatePlane,
      ocamlode_dCreateCapsule, ocamlode_dCreateCylinder, ocamlode_dCreateRay,
      ocamlode_dCreateGeomTransform, ocamlode_dGeomTransformSetGeom, ocamlode_dCreateConvex,
      ocamlode_dCreateHeightfield, ocamlode_dCreateTriMesh_native, ocamlode_dQuadTreeSpaceCreate,
      ocamlode_dJointCreateContact, hN, hS, hJ, hB, hB2, hG, hWw, hWj, hWg, hWt, dReal_val,
      Double_val, convexdata_val, dHeightfieldDataID_val, Int_val, Long_val, hIb,
      dVector3_val_h, Wosize_val, hszc, hsze, hvc, hve, hcontact]
  · simp [ocamlode_dJointCreateBall, ocamlode_dJointCreateHinge, ocamlode_dJointCreateSlider,
      ocamlode_dJointCreateUniversal, ocamlode_dJointCreateHinge2, ocamlode_dJointCreateFixed,
      ocamlode_dJointCreateAMotor, ocamlode_dJointCreateLMotor, ocamlode_dJointCreatePlane2D,
      ocamlode_dJointAttach, ocamlode_dSimpleSpaceCreate, ocamlode_dHashSpaceCreate,
      ocamlode_dGeomSetBody, ocamlode_dCreateSphere, ocamlode_dCreateBox, ocamlode_dCreatePlane,
      ocamlode_dCreateCapsule, ocamlode_dCreateCylinder, ocamlode_dCreateRay,
      ocamlode_dCreateGeomTransform, ocamlode_dGeomTransformSetGeom, ocamlode_dCreateConvex,
      ocamlode_dCreateHeightfield, ocamlode_dCreateTriMesh_native, ocamlode_dQuadTreeSpaceCreate,
      ocamlode_dJointCreateContact, hN, hS, hJ, hB, hB2, hG, hWw, hWj, hWg, hWt, dReal_val,
      Double_val, convexdata_val, dHeightfieldDataID_val, Int_val, Long_val, hIb,
      dVector3_val_h, Wosize_val, hszc, hsze, hvc, hve, hcontact]
  · simp [ocamlode_dJointCreateBall, ocamlode_dJointCreateHinge, ocamlode_dJointCreateSlider,
      ocamlode_dJointCreateUniversal, ocamlode_dJointCreateHinge2, ocamlode_dJointCreateFixed,
      ocamlode_dJointCreateAMotor, ocamlode_dJointCreateLMotor, ocamlode_dJointCreatePlane2D,
      ocamlode_dJointAttach, ocamlode_dSimpleSpaceCreate, ocamlode_dHashSpaceCreate,
      ocamlode_dGeomSetBody, ocamlode_dCreateSphere, ocamlode_dCreateBox, ocamlode_dCreatePlane,
      ocamlode_dCreateCapsule, ocamlode_dCreateCylinder, ocamlode_dCreateRay,
      ocamlode_dCreateGeomTransform, ocamlode_dGeomTransformSetGeom, ocamlode_dCreateConvex,
      ocamlode_dCreateHeightfield, ocamlode_dCreateTriMesh_native, ocamlode_dQuadTreeSpaceCreate,
      ocamlode_dJointCreateContact, hN, hS, hJ, hB, hB2, hG, hWw, hWj, hWg, hWt, dReal_val,
      Double_val, convexdata_val, dHeightfieldDataID_val, Int_val, Long_val, hIb,
      dVector3_val_h, Wosize_val, hszc, hsze, hvc, hve, hcontact]
  · simp [ocamlode_dJointCreateBall, ocamlode_dJointCreateHinge, ocamlode_dJointCreateSlider,
      ocamlode_dJointCreateUniversal, ocamlode_dJointCreateHinge2, ocamlode_dJointCreateFixed,
      ocamlode_dJointCreateAMotor, ocamlode_dJointCreateLMotor, ocamlode_dJointCreatePlane2D,
      ocamlode_dJointAttach, ocamlode_dSimpleSpaceCreate, ocamlode_dHashSpaceCreate,
      ocamlode_dGeomSetBody, ocamlode_dCreateSphere, ocamlode_dCreateBox, ocamlode_dCreatePlane,
      ocamlode_dCreateCapsule, ocamlode_dCreateCylinder, ocamlode_dCreateRay,
      ocamlode_dCreateGeomTransform, ocamlode_dGeomTransformSetGeom, ocamlode_dCreateConvex,
      ocamlode_dCreateHeightfield, ocamlode_dCreateTriMesh_native, ocamlode_dQuadTreeSpaceCreate,
      ocamlode_dJointCreateContact, hN, hS, hJ, hB, hB2, hG, hWw, hWj, hWg, hWt, dReal_val,
      Double_val, convexdata_val, dHeightfieldDataID_val, Int_val, Long_val, hIb,
      dVector3_val_h, Wosize_val, hszc, hsze, hvc, hve, hcontact]
  · simp [ocamlode_dJointCreateBall, ocamlode_dJointCreateHinge, ocamlode_dJointCreateSlider,
      ocamlode_dJointCreateUniversal, ocamlode_dJointCreateHinge2, ocamlode_dJointCreateFixed,
      ocamlode_dJointCreateAMotor, ocamlode_dJointCreateLMotor, ocamlode_dJointCreatePlane2D,
      ocamlode_dJointAttach, ocamlode_dSimpleSpaceCreate, ocamlode_dHashSpaceCreate,
      ocamlode_dGeomSetBody, ocamlode_dCreateSphere, ocamlode_dCreateBox, ocamlode_dCreatePlane,
      ocamlode_dCreateCapsule, ocamlode_dCreateCylinder, ocamlode_dCreateRay,
      ocamlode_dCreateGeomTransform, ocamlode_dGeomTransformSetGeom, ocamlode_dCreateConvex,
      ocamlode_dCreateHeightfield, ocamlode_dCreateTriMesh_native, ocamlode_dQuadTreeSpaceCreate,
      ocamlode_dJointCreateContact, hN, hS, hJ, hB, hB2, hG, hWw, hWj, hWg, hWt, dReal_val,
      Double_val, convexdata_val, dHeightfieldDataID_val, Int_val, Long_val, hIb,
      dVector3_val_h, Wosize_val, hszc, hsze, hvc, hve, hcontact]
  · simp [ocamlode_dJointCreateBall, ocamlode_dJointCreateHinge, ocamlode_dJointCreateSlider,
      ocamlode_dJointCreateUniversal, ocamlode_dJointCreateHinge2, ocamlode_dJointCreateFixed,
      ocamlode_dJointCreateAMotor, ocamlode_dJointCreateLMotor, ocamlode_dJointCreatePlane2D,
      ocamlode_dJointAttach, ocamlode_dSimpleSpaceCreate, ocamlode_dHashSpaceCreate,
      ocamlode_dGeomSetBody, ocamlode_dCreateSphere, ocamlode_dCreateBox, ocamlode_dCreatePlane,
      ocamlode_dCreateCapsule, ocamlode_dCreateCylinder, ocamlode_dCreateRay,
      ocamlode_dCreateGeomTransform, ocamlode_dGeomTransformSetGeom, ocamlode_dCreateConvex,
      ocamlode_dCreateHeightfield, ocamlode_dCreateTriMesh_native, ocamlode_dQuadTreeSpaceCreate,
      ocamlode_dJointCreateContact, hN, hS, hJ, hB, hB2, hG, hWw, hWj, hWg, hWt, dReal_val,
      Double_val, convexdata_val, dHeightfieldDataID_val, Int_val, Long_val, hIb,
      dVector3_val_h, Wosize_val, hszc, hsze, hvc, hve, hcontact]
  · simp [ocamlode_dJointCreateBall, ocamlode_dJointCreateHinge, ocamlode_dJointCreateSlider,
      ocamlode_dJointCreateUniversal, ocamlode_dJointCreateHinge2, ocamlode_dJointCreateFixed,
      ocamlode_dJointCreateAMotor, ocamlode_dJointCreateLMotor, ocamlode_dJointCreatePlane2D,
      ocamlode_dJointAttach, ocamlode_dSimpleSpaceCreate, ocamlode_dHashSpaceCreate,
      ocamlode_dGeomSetBody, ocamlode_dCreateSphere, ocamlode_dCreateBox, ocamlode_dCreatePlane,
      ocamlode_dCreateCapsule, ocamlode_dCreateCylinder, ocamlode_dCreateRay,
      ocamlode_dCreateGeomTransform, ocamlode_dGeomTransformSetGeom, ocamlode_dCreateConvex,
      ocamlode_dCreateHeightfield, ocamlode_dCreateTriMesh_native, ocamlode_dQuadTreeSpaceCreate,
      ocamlode_dJointCreateContact, hN, hS, hJ, hB, hB2, hG, hWw, hWj, hWg, hWt, dReal_val,
      Double_val, convexdata_val, dHeightfieldDataID_val, Int_val, Long_val, hIb,
      dVector3_val_h, Wosize_val, hszc, hsze, hvc, hve, hcontact]
  · simp [ocamlode_dJointCreateBall, ocamlode_dJointCreateHinge, ocamlode_dJointCreateSlider,
      ocamlode_dJointCreateUniversal, ocamlode_dJointCreateHinge2, ocamlode_dJointCreateFixed,
      ocamlode_dJointCreateAMotor, ocamlode_dJointCreateLMotor, ocamlode_dJointCreatePlane2D,
      ocamlode_dJointAttach, ocamlode_dSimpleSpaceCreate, ocamlode_dHashSpaceCreate,
      ocamlode_dGeomSetBody, ocamlode_dCreateSphere, ocamlode_dCreateBox, ocamlode_dCreatePlane,
      ocamlode_dCreateCapsule, ocamlode_dCreateCylinder, ocamlode_dCreateRay,
      ocamlode_dCreateGeomTransform, ocamlode_dGeomTransformSetGeom, ocamlode_dCreateConvex,
      ocamlode_dCreateHeightfield, ocamlode_dCreateTriMesh_native, ocamlode_dQuadTreeSpaceCreate,
      ocamlode_dJointCreateContact, hN, hS, hJ, hB, hB2, hG, hWw, hWj, hWg, hWt, dReal_val,
      Double_val, convexdata_val, dHeightfieldDataID_val, Int_val, Long_val, hIb,
      dVector3_val_h, Wosize_val, hszc, hsze, hvc, hve, hcontact]
  · simp [ocamlode_dJointCreateBall, ocamlode_dJointCreateHinge, ocamlode_dJointCreateSlider,
      ocamlode_dJointCreateUniversal, ocamlode_dJointCreateHinge2, ocamlode_dJointCreateFixed,
      ocamlode_dJointCreateAMotor, ocamlode_dJointCreateLMotor, ocamlode_dJointCreatePlane2D,
      ocamlode_dJointAttach, ocamlode_dSimpleSpaceCreate, ocamlode_dHashSpaceCreate,
      ocamlode_dGeomSetBody, ocamlode_dCreateSphere, ocamlode_dCreateBox, ocamlode_dCreatePlane,
      ocamlode_dCreateCapsule, ocamlode_dCreateCylinder, ocamlode_dCreateRay,
      ocamlode_dCreateGeomTransform, ocamlode_dGeomTransformSetGeom, ocamlode_dCreateConvex,
      ocamlode_dCreateHeightfield, ocamlode_dCreateTriMesh_native, ocamlode_dQuadTreeSpaceCreate,
      ocamlode_dJointCreateContact, hN, hS, hJ, hB, hB2, hG, hWw, hWj, hWg, hWt, dReal_val,
      Double_val, convexdata_val, dHeightfieldDataID_val, Int_val, Long_val, hIb,
      dVector3_val_h, Wosize_val, hszc, hsze, hvc, hve, hcontact]
  · simp [ocamlode_dJointCreateBall, ocamlode_dJointCreateHinge, ocamlode_dJointCreateSlider,
      ocamlode_dJointCreateUniversal, ocamlode_dJointCreateHinge2, ocamlode_dJointCreateFixed,
      ocamlode_dJointCreateAMotor, ocamlode_dJointCreateLMotor, ocamlode_dJointCreatePlane2D,
      ocamlode_dJointAttach, ocamlode_dSimpleSpaceCreate, ocamlode_dHashSpaceCreate,
      ocamlode_dGeomSetBody, ocamlode_dCreateSphere, ocamlode_dCreateBox, ocamlode_dCreatePlane,
      ocamlode_dCreateCapsule, ocamlode_dCreateCylinder, ocamlode_dCreateRay,
      ocamlode_dCreateGeomTransform, ocamlode_dGeomTransformSetGeom, ocamlode_dCreateConvex,
      ocamlode_dCreateHeightfield, ocamlode_dCreateTriMesh_native, ocamlode_dQuadTreeSpaceCreate,
      ocamlode_dJointCreateContact, hN, hS, hJ, hB, hB2, hG, hWw, hWj, hWg, hWt, dReal_val,
      Double_val, convexdata_val, dHeightfieldDataID_val, Int_val, Long_val, hIb,
      dVector3_val_h, Wosize_val, hszc, hsze, hvc, hve, hcontact]
  · simp [ocamlode_dJointCreateBall, ocamlode_dJointCreateHinge, ocamlode_dJointCreateSlider,
      ocamlode_dJointCreateUniversal, ocamlode_dJointCreateHinge2, ocamlode_dJointCreateFixed,
      ocamlode_dJointCreateAMotor, ocamlode_dJointCreateLMotor, ocamlode_dJointCreatePlane2D,
      ocamlode_dJointAttach, ocamlode_dSimpleSpaceCreate, ocamlode_dHashSpaceCreate,
      ocamlode_dGeomSetBody, ocamlode_dCreateSphere, ocamlode_dCreateBox, ocamlode_dCreatePlane,
      ocamlode_dCreateCapsule, ocamlode_dCreateCylinder, ocamlode_dCreateRay,
      ocamlode_dCreateGeomTransform, ocamlode_dGeomTransformSetGeom, ocamlode_dCreateConvex,
      ocamlode_dCreateHeightfield, ocamlode_dCreateTriMesh_native, ocamlode_dQuadTreeSpaceCreate,
      ocamlode_dJointCreateContact, hN, hS, hJ, hB, hB2, hG, hWw, hWj, hWg, hWt, dReal_val,
      Double_val, convexdata_val, dHeightfieldDataID_val, Int_val, Long_val, hIb,
      dVector3_val_h, Wosize_val, hszc, hsze, hvc, hve, hcontact]
  · simp [ocamlode_dJointCreateBall, ocamlode_dJointCreateHinge, ocamlode_dJointCreateSlider,
      ocamlode_dJointCreateUniversal, ocamlode_dJointCreateHinge2, ocamlode_dJointCreateFixed,
      ocamlode_dJointCreateAMotor, ocamlode_dJointCreateLMotor, ocamlode_dJointCreatePlane2D,
      ocamlode_dJointAttach, ocamlode_dSimpleSpaceCreate, ocamlode_dHashSpaceCreate,
      ocamlode_dGeomSetBody, ocamlode_dCreateSphere, ocamlode_dCreateBox, ocamlode_dCreatePlane,
      ocamlode_dCreateCapsule, ocamlode_dCreateCylinder, ocamlode_dCreateRay,
      ocamlode_dCreateGeomTransform, ocamlode_dGeomTransformSetGeom, ocamlode_dCreateConvex,
      ocamlode_dCreateHeightfield, ocamlode_dCreateTriMesh_native, ocamlode_dQuadTreeSpaceCreate,
      ocamlode_dJointCreateContact, hN, hS, hJ, hB, hB2, hG, hWw, hWj, hWg, hWt, dReal_val,
      Double_val, convexdata_val, dHeightfieldDataID_val, Int_val, Long_val, hIb,
      dVector3_val_h, Wosize_val, hszc, hsze, hvc, hve, hcontact]
  · simp [ocamlode_dJointCreateBall, ocamlode_dJointCreateHinge, ocamlode_dJointCreateSlider,
      ocamlode_dJointCreateUniversal, ocamlode_dJointCreateHinge2, ocamlode_dJointCreateFixed,
      ocamlode_dJointCreateAMotor, ocamlode_dJointCreateLMotor, ocamlode_dJointCreatePlane2D,
      ocamlode_dJointAttach, ocamlode_dSimpleSpaceCreate, ocamlode_dHashSpaceCreate,
      ocamlode_dGeomSetBody, ocamlode_dCreateSphere, ocamlode_dCreateBox, ocamlode_dCreatePlane,
      ocamlode_dCreateCapsule, ocamlode_dCreateCylinder, ocamlode_dCreateRay,
      ocamlode_dCreateGeomTransform, ocamlode_dGeomTransformSetGeom, ocamlode_dCreateConvex,
      ocamlode_dCreateHeightfield, ocamlode_dCreateTriMesh_native, ocamlode_dQuadTreeSpaceCreate,
      ocamlode_dJointCreateContact, hN, hS, hJ, hB, hB2, hG, hWw, hWj, hWg, hWt, dReal_val,
      Double_val, convexdata_val, dHeightfieldDataID_val, Int_val, Long_val, hIb,
      dVector3_val_h, Wosize_val, hszc, hsze, hvc, hve, hcontact]
  · simp [ocamlode_dJointCreateBall, ocamlode_dJointCreateHinge, ocamlode_dJointCreateSlider,
      ocamlode_dJointCreateUniversal, ocamlode_dJointCreateHinge2, ocamlode_dJointCreateFixed,
      ocamlode_dJointCreateAMotor, ocamlode_dJointCreateLMotor, ocamlode_dJointCreatePlane2D,
      ocamlode_dJointAttach, ocamlode_dSimpleSpaceCreate, ocamlode_dHashSpaceCreate,
      ocamlode_dGeomSetBody, ocamlode_dCreateSphere, ocamlode_dCreateBox, ocamlode_dCreatePlane,
      ocamlode_dCreateCapsule, ocamlode_dCreateCylinder, ocamlode_dCreateRay,
      ocamlode_dCreateGeomTransform, ocamlode_dGeomTransformSetGeom, ocamlode_dCreateConvex,
      ocamlode_dCreateHeightfield, ocamlode_dCreateTriMesh_native, ocamlode_dQuadTreeSpaceCreate,
      ocamlode_dJointCreateContact, hN, hS, hJ, hB, hB2, hG, hWw, hWj, hWg, hWt, dReal_val,
      Double_val, convexdata_val, dHeightfieldDataID_val, Int_val, Long_val, hIb,
      dVector3_val_h, Wosize_val, hszc, hsze, hvc, hve, hcontact]
  · simp [ocamlode_dJointCreateBall, ocamlode_dJointCreateHinge, ocamlode_dJointCreateSlider,
      ocamlode_dJointCreateUniversal, ocamlode_dJointCreateHinge2, ocamlode_dJointCreateFixed,
      ocamlode_dJointCreateAMotor, ocamlode_dJointCreateLMotor, ocamlode_dJointCreatePlane2D,
      ocamlode_dJointAttach, ocamlode_dSimpleSpaceCreate, ocamlode_dHashSpaceCreate,
      ocamlode_dGeomSetBody, ocamlode_dCreateSphere, ocamlode_dCreateBox, ocamlode_dCreatePlane,
      ocamlode_dCreateCapsule, ocamlode_dCreateCylinder, ocamlode_dCreateRay,
      ocamlode_dCreateGeomTransform, ocamlode_dGeomTransformSetGeom, ocamlode_dCreateConvex,
      ocamlode_dCreateHeightfield, ocamlode_dCreateTriMesh_native, ocamlode_dQuadTreeSpaceCreate,
      ocamlode_dJointCreateContact, hN, hS, hJ, hB, hB2, hG, hWw, hWj, hWg, hWt, dReal_val,
      Double_val, convexdata_val, dHeightfieldDataID_val, Int_val, Long_val, hIb,
      dVector3_val_h, Wosize_val, hszc, hsze, hvc, hve, hcontact]
  · simp [ocamlode_dJointCreateBall, ocamlode_dJointCreateHinge, ocamlode_dJointCreateSlider,
      ocamlode_dJointCreateUniversal, ocamlode_dJointCreateHinge2, ocamlode_dJointCreateFixed,
      ocamlode_dJointCreateAMotor, ocamlode_dJointCreateLMotor, ocamlode_dJointCreatePlane2D,
      ocamlode_dJointAttach, ocamlode_dSimpleSpaceCreate, ocamlode_dHashSpaceCreate,
      ocamlode_dGeomSetBody, ocamlode_dCreateSphere, ocamlode_dCreateBox, ocamlode_dCreatePlane,
      ocamlode_dCreateCapsule, ocamlode_dCreateCylinder, ocamlode_dCreateRay,
      ocamlode_dCreateGeomTransform, ocamlode_dGeomTransformSetGeom, ocamlode_dCreateConvex,
      ocamlode_dCreateHeightfield, ocamlode_dCreateTriMesh_native, ocamlode_dQuadTreeSpaceCreate,
      ocamlode_dJointCreateContact, hN, hS, hJ, hB, hB2, hG, hWw, hWj, hWg, hWt, dReal_val,
      Double_val, convexdata_val, dHeightfieldDataID_val, Int_val, Long_val, hIb,
      dVector3_val_h, Wosize_val, hszc, hsze, hvc, hve, hcontact]
  · simp [ocamlode_dJointCreateBall, ocamlode_dJointCreateHinge, ocamlode_dJointCreateSlider,
      ocamlode_dJointCreateUniversal, ocamlode_dJointCreateHinge2, ocamlode_dJointCreateFixed,
      ocamlode_dJointCreateAMotor, ocamlode_dJointCreateLMotor, ocamlode_dJointCreatePlane2D,
      ocamlode_dJointAttach, ocamlode_dSimpleSpaceCreate, ocamlode_dHashSpaceCreate,
      ocamlode_dGeomSetBody, ocamlode_dCreateSphere, ocamlode_dCreateBox, ocamlode_dCreatePlane,
      ocamlode_dCreateCapsule, ocamlode_dCreateCylinder, ocamlode_dCreateRay,
      ocamlode_dCreateGeomTransform, ocamlode_dGeomTransformSetGeom, ocamlode_dCreateConvex,
      ocamlode_dCreateHeightfield, ocamlode_dCreateTriMesh_native, ocamlode_dQuadTreeSpaceCreate,
      ocamlode_dJointCreateContact, hN, hS, hJ, hB, hB2, hG, hWw, hWj, hWg, hWt, dReal_val,
      Double_val, convexdata_val, dHeightfieldDataID_val, Int_val, Long_val, hIb,
      dVector3_val_h, Wosize_val, hszc, hsze, hvc, hve, hcontact]
  · simp [ocamlode_dJointCreateBall, ocamlode_dJointCreateHinge, ocamlode_dJointCreateSlider,
      ocamlode_dJointCreateUniversal, ocamlode_dJointCreateHinge2, ocamlode_dJointCreateFixed,
      ocamlode_dJointCreateAMotor, ocamlode_dJointCreateLMotor, ocamlode_dJointCreatePlane2D,
      ocamlode_dJointAttach, ocamlode_dSimpleSpaceCreate, ocamlode_dHashSpaceCreate,
      ocamlode_dGeomSetBody, ocamlode_dCreateSphere, ocamlode_dCreateBox, ocamlode_dCreatePlane,
      ocamlode_dCreateCapsule, ocamlode_dCreateCylinder, ocamlode_dCreateRay,
      ocamlode_dCreateGeomTransform, ocamlode_dGeomTransformSetGeom, ocamlode_dCreateConvex,
      ocamlode_dCreateHeightfield, ocamlode_dCreateTriMesh_native, ocamlode_dQuadTreeSpaceCreate,
      ocamlode_dJointCreateContact, hN, hS, hJ, hB, hB2, hG, hWw, hWj, hWg, hWt, dReal_val,
      Double_val, convexdata_val, dHeightfieldDataID_val, Int_val, Long_val, hIb,
      dVector3_val_h, Wosize_val, hszc, hsze, hvc, hve, hcontact]
  · simp [ocamlode_dJointCreateBall, ocamlode_dJointCreateHinge, ocamlode_dJointCreateSlider,
      ocamlode_dJointCreateUniversal, ocamlode_dJointCreateHinge2, ocamlode_dJointCreateFixed,
      ocamlode_dJointCreateAMotor, ocamlode_dJointCreateLMotor, ocamlode_dJointCreatePlane2D,
      ocamlode_dJointAttach, ocamlode_dSimpleSpaceCreate, ocamlode_dHashSpaceCreate,
      ocamlode_dGeomSetBody, ocamlode_dCreateSphere, ocamlode_dCreateBox, ocamlode_dCreatePlane,
      ocamlode_dCreateCapsule, ocamlode_dCreateCylinder, ocamlode_dCreateRay,
      ocamlode_dCreateGeomTransform, ocamlode_dGeomTransformSetGeom, ocamlode_dCreateConvex,
      ocamlode_dCreateHeightfield, ocamlode_dCreateTriMesh_native, ocamlode_dQuadTreeSpaceCreate,
      ocamlode_dJointCreateContact, hN, hS, hJ, hB, hB2, hG, hWw, hWj, hWg, hWt, dReal_val,
      Double_val, convexdata_val, dHeightfieldDataID_val, Int_val, Long_val, hIb,
      dVector3_val_h, Wosize_val, hszc, hsze, hvc, hve, hcontact]
  · simp [ocamlode_dJointCreateBall, ocamlode_dJointCreateHinge, ocamlode_dJointCreateSlider,
      ocamlode_dJointCreateUniversal, ocamlode_dJointCreateHinge2, ocamlode_dJointCreateFixed,
      ocamlode_dJointCreateAMotor, ocamlode_dJointCreateLMotor, ocamlode_dJointCreatePlane2D,
      ocamlode_dJointAttach, ocamlode_dSimpleSpaceCreate, ocamlode_dHashSpaceCreate,
      ocamlode_dGeomSetBody, ocamlode_dCreateSphere, ocamlode_dCreateBox, ocamlode_dCreatePlane,
      ocamlode_dCreateCapsule, ocamlode_dCreateCylinder, ocamlode_dCreateRay,
      ocamlode_dCreateGeomTransform, ocamlode_dGeomTransformSetGeom, ocamlode_dCreateConvex,
      ocamlode_dCreateHeightfield, ocamlode_dCreateTriMesh_native, ocamlode_dQuadTreeSpaceCreate,
      ocamlode_dJointCreateContact, hN, hS, hJ, hB, hB2, hG, hWw, hWj, hWg, hWt, dReal_val,
      Double_val, convexdata_val, dHeightfieldDataID_val, Int_val, Long_val, hIb,
      dVector3_val_h, Wosize_val, hszc, hsze, hvc, hve, hcontact]
  · simp [ocamlode_dJointCreateBall, ocamlode_dJointCreateHinge, ocamlode_dJointCreateSlider,
      ocamlode_dJointCreateUniversal, ocamlode_dJointCreateHinge2, ocamlode_dJointCreateFixed,
      ocamlode_dJointCreateAMotor, ocamlode_dJointCreateLMotor, ocamlode_dJointCreatePlane2D,
      ocamlode_dJointAttach, ocamlode_dSimpleSpaceCreate, ocamlode_dHashSpaceCreate,
      ocamlode_dGeomSetBody, ocamlode_dCreateSphere, ocamlode_dCreateBox, ocamlode_dCreatePlane,
      ocamlode_dCreateCapsule, ocamlode_dCreateCylinder, ocamlode_dCreateRay,
      ocamlode_dCreateGeomTransform, ocamlode_dGeomTransformSetGeom, ocamlode_dCreateConvex,
      ocamlode_dCreateHeightfield, ocamlode_dCreateTriMesh_native, ocamlode_dQuadTreeSpaceCreate,
      ocamlode_dJointCreateContact, hN, hS, hJ, hB, hB2, hG, hWw, hWj, hWg, hWt, dReal_val,
      Double_val, convexdata_val, dHeightfieldDataID_val, Int_val, Long_val, hIb,
      dVector3_val_h, Wosize_val, hszc, hsze, hvc, hve, hcontact]
  · simp [ocamlode_dJointCreateBall, ocamlode_dJointCreateHinge, ocamlode_dJointCreateSlider,
      ocamlode_dJointCreateUniversal, ocamlode_dJointCreateHinge2, ocamlode_dJointCreateFixed,
      ocamlode_dJointCreateAMotor, ocamlode_dJointCreateLMotor, ocamlode_dJointCreatePlane2D,
      ocamlode_dJointAttach, ocamlode_dSimpleSpaceCreate, ocamlode_dHashSpaceCreate,
      ocamlode_dGeomSetBody, ocamlode_dCreateSphere, ocamlode_dCreateBox, ocamlode_dCreatePlane,
      ocamlode_dCreateCapsule, ocamlode_dCreateCylinder, ocamlode_dCreateRay,
      ocamlode_dCreateGeomTransform, ocamlode_dGeomTransformSetGeom, ocamlode_dCreateConvex,
      ocamlode_dCreateHeightfield, ocamlode_dCreateTriMesh_native, ocamlode_dQuadTreeSpaceCreate,
      ocamlode_dJointCreateContact, hN, hS, hJ, hB, hB2, hG, hWw, hWj, hWg, hWt, dReal_val,
      Double_val, convexdata_val, dHeightfieldDataID_val, Int_val, Long_val, hIb,
      dVector3_val_h, Wosize_val, hszc, hsze, hvc, hve, hcontact]
  · simp [ocamlode_dJointCreateBall, ocamlode_dJointCreateHinge, ocamlode_dJointCreateSlider,
      ocamlode_dJointCreateUniversal, ocamlode_dJointCreateHinge2, ocamlode_dJointCreateFixed,
      ocamlode_dJointCreateAMotor, ocamlode_dJointCreateLMotor, ocamlode_dJointCreatePlane2D,
      ocamlode_dJointAttach, ocamlode_dSimpleSpaceCreate, ocamlode_dHashSpaceCreate,
      ocamlode_dGeomSetBody, ocamlode_dCreateSphere, ocamlode_dCreateBox, ocamlode_dCreatePlane,
      ocamlode_dCreateCapsule, ocamlode_dCreateCylinder, ocamlode_dCreateRay,
      ocamlode_dCreateGeomTransform, ocamlode_dGeomTransformSetGeom, ocamlode_dCreateConvex,
      ocamlode_dCreateHeightfield, ocamlode_dCreateTriMesh_native, ocamlode_dQuadTreeSpaceCreate,
      ocamlode_dJointCreateContact, hN, hS, hJ, hB, hB2, hG, hWw, hWj, hWg, hWt, dReal_val,
      Double_val, convexdata_val, dHeightfieldDataID_val, Int_val, Long_val, hIb,
      dVector3_val_h, Wosize_val, hszc, hsze, hvc, hve, hcontact]
  · simp [ocamlode_dJointCreateBall, ocamlode_dJointCreateHinge, ocamlode_dJointCreateSlider,
      ocamlode_dJointCreateUniversal, ocamlode_dJointCreateHinge2, ocamlode_dJointCreateFixed,
      ocamlode_dJointCreateAMotor, ocamlode_dJointCreateLMotor, ocamlode_dJointCreatePlane2D,
      ocamlode_dJointAttach, ocamlode_dSimpleSpaceCreate, ocamlode_dHashSpaceCreate,
      ocamlode_dGeomSetBody, ocamlode_dCreateSphere, ocamlode_dCreateBox, ocamlode_dCreatePlane,
      ocamlode_dCreateCapsule, ocamlode_dCreateCylinder, ocamlode_dCreateRay,
      ocamlode_dCreateGeomTransform, ocamlode_dGeomTransformSetGeom, ocamlode_dCreateConvex,
      ocamlode_dCreateHeightfield, ocamlode_dCreateTriMesh_native, ocamlode_dQuadTreeSpaceCreate,
      ocamlode_dJointCreateContact, hN, hS, hJ, hB, hB2, hG, hWw, hWj, hWg, hWt, dReal_val,
      Double_val, convexdata_val, dHeightfieldDataID_val, Int_val, Long_val, hIb,
      dVector3_val_h, Wosize_val, hszc, hsze, hvc, hve, hcontact]
  · simp [ocamlode_dJointCreateBall, ocamlode_dJointCreateHinge, ocamlode_dJointCreateSlider,
      ocamlode_dJointCreateUniversal, ocamlode_dJointCreateHinge2, ocamlode_dJointCreateFixed,
      ocamlode_dJointCreateAMotor, ocamlode_dJointCreateLMotor, ocamlode_dJointCreatePlane2D,
      ocamlode_dJointAttach, ocamlode_dSimpleSpaceCreate, ocamlode_dHashSpaceCreate,
      ocamlode_dGeomSetBody, ocamlode_dCreateSphere, ocamlode_dCreateBox, ocamlode_dCreatePlane,
      ocamlode_dCreateCapsule, ocamlode_dCreateCylinder, ocamlode_dCreateRay,
      ocamlode_dCreateGeomTransform, ocamlode_dGeomTransformSetGeom, ocamlode_dCreateConvex,
      ocamlode_dCreateHeightfield, ocamlode_dCreateTriMesh_native, ocamlode_dQuadTreeSpaceCreate,
      ocamlode_dJointCreateContact, hN, hS, hJ, hB, hB2, hG, hWw, hWj, hWg, hWt, dReal_val,
      Double_val, convexdata_val, dHeightfieldDataID_val, Int_val, Long_val, hIb,
      dVector3_val_h, Wosize_val, hszc, hsze, hvc, hve, hcontact]
  · simp [ocamlode_dJointCreateBall, ocamlode_dJointCreateHinge, ocamlode_dJointCreateSlider,
      ocamlode_dJointCreateUniversal, ocamlode_dJointCreateHinge2, ocamlode_dJointCreateFixed,
      ocamlode_dJointCreateAMotor, ocamlode_dJointCreateLMotor, ocamlode_dJointCreatePlane2D,
      ocamlode_dJointAttach, ocamlode_dSimpleSpaceCreate, ocamlode_dHashSpaceCreate,
      ocamlode_dGeomSetBody, ocamlode_dCreateSphere, ocamlode_dCreateBox, ocamlode_dCreatePlane,
      ocamlode_dCreateCapsule, ocamlode_dCreateCylinder, ocamlode_dCreateRay,
      ocamlode_dCreateGeomTransform, ocamlode_dGeomTransformSetGeom, ocamlode_dCreateConvex,
      ocamlode_dCreateHeightfield, ocamlode_dCreateTriMesh_native, ocamlode_dQuadTreeSpaceCreate,
      ocamlode_dJointCreateContact, hN, hS, hJ, hB, hB2, hG, hWw, hWj, hWg, hWt, dReal_val,
      Double_val, convexdata_val, dHeightfieldDataID_val, Int_val, Long_val, hIb,
      dVector3_val_h, Wosize_val, hszc, hsze, hvc, hve, hcontact]
  · simp [ocamlode_dJointCreateBall, ocamlode_dJointCreateHinge, ocamlode_dJointCreateSlider,
      ocamlode_dJointCreateUniversal, ocamlode_dJointCreateHinge2, ocamlode_dJointCreateFixed,
      ocamlode_dJointCreateAMotor, ocamlode_dJointCreateLMotor, ocamlode_dJointCreatePlane2D,
      ocamlode_dJointAttach, ocamlode_dSimpleSpaceCreate, ocamlode_dHashSpaceCreate,
      ocamlode_dGeomSetBody, ocamlode_dCreateSphere, ocamlode_dCreateBox, ocamlode_dCreatePlane,
      ocamlode_dCreateCapsule, ocamlode_dCreateCylinder, ocamlode_dCreateRay,
      ocamlode_dCreateGeomTransform, ocamlode_dGeomTransformSetGeom, ocamlode_dCreateConvex,
      ocamlode_dCreateHeightfield, ocamlode_dCreateTriMesh_native, ocamlode_dQuadTreeSpaceCreate,
      ocamlode_dJointCreateContact, hN, hS, hJ, hB, hB2, hG, hWw, hWj, hWg, hWt, dReal_val,
      Double_val, convexdata_val, dHeightfieldDataID_val, Int_val, Long_val, hIb,
      dVector3_val_h, Wosize_val, hszc, hsze, hvc, hve, hcontact]

/-- C11 witness: the optional handle is block 0 (address 4096), the second
body block 1 (address 8192), the other handle block 2 (address 12288). -/
theorem C11_option_decoding_witness :
    _Voidptr_val threeHandleState.heap 0 = some 4096
    ∧ _Voidptr_val threeHandleState.heap 1 = some 8192
    ∧ _Voidptr_val threeHandleState.heap 2 = some 12288
    ∧ exactVector.length = 4
    ∧ dContact_val ode_contact_consts Precision.dDOUBLE Arch.LP64 threeHandleState.heap
        sampleContact sevenContact = some { fault := none, out := decodedContact }
    ∧ ocamlode_dCreateSphere Precision.dDOUBLE threeHandleState hNone
        (hvalue.double 0x3FF0000000000000) 16384
      = some (return_handle Val_dGeomID
          (threeHandleState.foreign "dCreateSphere"
            [Arg.ptr 0, Arg.real (to_dReal Precision.dDOUBLE 0x3FF0000000000000)]) 16384)
    ∧ ocamlode_dCreateSphere Precision.dDOUBLE threeHandleState (hSome 0)
        (hvalue.double 0x3FF0000000000000) 16384
      = some (return_handle Val_dGeomID
          (threeHandleState.foreign "dCreateSphere"
            [Arg.ptr 4096, Arg.real (to_dReal Precision.dDOUBLE 0x3FF0000000000000)]) 16384)
    ∧ ocamlode_dJointAttach threeHandleState (hvalue.custom 2) hNone (hSome 1)
      = some (threeHandleState.foreign "dJointAttach"
          [Arg.ptr 12288, Arg.ptr 0, Arg.ptr 8192], Val_unit) :=
  have h := C11_option_decoding ode_contact_consts Precision.dDOUBLE Arch.LP64 threeHandleState
    0 1 2 4096 8192 12288 0x3FF0000000000000 0 0 0 16384 0 exactVector exactVector
    exactVector exactVector ⟨0, 0, 0, 0, 0, [], [], []⟩ sampleContact sevenContact decodedContact
    (by decide) (by decide) (by decide) (by decide) (by decide) (by decide) (by decide)
    (by decide)
  have hsphere := h.2.2.2.2.2.2.2.2.2.2.2.2.2.2.2.2.2.2.2.2.2.2.2.2.2.2.2.2.2.2.2.2.2.2.2.2
  ⟨by decide, by decide, by decide, by decide, by decide, hsphere.1, hsphere.2.1,
   h.2.2.2.2.2.2.2.2.2.2.2.2.2.2.2.2.2.2.2.2.2.2.2.2.2.2.2.1⟩

/-- C12 (the code at the failing input): `ocamlode_dGeomGetSpace` wraps
whatever pointer `dGeomGetSpace` returns.  For a geometry created without
parent the foreign library reports null, and the entry point returns a handle
holding null, not `None`, where `ocamlode_dGeomGetBody` returns `None` for a
null body.  (For a geometry created in the space of handle `sp` it reports
that address, and the new handle holds the same address as `sp`.) -/
theorem C12_get_space_wraps_null :
    (∀ (s : State) (geom : hvalue) (g ret : Nat),
      unwrap_val dGeomID_val s.heap geom = some g →
      ocamlode_dGeomGetSpace s geom ret
        = some (⟨s.heap ++ [Custom.voidptr ret],
                 s.calls ++ [ForeignCall.call "dGeomGetSpace" [Arg.ptr g]]⟩,
                hvalue.custom s.heap.length)
      ∧ (hvalue.custom s.heap.length).is_Val_int 0 = false
      ∧ _Voidptr_val (s.heap ++ [Custom.voidptr ret]) s.heap.length = some ret)
    ∧ ocamlode_dCreateSphere Precision.dDOUBLE ⟨[], []⟩ hNone
        (hvalue.double 0x3FF0000000000000) 4096
      = some (⟨[Custom.voidptr 4096],
               [ForeignCall.call "dCreateSphere" [Arg.ptr 0, Arg.real 0x3FF0000000000000]]⟩,
              hvalue.custom 0)
    ∧ ocamlode_dGeomGetSpace
        ⟨[Custom.voidptr 4096],
         [ForeignCall.call "dCreateSphere" [Arg.ptr 0, Arg.real 0x3FF0000000000000]]⟩
        (hvalue.custom 0) 0
      = some (⟨[Custom.voidptr 4096, Custom.voidptr 0],
               [ForeignCall.call "dCreateSphere" [Arg.ptr 0, Arg.real 0x3FF0000000000000],
                ForeignCall.call "dGeomGetSpace" [Arg.ptr 4096]]⟩,
              hvalue.custom 1)
    ∧ _Voidptr_val [Custom.voidptr 4096, Custom.voidptr 0] 1 = some 0
    ∧ ocamlode_dGeomGetBody ⟨[Custom.voidptr 4096], []⟩ (hvalue.custom 0) 0
      = some (⟨[Custom.voidptr 4096], [ForeignCall.call "dGeomGetBody" [Arg.ptr 4096]]⟩,
              hNone) := by
  refine ⟨?_, rfl, rfl, rfl, rfl⟩
  intro s geom g ret hg
  refine ⟨?_, rfl, ?_⟩
  · simp [ocamlode_dGeomGetSpace, hg, return_handle, State.foreign, Val_dSpaceID, Val_voidptr]
  · exact Voidptr_val_wrap s.heap ret


/-! ## Bytecode forms -/

/-- C16: for each of the twelve entry points with more than 5 arguments and
every argument array `[a0, ..., a(n-1)]` of its arity, the bytecode form
applied to the array gives what the fixed-arity form gives applied to `a0`,
..., `a(n-1)` in that order: the same returned `value` and the same state
(foreign calls made, heap), or the same fault. -/
theorem C16_bytecode_forms (P : Precision) (A : Arch) (s : State)
    (a0 a1 a2 a3 a4 a5 a6 a7 a8 a9 a10 : hvalue) (ret malloc_ret : Nat) (result : dMass) :
    ocamlode_dBodyAddForceAtPos_bc P s [a0, a1, a2, a3, a4, a5, a6]
      = ocamlode_dBodyAddForceAtPos P s a0 a1 a2 a3 a4 a5 a6
    ∧ ocamlode_dBodyAddForceAtRelPos_bc P s [a0, a1, a2, a3, a4, a5, a6]
      = ocamlode_dBodyAddForceAtRelPos P s a0 a1 a2 a3 a4 a5 a6
    ∧ ocamlode_dBodyAddRelForceAtPos_bc P s [a0, a1, a2, a3, a4, a5, a6]
      = ocamlode_dBodyAddRelForceAtPos P s a0 a1 a2 a3 a4 a5 a6
    ∧ ocamlode_dBodyAddRelForceAtRelPos_bc P s [a0, a1, a2, a3, a4, a5, a6]
      = ocamlode_dBodyAddRelForceAtRelPos P s a0 a1 a2 a3 a4 a5 a6
    ∧ ocamlode_dJointSetHingeAnchorDelta_bytecode P s [a0, a1, a2, a3, a4, a5, a6]
      = ocamlode_dJointSetHingeAnchorDelta P s a0 a1 a2 a3 a4 a5 a6
    ∧ ocamlode_dJointSetSliderAxisDelta_bytecode P s [a0, a1, a2, a3, a4, a5, a6]
      = ocamlode_dJointSetSliderAxisDelta P s a0 a1 a2 a3 a4 a5 a6
    ∧ ocamlode_dGeomRaySet_bytecode P s [a0, a1, a2, a3, a4, a5, a6]
      = ocamlode_dGeomRaySet_native P s a0 a1 a2 a3 a4 a5 a6
    ∧ ocamlode_dJointSetAMotorAxis_bc P s [a0, a1, a2, a3, a4, a5]
      = ocamlode_dJointSetAMotorAxis P s a0 a1 a2 a3 a4 a5
    ∧ ocamlode_dJointSetLMotorAxis_bc P s [a0, a1, a2, a3, a4, a5]
      = ocamlode_dJointSetLMotorAxis P s a0 a1 a2 a3 a4 a5
    ∧ ocamlode_dCreateTriMesh_bytecode s [a0, a1, a2, a3, a4, a5] ret
      = ocamlode_dCreateTriMesh_native s a0 a1 a2 a3 a4 a5 ret
    ∧ ocamlode_dGeomHeightfieldDataBuild_bytecode P A s [a0, a1, a2, a3, a4, a5, a6, a7, a8, a9] malloc_ret
      = ocamlode_dGeomHeightfieldDataBuild P A s a0 a1 a2 a3 a4 a5 a6 a7 a8 a9 malloc_ret
    ∧ ocamlode_dMassSetParameters_bc P s [a0, a1, a2, a3, a4, a5, a6, a7, a8, a9, a10] result
      = ocamlode_dMassSetParameters P s a0 a1 a2 a3 a4 a5 a6 a7 a8 a9 a10 result :=
  ⟨rfl, rfl, rfl, rfl, rfl, rfl, rfl, rfl, rfl, rfl, rfl, rfl⟩

/-! ## Collision callback trampoline: properties -/

theorem dSpaceCollide_callback_eq (host : Host) (t : Tramp) (fv : hvalue) (geom : Nat) :
    dSpaceCollide_callback host t fv geom geom = some ⟨some Fault.assertion, t⟩ := by
  simp [dSpaceCollide_callback]

theorem dSpaceCollide_callback_ne (host : Host) (t : Tramp) (c geom1 geom2 : Nat)
    (hne : geom1 ≠ geom2) :
    dSpaceCollide_callback host t (hvalue.closure c) geom1 geom2 =
      some ⟨none,
        { state := (host c (hvalue.custom t.state.heap.length)
                      (hvalue.custom (t.state.heap.length + 1))
                      { t.state with heap := t.state.heap ++ [Custom.voidptr geom1]
                                                         ++ [Custom.voidptr geom2] }).1,
          stderr :=
            match (host c (hvalue.custom t.state.heap.length)
                      (hvalue.custom (t.state.heap.length + 1))
                      { t.state with heap := t.state.heap ++ [Custom.voidptr geom1]
                                                         ++ [Custom.voidptr geom2] }).2 with
            | Except.error msg =>
                t.stderr ++ ["dSpaceCollide: callback raised exception: " ++ msg ++ "\n"]
            | Except.ok _ => t.stderr,
          applied := t.applied ++ [(hvalue.closure c, hvalue.custom t.state.heap.length,
                                    hvalue.custom (t.state.heap.length + 1))] }⟩ := by
  unfold dSpaceCollide_callback
  rw [if_neg hne]
  simp only [caml_callback2_exn, Val_dGeomID, Val_voidptr, Option.map_some', List.length_append,
    List.length_singleton]
  cases h : (host c (hvalue.custom t.state.heap.length)
                      (hvalue.custom (t.state.heap.length + 1))
                      { t.state with heap := t.state.heap ++ [Custom.voidptr geom1]
                                                         ++ [Custom.voidptr geom2] }).2 <;> rfl

theorem traversal_distinct (host : Host) (c : Nat) (pairs : List (Nat × Nat))
    (hpairs : ∀ p ∈ pairs, p.1 ≠ p.2) (t : Tramp) :
    ∃ r, traversal host (hvalue.closure c) t pairs = some r ∧ r.fault = none ∧
      r.out.applied.map (fun e => e.1)
        = t.applied.map (fun e => e.1) ++ List.replicate pairs.length (hvalue.closure c) := by
  induction pairs generalizing t with
  | nil => exact ⟨⟨none, t⟩, rfl, rfl, by simp⟩
  | cons p rest ih =>
      have hne : p.1 ≠ p.2 := hpairs p (List.mem_cons_self _ _)
      have hrest : ∀ q ∈ rest, q.1 ≠ q.2 := fun q hq => hpairs q (List.mem_cons_of_mem _ hq)
      unfold traversal
      rw [dSpaceCollide_callback_ne host t c p.1 p.2 hne]
      simp only [Option.some_bind]
      obtain ⟨r, hr, hf, ha⟩ := ih hrest _
      refine ⟨r, hr, hf, ?_⟩
      rw [ha]
      simp [List.replicate_succ]

/-- C14 (as stated, refuted): called with the same geometry pointer 8192 for
both geometries, `dSpaceCollide_callback` does not return to the traversal:
its assertion `geom1 != geom2` fails. -/
theorem C14_counterexample :
    (dSpaceCollide_callback sampleHost sampleTramp (hvalue.closure 0) 8192 8192).map
      (fun r => r.fault) = some (some Fault.assertion) := by
  decide

/-- C14 (amended): for geometry pointers `geom1 ≠ geom2` and every host
closure, `dSpaceCollide_callback` returns normally to its caller whether the
closure returns a value or raises; an exception raised by the closure is
caught at the trampoline and reported on `stderr` with the line
`dSpaceCollide: callback raised exception: ...`, and nothing is written when
the closure returns a value.  So `ocamlode_dSpaceCollide` and
`ocamlode_dSpaceCollide2` complete for every list of pairs with distinct
members, whatever the closure does.  For `geom1 = geom2` the assertion at the
top of the trampoline stops the process. -/
theorem C14_callback_returns (host : Host) (t : Tramp) (c geom1 geom2 : Nat)
    (hne : geom1 ≠ geom2) (pairs : List (Nat × Nat)) (hpairs : ∀ p ∈ pairs, p.1 ≠ p.2)
    (idv o1 o2 : hvalue) (id g1 g2 : Nat)
    (hid : unwrap_val dSpaceID_val t.state.heap idv = some id)
    (ho1 : unwrap_val dGeomID_val t.state.heap o1 = some g1)
    (ho2 : unwrap_val dGeomID_val t.state.heap o2 = some g2) :
    (∃ r, dSpaceCollide_callback host t (hvalue.closure c) geom1 geom2 = some r
        ∧ r.fault = none
        ∧ (∀ msg, (callback_application host t c geom1 geom2).2 = Except.error msg →
            r.out.stderr
              = t.stderr ++ ["dSpaceCollide: callback raised exception: " ++ msg ++ "\n"])
        ∧ (∀ v, (callback_application host t c geom1 geom2).2 = Except.ok v →
            r.out.stderr = t.stderr))
    ∧ (∃ r, ocamlode_dSpaceCollide host t idv (hvalue.closure c) pairs = some r
        ∧ r.fault = none)
    ∧ (∃ r, ocamlode_dSpaceCollide2 host t o1 o2 (hvalue.closure c) pairs = some r
        ∧ r.fault = none)
    ∧ (∀ fv geom, dSpaceCollide_callback host t fv geom geom
        = some ⟨some Fault.assertion, t⟩) := by
  refine ⟨?_, ?_, ?_, fun fv geom => dSpaceCollide_callback_eq host t fv geom⟩
  · refine ⟨_, dSpaceCollide_callback_ne host t c geom1 geom2 hne, rfl, ?_, ?_⟩
    · intro msg hmsg
      simp only [callback_application, callback_heap, Val_dGeomID, Val_voidptr,
        List.length_append, List.length_singleton] at hmsg
      simp only [hmsg]
    · intro v hv
      simp only [callback_application, callback_heap, Val_dGeomID, Val_voidptr,
        List.length_append, List.length_singleton] at hv
      simp only [hv]
  · obtain ⟨r, hr, hf, _⟩ :=
      traversal_distinct host c pairs hpairs (t.foreign "dSpaceCollide" [Arg.ptr id])
    exact ⟨r, by simp [ocamlode_dSpaceCollide, hid, hr], hf⟩
  · obtain ⟨r, hr, hf, _⟩ :=
      traversal_distinct host c pairs hpairs
        (t.foreign "dSpaceCollide2" [Arg.ptr g1, Arg.ptr g2])
    exact ⟨r, by simp [ocamlode_dSpaceCollide2, ho1, ho2, hr], hf⟩

/-- C14 witness: closure 1 of the sample host raises `Not_found`; the geometry
pointers are 8192 and 12288, the space handle holds 4096. -/
theorem C14_callback_returns_witness :
    (8192 : Nat) ≠ 12288 ∧ (∀ p ∈ [((8192 : Nat), (12288 : Nat))], p.1 ≠ p.2)
    ∧ unwrap_val dSpaceID_val sampleTramp.state.heap (hvalue.custom 0) = some 4096
    ∧ unwrap_val dGeomID_val sampleTramp.state.heap (hvalue.custom 1) = some 8192
    ∧ (callback_application sampleHost sampleTramp 1 8192 12288).2 = Except.error "Not_found"
    ∧ ∃ r, dSpaceCollide_callback sampleHost sampleTramp (hvalue.closure 1) 8192 12288 = some r
        ∧ r.fault = none
        ∧ r.out.stderr = ["dSpaceCollide: callback raised exception: Not_found\n"] :=
  have h := C14_callback_returns sampleHost sampleTramp 1 8192 12288 (by decide)
    [(8192, 12288)] (by decide) (hvalue.custom 0) (hvalue.custom 1) (hvalue.custom 1)
    4096 8192 8192 (by decide) (by decide) (by decide)
  ⟨by decide, by decide, by decide, by decide, rfl,
   h.1.elim fun r hr => ⟨r, hr.1, hr.2.1, hr.2.2.1 "Not_found" rfl⟩⟩

/-- C15 (as stated, refuted): invoked with the closure 0 and the same geometry
pointer 8192 for both geometries, `dSpaceCollide_callback` stops at its
assertion and has applied no closure: the closure is called zero times. -/
theorem C15_counterexample :
    (dSpaceCollide_callback sampleHost sampleTramp (hvalue.closure 0) 8192 8192).map
      (fun r => r.out.applied.length) = some 0 := by
  decide

/-- C15 (amended): each invocation of `dSpaceCollide_callback` with context
closure `f` and geometry pointers `geom1 ≠ geom2` applies `f` exactly once:
one application is added to those made so far, of `f`, to a first argument
that is a handle unwrapping to `geom1` and a second argument that is a handle
unwrapping to `geom2`, in the heap in which `f` runs.  The closure that
`ocamlode_dSpaceCollide` and `ocamlode_dSpaceCollide2` hand to the
trampoline is the one they received: over a traversal of pairs with distinct
members, every application added is of that closure, one per pair.  (For
`geom1 = geom2` the trampoline stops at its assertion before any
application.) -/
theorem C15_callback_applies_once (host : Host) (t : Tramp) (c geom1 geom2 : Nat)
    (hne : geom1 ≠ geom2) (pairs : List (Nat × Nat)) (hpairs : ∀ p ∈ pairs, p.1 ≠ p.2)
    (idv o1 o2 : hvalue) (id g1 g2 : Nat)
    (hid : unwrap_val dSpaceID_val t.state.heap idv = some id)
    (ho1 : unwrap_val dGeomID_val t.state.heap o1 = some g1)
    (ho2 : unwrap_val dGeomID_val t.state.heap o2 = some g2) :
    (∃ r v1 v2, dSpaceCollide_callback host t (hvalue.closure c) geom1 geom2 = some r
        ∧ r.out.applied = t.applied ++ [(hvalue.closure c, hvalue.custom v1, hvalue.custom v2)]
        ∧ dGeomID_val (callback_heap t geom1 geom2) v1 = some geom1
        ∧ dGeomID_val (callback_heap t geom1 geom2) v2 = some geom2
        ∧ r.out.state
            = (host c (hvalue.custom v1) (hvalue.custom v2)
                { t.state with heap := callback_heap t geom1 geom2 }).1)
    ∧ (∃ r, ocamlode_dSpaceCollide host t idv (hvalue.closure c) pairs = some r
        ∧ r.out.applied.map (fun e => e.1)
            = t.applied.map (fun e => e.1) ++ List.replicate pairs.length (hvalue.closure c))
    ∧ (∃ r, ocamlode_dSpaceCollide2 host t o1 o2 (hvalue.closure c) pairs = some r
        ∧ r.out.applied.map (fun e => e.1)
            = t.applied.map (fun e => e.1)
                ++ List.replicate pairs.length (hvalue.closure c)) := by
  refine ⟨?_, ?_, ?_⟩
  · refine ⟨_, t.state.heap.length, t.state.heap.length + 1,
      dSpaceCollide_callback_ne host t c geom1 geom2 hne, rfl, ?_, ?_, rfl⟩
    · exact Voidptr_val_append _ _ geom1 (Custom.voidptr geom2)
        (Voidptr_val_wrap t.state.heap geom1)
    · have h := Voidptr_val_wrap (Val_voidptr t.state.heap geom1).1 geom2
      simpa [Val_voidptr, callback_heap, Val_dGeomID, dGeomID_val, Voidptr_val] using h
  · obtain ⟨r, hr, _, ha⟩ :=
      traversal_distinct host c pairs hpairs (t.foreign "dSpaceCollide" [Arg.ptr id])
    exact ⟨r, by simp [ocamlode_dSpaceCollide, hid, hr], ha⟩
  · obtain ⟨r, hr, _, ha⟩ :=
      traversal_distinct host c pairs hpairs
        (t.foreign "dSpaceCollide2" [Arg.ptr g1, Arg.ptr g2])
    exact ⟨r, by simp [ocamlode_dSpaceCollide2, ho1, ho2, hr], ha⟩

/-- C15 witness: closure 0 of the sample host, the geometry pointers 8192 and
12288, and a traversal that finds two pairs. -/
theorem C15_callback_applies_once_witness :
    (8192 : Nat) ≠ 12288
    ∧ (∀ p ∈ [((8192 : Nat), (12288 : Nat)), (12288, 8192)], p.1 ≠ p.2)
    ∧ unwrap_val dSpaceID_val sampleTramp.state.heap (hvalue.custom 0) = some 4096
    ∧ unwrap_val dGeomID_val sampleTramp.state.heap (hvalue.custom 1) = some 8192
    ∧ ∃ r, ocamlode_dSpaceCollide sampleHost sampleTramp (hvalue.custom 0) (hvalue.closure 0)
          [(8192, 12288), (12288, 8192)] = some r
        ∧ r.out.applied.map (fun e => e.1) = [hvalue.closure 0, hvalue.closure 0] :=
  have h := C15_callback_applies_once sampleHost sampleTramp 0 8192 12288 (by decide)
    [(8192, 12288), (12288, 8192)] (by decide) (hvalue.custom 0) (hvalue.custom 1)
    (hvalue.custom 1) 4096 8192 8192 (by decide) (by decide) (by decide)
  ⟨by decide, by decide, by decide, by decide, h.2.1⟩

/-! ## Conversion of a float to double and back -/

theorem round_shift_exact (q k : Nat) : round_shift (q * 2 ^ k) k = q := by
  unfold round_shift
  have hpos : 0 < 2 ^ k := Nat.pow_pos (by norm_num)
  have h1 : q * 2 ^ k / 2 ^ k = q := Nat.mul_div_cancel q hpos
  have h2 : q * 2 ^ k % 2 ^ k = 0 := Nat.mul_mod_left q (2 ^ k)
  simp only [h1, h2]
  have h3 : ¬ (2 * 0 > 2 ^ k) := by omega
  have h4 : ¬ (2 * 0 = 2 ^ k) := by omega
  rw [if_neg h3, if_neg h4]

theorem float_round_trip_normal (s e f : Nat) (hs : s < 2) (he0 : 0 < e) (he : e < 255)
    (hf : f < 2 ^ 23) :
    double_to_float (float_to_double (s * 2 ^ 31 + e * 2 ^ 23 + f))
      = s * 2 ^ 31 + e * 2 ^ 23 + f := by
  have p23 : (2 : Nat) ^ 23 = 8388608 := by norm_num
  rw [p23] at hf
  have a1 : (s * 2 ^ 31 + e * 2 ^ 23 + f) / 2 ^ 31 % 2 = s := by omega
  have a2 : (s * 2 ^ 31 + e * 2 ^ 23 + f) / 2 ^ 23 % 2 ^ 8 = e := by omega
  have a3 : (s * 2 ^ 31 + e * 2 ^ 23 + f) % 2 ^ 23 = f := by omega
  have c1 : (e = 255) = False := eq_false (by omega)
  have c2 : (e = 0) = False := eq_false (by omega)
  have hfd : float_to_double (s * 2 ^ 31 + e * 2 ^ 23 + f)
      = s * 2 ^ 63 + (e + 896) * 2 ^ 52 + f * 2 ^ 29 := by
    unfold float_to_double
    simp only [a1, a2, a3, c1, c2, if_false]
  rw [hfd]
  have b1 : (s * 2 ^ 63 + (e + 896) * 2 ^ 52 + f * 2 ^ 29) / 2 ^ 63 % 2 = s := by omega
  have b2 : (s * 2 ^ 63 + (e + 896) * 2 ^ 52 + f * 2 ^ 29) / 2 ^ 52 % 2 ^ 11 = e + 896 := by
    omega
  have b3 : (s * 2 ^ 63 + (e + 896) * 2 ^ 52 + f * 2 ^ 29) % 2 ^ 52 = f * 2 ^ 29 := by omega
  have d1 : (e + 896 = 2047) = False := eq_false (by omega)
  have d2 : (e + 896 = 0) = False := eq_false (by omega)
  have d3 : (e + 896 > 896) = True := eq_true (by omega)
  have hm : 2 ^ 52 + f * 2 ^ 29 = (2 ^ 23 + f) * 2 ^ 29 := by ring
  have d4 : ((e + 896 - 897) * 2 ^ 23 + (2 ^ 23 + f) ≥ 0x7F800000) = False :=
    eq_false (by omega)
  unfold double_to_float
  simp only [b1, b2, b3, d1, d2, d3, if_false, if_true, hm, round_shift_exact, d4]
  omega

theorem top_bit_count (f t : Nat) (h1 : 2 ^ t ≤ f) (h2 : f < 2 ^ (t + 1)) (n : Nat) :
    ((List.range n).filter (fun i => 2 ^ i ≤ f)).length = min n (t + 1) := by
  induction n with
  | zero => simp
  | succ n ih =>
      rw [List.range_succ, List.filter_append, List.length_append, ih]
      by_cases hn : n ≤ t
      · have hle : 2 ^ n ≤ f := le_trans (Nat.pow_le_pow_right (by norm_num) hn) h1
        simp only [List.filter_cons, List.filter_nil, hle, decide_True, if_true,
          List.length_singleton]
        omega
      · have hlt : ¬ (2 ^ n ≤ f) := by
          have : 2 ^ (t + 1) ≤ 2 ^ n := Nat.pow_le_pow_right (by norm_num) (by omega)
          omega
        simp only [List.filter_cons, List.filter_nil, hlt, decide_False, List.length_nil]
        simp only [Bool.false_eq_true, if_false, List.length_nil]
        omega

theorem top_bit_eq (f t : Nat) (ht : t < 23) (h1 : 2 ^ t ≤ f) (h2 : f < 2 ^ (t + 1)) :
    top_bit f = t := by
  unfold top_bit
  rw [top_bit_count f t h1 h2 23]
  omega

theorem float_round_trip_denormal (s f : Nat) (hs : s < 2) (hf0 : 0 < f) (hf : f < 2 ^ 23) :
    double_to_float (float_to_double (s * 2 ^ 31 + f)) = s * 2 ^ 31 + f := by
  have hne : f ≠ 0 := by omega
  have ht : Nat.log 2 f < 23 := Nat.log_lt_of_lt_pow hne hf
  have h1 : 2 ^ Nat.log 2 f ≤ f := Nat.pow_log_le_self 2 hne
  have h2 : f < 2 ^ (Nat.log 2 f + 1) := Nat.lt_pow_succ_log_self (by norm_num) f
  have htb := top_bit_eq f (Nat.log 2 f) ht h1 h2
  generalize Nat.log 2 f = t at ht h1 h2 htb
  have p23 : (2 : Nat) ^ 23 = 8388608 := by norm_num
  rw [p23] at hf
  have a1 : (s * 2 ^ 31 + f) / 2 ^ 31 % 2 = s := by omega
  have a2 : (s * 2 ^ 31 + f) / 2 ^ 23 % 2 ^ 8 = 0 := by omega
  have a3 : (s * 2 ^ 31 + f) % 2 ^ 23 = f := by omega
  have c1 : ((0 : Nat) = 255) = False := eq_false (by omega)
  have c2 : (f = 0) = False := eq_false (by omega)
  have hfd : float_to_double (s * 2 ^ 31 + f)
      = s * 2 ^ 63 + (t + 874) * 2 ^ 52 + (f - 2 ^ t) * 2 ^ (52 - t) := by
    unfold float_to_double
    simp only [a1, a2, a3, c1, c2, if_false, if_true, htb]
  rw [hfd]
  have hsplit : 2 ^ t * 2 ^ (52 - t) = 2 ^ 52 := by
    rw [← pow_add]
    congr 1
    omega
  have hg : (f - 2 ^ t) * 2 ^ (52 - t) < 2 ^ 52 := by
    rw [← hsplit]
    apply Nat.mul_lt_mul_of_pos_right
    · rw [pow_succ] at h2
      omega
    · exact Nat.pow_pos (by norm_num)
  have hm : 2 ^ 52 + (f - 2 ^ t) * 2 ^ (52 - t) = f * 2 ^ (52 - t) := by
    rw [← hsplit, ← Nat.add_mul]
    congr 1
    omega
  generalize (f - 2 ^ t) * 2 ^ (52 - t) = g at hg hm
  have b1 : (s * 2 ^ 63 + (t + 874) * 2 ^ 52 + g) / 2 ^ 63 % 2 = s := by omega
  have b2 : (s * 2 ^ 63 + (t + 874) * 2 ^ 52 + g) / 2 ^ 52 % 2 ^ 11 = t + 874 := by omega
  have b3 : (s * 2 ^ 63 + (t + 874) * 2 ^ 52 + g) % 2 ^ 52 = g := by omega
  have d1 : (t + 874 = 2047) = False := eq_false (by omega)
  have d2 : (t + 874 = 0) = False := eq_false (by omega)
  have d3 : (t + 874 > 896) = False := eq_false (by omega)
  have d5 : 926 - (t + 874) = 52 - t := by omega
  unfold double_to_float
  simp only [b1, b2, b3, d1, d2, d3, if_false, hm, d5, round_shift_exact]

set_option exponentiation.threshold 1100 in
theorem float_round_trip_zero (s : Nat) (hs : s < 2) :
    double_to_float (float_to_double (s * 2 ^ 31)) = s * 2 ^ 31 := by
  interval_cases s <;> decide

theorem float_round_trip_inf (s : Nat) (hs : s < 2) :
    double_to_float (float_to_double (s * 2 ^ 31 + 255 * 2 ^ 23))
      = s * 2 ^ 31 + 255 * 2 ^ 23 := by
  interval_cases s <;> decide

theorem quiet_bit_or (f : Nat) (hq : f / 2 ^ 22 % 2 = 1) : f ||| 0x400000 = f := by
  apply Nat.eq_of_testBit_eq
  intro i
  rw [Nat.testBit_or]
  have e : (0x400000 : Nat) = 2 ^ 22 := by norm_num
  rw [e, Nat.testBit_two_pow]
  by_cases hi : 22 = i
  · subst hi
    simp [Nat.testBit, Nat.shiftRight_eq_div_pow] at *
    omega
  · simp [hi]

theorem float_round_trip_quiet (s f : Nat) (hs : s < 2) (hf : f < 2 ^ 23)
    (hq : f / 2 ^ 22 % 2 = 1) :
    double_to_float (float_to_double (s * 2 ^ 31 + 255 * 2 ^ 23 + f))
      = s * 2 ^ 31 + 255 * 2 ^ 23 + f := by
  have hor := quiet_bit_or f hq
  have p23 : (2 : Nat) ^ 23 = 8388608 := by norm_num
  rw [p23] at hf
  have hf0 : f ≠ 0 := by
    intro h
    subst h
    simp at hq
  have a1 : (s * 2 ^ 31 + 255 * 2 ^ 23 + f) / 2 ^ 31 % 2 = s := by omega
  have a2 : (s * 2 ^ 31 + 255 * 2 ^ 23 + f) / 2 ^ 23 % 2 ^ 8 = 255 := by omega
  have a3 : (s * 2 ^ 31 + 255 * 2 ^ 23 + f) % 2 ^ 23 = f := by omega
  have hfd : float_to_double (s * 2 ^ 31 + 255 * 2 ^ 23 + f)
      = s * 2 ^ 63 + 0x7FF * 2 ^ 52 + f * 2 ^ 29 := by
    unfold float_to_double
    simp only [a1, a2, a3, if_true, hf0, if_false, hor]
  rw [hfd]
  have b1 : (s * 2 ^ 63 + 0x7FF * 2 ^ 52 + f * 2 ^ 29) / 2 ^ 63 % 2 = s := by omega
  have b2 : (s * 2 ^ 63 + 0x7FF * 2 ^ 52 + f * 2 ^ 29) / 2 ^ 52 % 2 ^ 11 = 2047 := by omega
  have b3 : (s * 2 ^ 63 + 0x7FF * 2 ^ 52 + f * 2 ^ 29) % 2 ^ 52 = f * 2 ^ 29 := by omega
  have b4 : f * 2 ^ 29 ≠ 0 := by omega
  have b5 : f * 2 ^ 29 / 2 ^ 29 = f := by omega
  unfold double_to_float
  simp only [b1, b2, b3, b4, b5, if_true, if_false, hor]
  omega

/-- The conversion of a `float` to `double` and back gives the same bits, for
every `float` that is not a signalling NaN. -/
theorem float_round_trip (x : Nat) (hx : x < 2 ^ 32)
    (hnan : x / 2 ^ 23 % 2 ^ 8 = 255 → x % 2 ^ 23 = 0 ∨ x % 2 ^ 23 / 2 ^ 22 % 2 = 1) :
    double_to_float (float_to_double x) = x := by
  have p32 : (2 : Nat) ^ 32 = 4294967296 := by norm_num
  rw [p32] at hx
  have hdec : x = (x / 2 ^ 31) * 2 ^ 31 + (x / 2 ^ 23 % 2 ^ 8) * 2 ^ 23 + x % 2 ^ 23 := by
    omega
  have hs : x / 2 ^ 31 < 2 := by omega
  have he : x / 2 ^ 23 % 2 ^ 8 < 256 := by omega
  have hf : x % 2 ^ 23 < 2 ^ 23 := Nat.mod_lt _ (Nat.pow_pos (by norm_num))
  generalize x / 2 ^ 31 = s at hdec hs
  generalize x / 2 ^ 23 % 2 ^ 8 = e at hdec he hnan
  generalize x % 2 ^ 23 = f at hdec hf hnan
  subst hdec
  by_cases he255 : e = 255
  · subst he255
    rcases hnan rfl with hf0 | hq
    · subst hf0
      simpa using float_round_trip_inf s hs
    · exact float_round_trip_quiet s f hs hf hq
  · by_cases he0 : e = 0
    · subst he0
      by_cases hf0 : f = 0
      · subst hf0
        simpa using float_round_trip_zero s hs
      · have := float_round_trip_denormal s f hs (by omega) hf
        simpa using this
    · exact float_round_trip_normal s e f hs (by omega) (by omega) hf

theorem to_dReal_of_dReal (P : Precision) (x : Nat)
    (h : P = Precision.dSINGLE → x < 2 ^ 32
      ∧ (x / 2 ^ 23 % 2 ^ 8 = 255 → x % 2 ^ 23 = 0 ∨ x % 2 ^ 23 / 2 ^ 22 % 2 = 1)) :
    to_dReal P (of_dReal P x) = x := by
  cases P with
  | dSINGLE => exact float_round_trip x (h rfl).1 (h rfl).2
  | dDOUBLE => rfl

/-! ## Joint types -/

theorem dReal_number_spec (P : Precision) (x : Nat) (h : dReal_number P x = true) :
    P = Precision.dSINGLE → x < 2 ^ 32
      ∧ (x / 2 ^ 23 % 2 ^ 8 = 255 → x % 2 ^ 23 = 0 ∨ x % 2 ^ 23 / 2 ^ 22 % 2 = 1) := by
  intro hP
  subst hP
  simp only [dReal_number, Bool.and_eq_true, decide_eq_true_eq, Bool.or_eq_true, bne_iff_ne,
    ne_eq, beq_iff_eq] at h
  refine ⟨h.1, fun he => ?_⟩
  rcases h.2 with (h2 | h2) | h2
  · exact absurd he h2
  · exact Or.inl h2
  · right
    omega

theorem copy_dContactGeom_ok (P : Precision) (heap : Heap) (c : dContactGeom)
    (h1 : c.g1 ≠ 0) (h2 : c.g2 ≠ 0) :
    copy_dContactGeom P heap c
      = Except.ok (heap ++ [Custom.voidptr c.g1, Custom.voidptr c.g2],
          hvalue.block 0 [hvalue.floatarray (copy_dReal_array P c.pos 4),
            hvalue.floatarray (copy_dReal_array P c.normal 4),
            hvalue.double (of_dReal P c.depth), hvalue.custom heap.length,
            hvalue.custom (heap.length + 1)]) := by
  unfold copy_dContactGeom
  simp only [h1, h2, if_false, Val_dGeomID, Val_voidptr, List.append_assoc, List.singleton_append,
    List.length_append, List.length_singleton]

theorem two_handles_unwrap (heap : Heap) (p q : Nat) :
    _Voidptr_val (heap ++ [Custom.voidptr p, Custom.voidptr q]) heap.length = some p
    ∧ _Voidptr_val (heap ++ [Custom.voidptr p, Custom.voidptr q]) (heap.length + 1)
        = some q := by
  have e : heap ++ [Custom.voidptr p, Custom.voidptr q]
      = (heap ++ [Custom.voidptr p]) ++ [Custom.voidptr q] := by simp
  rw [e]
  constructor
  · exact Voidptr_val_append _ _ p (Custom.voidptr q) (Voidptr_val_wrap heap p)
  · have h := Voidptr_val_wrap (heap ++ [Custom.voidptr p]) q
    simpa [Val_voidptr] using h

theorem dVector3_val_h_eq (P : Precision) (A : Arch) (vv v : List Nat)
    (hvv : vv.length = 4) (hv : v.length = 4) :
    dVector3_val_h P A (hvalue.floatarray vv) v
      = some { fault := none, out := vv.map (to_dReal P) } := by
  have hsz := (size_check_iff A vv).mpr hvv
  simp only [dVector3_val_h, Wosize_val, hsz, not_true_eq_false, and_false, if_false]
  rw [dVector3_val_eq P A vv v hvv hv]

theorem map_round_trip (P : Precision) (a : List Nat)
    (h : ∀ x ∈ a, dReal_number P x = true) :
    (a.map (of_dReal P)).map (to_dReal P) = a := by
  rw [List.map_map]
  conv_rhs => rw [← List.map_id a]
  apply List.map_congr_left
  intro x hx
  exact to_dReal_of_dReal P x (dReal_number_spec P x (h x hx))

set_option exponentiation.threshold 1100 in
/-- C22 (as stated, refuted): in the single-precision build, the contact
geometry with position (1, 2, 3), normal (0, 0, 1), the geometries 4096 and
8192, both not null, and for depth the signalling NaN `0x7F800001` is encoded
by `copy_dContactGeom` without fault, and `dContactGeom_val` decodes the
record without fault into a struct whose depth is the quiet NaN
`0x7FC00001`: the struct is not equal to `c` in `depth`. -/
theorem C22_counterexample :
    signallingContactGeom.g1 ≠ 0 ∧ signallingContactGeom.g2 ≠ 0
    ∧ signallingContactGeom.depth = 0x7F800001
    ∧ (match copy_dContactGeom Precision.dSINGLE twoGeomHeap signallingContactGeom with
        | Except.ok (heap1, v) =>
            dContactGeom_val Precision.dSINGLE Arch.LP64 heap1 v sevenContact.geom
        | Except.error _ => none)
      = some { fault := none, out := { signallingContactGeom with depth := 0x7FC00001 } } := by
  decide

/-- C22 (amended): for every C contact-geometry struct `c` whose `g1` and `g2`
are not null (with `pos` and `normal` of 4 elements, no element and no depth
a signalling NaN in the single-precision build), `copy_dContactGeom` builds a
fresh record of five fields, `pos`, `normal`, `depth`, `g1`, `g2` in that
order with two new handles, and `dContactGeom_val` applied to that record
returns without fault a struct equal to `c` in `pos`, `normal`, `depth`, `g1`
and `g2`, whatever the struct held before; and `copy_dContactGeom` faults at
its assertion for every struct whose `g1` or `g2` is null. -/
theorem C22_contact_geom_round_trip (P : Precision) (A : Arch) (heap : Heap)
    (c geom : dContactGeom)
    (hpos : c.pos.length = 4) (hnormal : c.normal.length = 4)
    (hg1 : c.g1 ≠ 0) (hg2 : c.g2 ≠ 0)
    (hnum : ∀ x ∈ c.depth :: (c.pos ++ c.normal), dReal_number P x = true)
    (hgp : geom.pos.length = 4) (hgn : geom.normal.length = 4) :
    (∃ heap1 posv normalv depthv g1v g2v,
      copy_dContactGeom P heap c
        = Except.ok (heap1, hvalue.block 0 [hvalue.floatarray posv, hvalue.floatarray normalv,
            hvalue.double depthv, hvalue.custom g1v, hvalue.custom g2v])
      ∧ heap1 = heap ++ [Custom.voidptr c.g1, Custom.voidptr c.g2]
      ∧ dContactGeom_val P A heap1
          (hvalue.block 0 [hvalue.floatarray posv, hvalue.floatarray normalv,
            hvalue.double depthv, hvalue.custom g1v, hvalue.custom g2v]) geom
        = some { fault := none, out := c })
    ∧ (∀ c0 : dContactGeom, c0.g1 = 0 ∨ c0.g2 = 0 →
        ∃ heap1, copy_dContactGeom P heap c0 = Except.error (Fault.assertion, heap1)) := by
  constructor
  · refine ⟨_, _, _, _, _, _, copy_dContactGeom_ok P heap c hg1 hg2, rfl, ?_⟩
    have hp : copy_dReal_array P c.pos 4 = c.pos.map (of_dReal P) :=
      copy_dReal_array_eq P c.pos 4 hpos
    have hn : copy_dReal_array P c.normal 4 = c.normal.map (of_dReal P) :=
      copy_dReal_array_eq P c.normal 4 hnormal
    have hpl : (c.pos.map (of_dReal P)).length = 4 := by simp [hpos]
    have hnl : (c.normal.map (of_dReal P)).length = 4 := by simp [hnormal]
    have hrp := map_round_trip P c.pos (fun x hx => hnum x (by simp [hx]))
    have hrn := map_round_trip P c.normal (fun x hx => hnum x (by simp [hx]))
    have hrd : to_dReal P (of_dReal P c.depth) = c.depth :=
      to_dReal_of_dReal P c.depth (dReal_number_spec P c.depth (hnum c.depth (by simp)))
    have hu1 : dGeomID_val (heap ++ [Custom.voidptr c.g1, Custom.voidptr c.g2]) heap.length
        = some c.g1 := (two_handles_unwrap heap c.g1 c.g2).1
    have hu2 : dGeomID_val (heap ++ [Custom.voidptr c.g1, Custom.voidptr c.g2])
        (heap.length + 1) = some c.g2 := (two_handles_unwrap heap c.g1 c.g2).2
    rw [hp, hn]
    simp only [dContactGeom_val, Wosize_val, Field, List.length_cons, List.length_nil,
      Option.some_bind, not_true_eq_false, and_false, if_false, List.getElem?_cons_zero,
      List.getElem?_cons_succ, dVector3_val_h_eq P A _ _ hpl hgp,
      dVector3_val_h_eq P A _ _ hnl hgn, Option.isSome_none, Bool.false_eq_true,
      Double_val, unwrap_val, hu1, hu2, Option.map_some', hrp, hrn, hrd]
  · intro c0 h0
    unfold copy_dContactGeom
    by_cases h1 : c0.g1 = 0
    · exact ⟨heap, by simp [h1]⟩
    · have h2 : c0.g2 = 0 := by
        rcases h0 with h | h
        · exact absurd h h1
        · exact h
      exact ⟨(Val_dGeomID heap c0.g1).1, by simp only [h1, h2, if_false, if_true]⟩

/-- C22 witness: a contact in single precision between the geometries at 4096
and 8192, decoded into a struct that held 7 in every member. -/
theorem C22_contact_geom_round_trip_witness :
    singleContactGeom.pos.length = 4 ∧ singleContactGeom.normal.length = 4
    ∧ singleContactGeom.g1 ≠ 0 ∧ singleContactGeom.g2 ≠ 0
    ∧ (∀ x ∈ singleContactGeom.depth :: (singleContactGeom.pos ++ singleContactGeom.normal),
        dReal_number Precision.dSINGLE x = true)
    ∧ sevenContact.geom.pos.length = 4 ∧ sevenContact.geom.normal.length = 4
    ∧ ∃ heap1 posv normalv depthv g1v g2v,
      copy_dContactGeom Precision.dSINGLE twoGeomHeap singleContactGeom
        = Except.ok (heap1, hvalue.block 0 [hvalue.floatarray posv, hvalue.floatarray normalv,
            hvalue.double depthv, hvalue.custom g1v, hvalue.custom g2v])
      ∧ heap1 = twoGeomHeap ++ [Custom.voidptr singleContactGeom.g1,
          Custom.voidptr singleContactGeom.g2]
      ∧ dContactGeom_val Precision.dSINGLE Arch.LP64 heap1
          (hvalue.block 0 [hvalue.floatarray posv, hvalue.floatarray normalv,
            hvalue.double depthv, hvalue.custom g1v, hvalue.custom g2v]) sevenContact.geom
        = some { fault := none, out := singleContactGeom } :=
  ⟨by decide, by decide, by decide, by decide, by decide, by decide, by decide,
   (C22_contact_geom_round_trip Precision.dSINGLE Arch.LP64 twoGeomHeap singleContactGeom
      sevenContact.geom (by decide) (by decide) (by decide) (by decide) (by decide)
      (by decide) (by decide)).1⟩

/-! ## Rotation matrices and quaternions: no element count check -/

set_option exponentiation.threshold 1100 in
/-- C23 (as stated, refuted): a rotation matrix of thirteen floats and a
quaternion of five floats are decoded without fault, in the copying build:
`ocamlode_dBodySetRotation` passes the first twelve elements, converted, to
`dBodySetRotation`, `ocamlode_dBodySetQuaternion` passes the first four to
`dBodySetQuaternion`, `ocamlode_dMass_set_I` stores the first twelve in the mass
descriptor, and the macro `dMatrix3_val` gives the first twelve. -/
theorem C23_counterexample :
    thirteenMatrix.length = 13 ∧ fiveQuaternion.length = 5
    ∧ (ocamlode_dBodySetRotation Precision.dSINGLE unread threeHandleState (hvalue.custom 0)
        (hvalue.floatarray thirteenMatrix)).map (fun r => r.1)
      = some (threeHandleState.foreign "dBodySetRotation"
          [Arg.ptr 4096,
           Arg.reals [0x3F800000, 0, 0, 0, 0, 0x3F800000, 0, 0, 0, 0, 0x3F800000, 0]])
    ∧ (ocamlode_dBodySetQuaternion Precision.dSINGLE unread threeHandleState (hvalue.custom 0)
        (hvalue.floatarray fiveQuaternion)).map (fun r => r.1)
      = some (threeHandleState.foreign "dBodySetQuaternion"
          [Arg.ptr 4096, Arg.reals [0x3F800000, 0, 0, 0]])
    ∧ (ocamlode_dMass_set_I Precision.dSINGLE unread ⟨[Custom.dMass zero_dMass], []⟩
        (hvalue.custom 0) (hvalue.floatarray thirteenMatrix)).map (fun r => r.1)
      = some ⟨[Custom.dMass { zero_dMass with
                  I := [0x3F800000, 0, 0, 0, 0, 0x3F800000, 0, 0, 0, 0, 0x3F800000, 0] }], []⟩
    ∧ dMatrix3_val Precision.dSINGLE unread thirteenMatrix (List.replicate 12 0)
      = [0x3F800000, 0, 0, 0, 0, 0x3F800000, 0, 0, 0, 0, 0x3F800000, 0] := by
  decide

/-- C23 (amended): decoding a rotation matrix (`dMatrix3_val`,
`ocamlode_dBodySetRotation`, `ocamlode_dMass_set_I`) or a quaternion
(`ocamlode_dBodySetQuaternion`) makes no check of the element count of the host
array and does not fault on it, whatever the count.  In the copying build
the elements 0..11 (0..3) are read at the array, converted to `dReal` and
passed on or stored; in the shared build the array is passed as it is, or the
12 elements read at it are copied.  The elements read are the first 12 (4)
of the array followed by the memory after it (`past`): the first elements
of an array of at least 12 (4), and for a shorter array all its elements and
then what lies after it in memory. -/
theorem C23_no_count_check (P : Precision) (past : Nat → Nat) (s : State) (idv : hvalue)
    (id v : Nat) (mp : dMass) (a : List Nat)
    (hid : unwrap_val dBodyID_val s.heap idv = some id)
    (hv : s.heap[v]? = some (Custom.dMass mp)) (hI : mp.I.length = 12) :
    ocamlode_dBodySetRotation P past s idv (hvalue.floatarray a)
      = some (s.foreign "dBodySetRotation"
          [Arg.ptr id,
           if MEM_CPY P then
             Arg.reals (((a ++ (List.range (12 - a.length)).map past).take 12).map (to_dReal P))
           else Arg.doubles a],
          Val_unit)
    ∧ ocamlode_dBodySetQuaternion P past s idv (hvalue.floatarray a)
      = some (s.foreign "dBodySetQuaternion"
          [Arg.ptr id,
           if MEM_CPY P then
             Arg.reals (((a ++ (List.range (4 - a.length)).map past).take 4).map (to_dReal P))
           else Arg.doubles a],
          Val_unit)
    ∧ ocamlode_dMass_set_I P past s (hvalue.custom v) (hvalue.floatarray a)
      = some ({ s with heap := (s.heap.set v
                  (Custom.dMass { mp with
                    I := ((a ++ (List.range (12 - a.length)).map past).take 12).map
                      (to_dReal P) })) }, Val_unit)
    ∧ dMatrix3_val P past a mp.I
      = ((a ++ (List.range (12 - a.length)).map past).take 12).map (to_dReal P)
    ∧ (12 ≤ a.length →
        (a ++ (List.range (12 - a.length)).map past).take 12 = a.take 12)
    ∧ (4 ≤ a.length →
        (a ++ (List.range (4 - a.length)).map past).take 4 = a.take 4) := by
  have hrot : ocamlode_dBodySetRotation P past s idv (hvalue.floatarray a)
        = some (s.foreign "dBodySetRotation"
            [Arg.ptr id,
             if MEM_CPY P then
               Arg.reals (((a ++ (List.range (12 - a.length)).map past).take 12).map
                 (to_dReal P))
             else Arg.doubles a], Val_unit) := by
    simp only [ocamlode_dBodySetRotation, hid, Option.some_bind]
    rw [fill_read (to_dReal P) past a _ 12 (List.length_replicate 12 0)]
    cases P <;> rfl
  have hquat : ocamlode_dBodySetQuaternion P past s idv (hvalue.floatarray a)
        = some (s.foreign "dBodySetQuaternion"
            [Arg.ptr id,
             if MEM_CPY P then
               Arg.reals (((a ++ (List.range (4 - a.length)).map past).take 4).map
                 (to_dReal P))
             else Arg.doubles a], Val_unit) := by
    simp only [ocamlode_dBodySetQuaternion, hid, Option.some_bind]
    rw [fill_read (to_dReal P) past a _ 4 (List.length_replicate 4 0)]
    cases P <;> rfl
  have hset : ocamlode_dMass_set_I P past s (hvalue.custom v) (hvalue.floatarray a)
        = some ({ s with heap := (s.heap.set v
                    (Custom.dMass { mp with I := dMatrix3_val P past a mp.I })) },
            Val_unit) := by
    simp only [ocamlode_dMass_set_I, dMass_data_custom_val, dMass_deref, hv, Option.some_bind,
      dMatrix3_val]
  refine ⟨hrot, hquat, ?_, dMatrix3_val_read P past a mp.I hI, ?_, ?_⟩
  · rw [hset, dMatrix3_val_read P past a mp.I hI]
  · intro h
    have h0 : 12 - a.length = 0 := by omega
    simp [h0]
  · intro h
    have h0 : 4 - a.length = 0 := by omega
    simp [h0]

set_option exponentiation.threshold 1100 in
/-- C23 witness: the body handle around 4096 and a rotation matrix of eleven
floats followed in memory by the float 5.0, in the copying build: element 11
of the matrix that is stored is the 5.0 after the array. -/
theorem C23_no_count_check_witness :
    unwrap_val dBodyID_val [Custom.voidptr 4096, Custom.dMass zero_dMass] (hvalue.custom 0)
      = some 4096
    ∧ [Custom.voidptr 4096, Custom.dMass zero_dMass][1]? = some (Custom.dMass zero_dMass)
    ∧ zero_dMass.I.length = 12
    ∧ elevenMatrix.length = 11
    ∧ dMatrix3_val Precision.dSINGLE fiveAfter elevenMatrix zero_dMass.I
      = ((elevenMatrix ++ (List.range (12 - elevenMatrix.length)).map fiveAfter).take 12).map
          (to_dReal Precision.dSINGLE)
    ∧ ((elevenMatrix ++ (List.range (12 - elevenMatrix.length)).map fiveAfter).take 12).map
          (to_dReal Precision.dSINGLE)
      = [0x3F800000, 0, 0, 0, 0, 0x3F800000, 0, 0, 0, 0, 0x3F800000, 0x40A00000] :=
  ⟨by decide, by decide, by decide, by decide,
   (C23_no_count_check Precision.dSINGLE fiveAfter
      ⟨[Custom.voidptr 4096, Custom.dMass zero_dMass], []⟩
      (hvalue.custom 0) 4096 1 zero_dMass elevenMatrix (by decide)
      (by decide) (by decide)).2.2.2.1, by decide⟩

/-! ## Frame of `destroy_voidptr` -/

theorem destroy_voidptr_other_block (heap : Heap) (h k : value) (hne : k ≠ h) :
    (destroy_voidptr heap h)[k]? = heap[k]? := by
  unfold destroy_voidptr
  split
  · rw [List.getElem?_set_ne (Ne.symm hne)]
  · rfl

/-- C24: `destroy_voidptr (h)` changes only the custom block of `h`: every
other block of the heap is as before, so every other wrapper unwraps to what
it did, the same address as that of `h` included.  A wrapper made by wrapping
the pointer of `h` again, as `ocamlode_dBodyGetWorld` does for a world and
`ocamlode_dSpaceGetGeom` for a geometry, still unwraps to the address after
`ocamlode_dWorldDestroy (h)` or `ocamlode_dGeomDestroy (h)`, while `h` itself
unwraps to null. -/
theorem C24_destroy_frame (s : State) (h k : value) (p : Nat) (b sp i : hvalue)
    (pb psp : Nat) (n : Int)
    (hne : k ≠ h) (hp : _Voidptr_val s.heap h = some p)
    (hb : unwrap_val dBodyID_val s.heap b = some pb)
    (hsp : unwrap_val dSpaceID_val s.heap sp = some psp)
    (hi : Int_val i = some n) :
    (destroy_voidptr s.heap h)[k]? = s.heap[k]?
    ∧ _Voidptr_val (destroy_voidptr s.heap h) k = _Voidptr_val s.heap k
    ∧ (_Voidptr_val s.heap k = some p → _Voidptr_val (destroy_voidptr s.heap h) k = some p)
    ∧ _Voidptr_val (destroy_voidptr (Val_voidptr s.heap p).1 h) (Val_voidptr s.heap p).2
        = some p
    ∧ (∃ s1 w2 s2, ocamlode_dBodyGetWorld s b p = some (s1, hvalue.custom w2)
        ∧ w2 ≠ h
        ∧ ocamlode_dWorldDestroy s1 h = some s2
        ∧ dWorldID_val s2.heap w2 = some p
        ∧ dWorldID_val s2.heap h = some 0)
    ∧ (∃ s1 g2 s2, ocamlode_dSpaceGetGeom s sp i p = some (s1, hvalue.custom g2)
        ∧ g2 ≠ h
        ∧ ocamlode_dGeomDestroy s1 h = some s2
        ∧ dGeomID_val s2.heap g2 = some p
        ∧ dGeomID_val s2.heap h = some 0) := by
  have hlt : h < s.heap.length := lt_of_Voidptr_val s.heap h p hp
  have hnew : s.heap.length ≠ h := Nat.ne_of_gt hlt
  have hwrap : _Voidptr_val (destroy_voidptr (s.heap ++ [Custom.voidptr p]) h) s.heap.length
      = some p := by
    rw [Voidptr_val_destroy_other _ _ _ (Ne.symm hnew)]
    exact Voidptr_val_wrap s.heap p
  have hold : _Voidptr_val (s.heap ++ [Custom.voidptr p]) h = some p :=
    Voidptr_val_append s.heap h p _ hp
  have hlt2 : h < (s.heap ++ [Custom.voidptr p]).length := by
    rw [List.length_append]
    exact Nat.lt_of_lt_of_le hlt (Nat.le_add_right _ _)
  have hzero : _Voidptr_val (destroy_voidptr (s.heap ++ [Custom.voidptr p]) h) h = some 0 :=
    Voidptr_val_destroy_same _ h hlt2
  refine ⟨destroy_voidptr_other_block s.heap h k hne,
    Voidptr_val_destroy_other s.heap k h (Ne.symm hne), ?_, hwrap, ?_, ?_⟩
  · intro hk
    rw [Voidptr_val_destroy_other s.heap k h (Ne.symm hne)]
    exact hk
  · refine ⟨⟨s.heap ++ [Custom.voidptr p],
        s.calls ++ [ForeignCall.call "dBodyGetWorld" [Arg.ptr pb]]⟩, s.heap.length,
      ⟨destroy_voidptr (s.heap ++ [Custom.voidptr p]) h,
        s.calls ++ [ForeignCall.call "dBodyGetWorld" [Arg.ptr pb]]
          ++ [ForeignCall.dWorldDestroy p]⟩, ?_, hnew, ?_, ?_, ?_⟩
    · simp only [ocamlode_dBodyGetWorld, hb, Option.map_some', return_handle, Val_dWorldID,
        Val_voidptr, State.foreign]
    · simp only [ocamlode_dWorldDestroy, dWorldID_val, Voidptr_val, hold, Option.map_some']
    · exact hwrap
    · exact hzero
  · refine ⟨⟨s.heap ++ [Custom.voidptr p],
        s.calls ++ [ForeignCall.call "dSpaceGetGeom" [Arg.ptr psp, Arg.int n]]⟩, s.heap.length,
      ⟨destroy_voidptr (s.heap ++ [Custom.voidptr p]) h,
        s.calls ++ [ForeignCall.call "dSpaceGetGeom" [Arg.ptr psp, Arg.int n]]
          ++ [ForeignCall.dGeomDestroy p]⟩, ?_, hnew, ?_, ?_, ?_⟩
    · simp only [ocamlode_dSpaceGetGeom, hsp, hi, Option.some_bind, Option.map_some',
        return_handle, Val_dGeomID, Val_voidptr, State.foreign]
    · simp only [ocamlode_dGeomDestroy, dGeomID_val, Voidptr_val, hold, Option.map_some']
    · exact hwrap
    · exact hzero

/-- C24 witness: a world handle around 4096 (block 0), a second wrapper of
4096 (block 2), and a body handle (block 1) also used as the space. -/
theorem C24_destroy_frame_witness :
    (2 : value) ≠ 0
    ∧ _Voidptr_val [Custom.voidptr 4096, Custom.voidptr 8192, Custom.voidptr 4096] 0
        = some 4096
    ∧ _Voidptr_val [Custom.voidptr 4096, Custom.voidptr 8192, Custom.voidptr 4096] 2
        = some 4096
    ∧ _Voidptr_val
        (destroy_voidptr [Custom.voidptr 4096, Custom.voidptr 8192, Custom.voidptr 4096] 0) 2
        = some 4096 :=
  have h := C24_destroy_frame
    ⟨[Custom.voidptr 4096, Custom.voidptr 8192, Custom.voidptr 4096], []⟩ 0 2 4096
    (hvalue.custom 1) (hvalue.custom 1) (hvalue.long 0) 8192 8192 0
    (by decide) (by decide) (by decide) (by decide) (by decide)
  ⟨by decide, by decide, by decide, h.2.2.1 (by decide)⟩

/-! ## Trimesh data build -/

theorem floatarray_count (A : Arch) (l : List Nat) :
    Wosize_val_floatarray A l / Double_wosize A = l.length := by
  unfold Wosize_val_floatarray
  exact Nat.mul_div_cancel _ (Double_wosize_pos A)

theorem int_count (A : Arch) (l : List Nat) (h : l.length < 2 ^ 31) :
    wrap_signed 32 ((Wosize_val_floatarray A l / Double_wosize A : Nat) : Int) = (l.length : Int) := by
  have hlen : Wosize_val_floatarray A l / Double_wosize A = l.length := by
    unfold Wosize_val_floatarray
    exact Nat.mul_div_cancel _ (Double_wosize_pos A)
  rw [hlen]
  apply wrap_signed_32_id
  · omega
  · have e : (2 : Int) ^ 31 = 2147483648 := by norm_num
    have e2 : (2 : Nat) ^ 31 = 2147483648 := by norm_num
    omega

theorem int_length (n : Nat) (h : n < 2 ^ 31) : wrap_signed 32 (n : Int) = (n : Int) := by
  apply wrap_signed_32_id
  · omega
  · have e : (2 : Int) ^ 31 = 2147483648 := by norm_num
    have e2 : (2 : Nat) ^ 31 = 2147483648 := by norm_num
    omega

theorem tmod_three (n : Nat) : Int.tmod (n : Int) 3 ≠ 0 ↔ n % 3 ≠ 0 := by
  have h : Int.tmod (n : Int) 3 = ((n % 3 : Nat) : Int) := rfl
  rw [h]
  omega

theorem tdiv_three (n : Nat) : Int.tdiv (n : Int) 3 = ((n / 3 : Nat) : Int) := rfl

theorem malloc_size (A : Arch) (n : Nat) (h : n * 4 < 2 ^ A.bits) :
    (((n : Int) % 2 ^ A.bits) * 4 % 2 ^ A.bits).toNat = n * 4 := by
  cases A <;> simp only [Arch.bits] at h ⊢ <;> omega

theorem set_data2_wrapper (heap : Heap) (idv : value) (id b after : Nat)
    (hw : (∃ old, heap[idv]? = some (Custom.voidptr2 id old))
      ∨ heap[idv]? = some (Custom.voidptr id)) :
    ∃ d2, set_data2 heap idv b after = some d2 := by
  rcases hw with ⟨old, h⟩ | h
  · simp only [set_data2, h]
    exact ⟨_, rfl⟩
  · simp only [set_data2, h]
    exact ⟨_, rfl⟩

theorem wrapper_val (heap : Heap) (idv : value) (id : Nat)
    (hw : (∃ old, heap[idv]? = some (Custom.voidptr2 id old))
      ∨ heap[idv]? = some (Custom.voidptr id)) :
    dTriMeshDataID_val heap idv = some id := by
  rcases hw with ⟨old, h⟩ | h
  · simp [dTriMeshDataID_val, Voidptr_val, _Voidptr_val, h, Custom.data]
  · simp [dTriMeshDataID_val, Voidptr_val, _Voidptr_val, h, Custom.data]

theorem build_huge (vertices : List Nat) (h : vertices.length = 2147483649) :
    ocamlode_dGeomTriMeshDataBuildDouble Arch.LP64 trimeshState 0 vertices [] 8192 0
      = some { fault := some (Fault.invalid_argument "vertices array length not multiple of 3"),
               out := trimeshState } := by
  have hw : wrap_signed 32
      ((Wosize_val_floatarray Arch.LP64 vertices / Double_wosize Arch.LP64 : Nat) : Int)
        = -2147483647 := by
    rw [floatarray_count, h]
    decide
  have hid : dTriMeshDataID_val trimeshState.heap 0 = some 4096 := by decide
  have hm : Int.tmod (-2147483647) 3 ≠ 0 := by decide
  unfold ocamlode_dGeomTriMeshDataBuildDouble
  rw [hid, Option.some_bind, hw, if_pos hm]

/-- C25 (as stated, refuted): with one vertex (three floats) and one triangle
(three indices), both counts multiples of 3, `ocamlode_dGeomTriMeshDataBuildDouble`
raises `Failure "Out of memory"` when `malloc` returns `NULL` and calls no
foreign build function; on a 64-bit host the index `2 ^ 31` reaches the
foreign function as `-2 ^ 31`; and for a vertex array of `2 ^ 31 + 1` floats,
a multiple of 3, `Invalid_argument` is raised: the count is held in an `int`,
where it is `-(2 ^ 31 - 1)`, no multiple of 3. -/
theorem C25_counterexample :
    ocamlode_dGeomTriMeshDataBuildDouble Arch.LP64 trimeshState 0 [0, 0, 0] [0, 1, 2] 0 0
      = some { fault := some (Fault.failwith "Out of memory"),
               out := { trimeshState with calls := [ForeignCall.malloc 12 0] } }
    ∧ (ocamlode_dGeomTriMeshDataBuildDouble Arch.LP64 trimeshState 0 [0, 0, 0]
          [0, 1, 2147483648] 8192 0).map (fun r => r.out.calls)
      = some [ForeignCall.malloc 12 8192,
          ForeignCall.dGeomTriMeshDataBuildDouble 4096 [0, 0, 0] 24 1 8192
            [0, 1, -2147483648] 3 12]
    ∧ hugeVertices.length = 2 ^ 31 + 1 ∧ hugeVertices.length % 3 = 0
    ∧ ocamlode_dGeomTriMeshDataBuildDouble Arch.LP64 trimeshState 0 hugeVertices [] 8192 0
      = some { fault := some (Fault.invalid_argument "vertices array length not multiple of 3"),
               out := trimeshState } := by
  have hlen : hugeVertices.length = 2147483649 := List.length_replicate _ _
  exact ⟨by decide, by decide, hlen, by rw [hlen], build_huge hugeVertices hlen⟩

/-- C25 (amended): for a trimesh-data wrapper and host arrays of fewer than
`2 ^ 31` elements (counts that the variables `int lenv, leni` hold), the index
array fitting in the address space, `ocamlode_dGeomTriMeshDataBuildDouble`
raises `Invalid_argument` if and only if the number of vertex floats is not a
multiple of 3 or the number of indices is not a multiple of 3, and when it
raises it has made no call (neither `malloc` nor the foreign build function)
and left the wrapper as it was.  Otherwise it allocates the index buffer; if
`malloc` returns `NULL` it raises `Failure "Out of memory"` without calling the
foreign build function or touching the wrapper; if not, it returns normally
after passing vertex count = floats / 3, index count = number of indices and
an index buffer whose i-th element is the i-th host index converted to `int`
(the index itself when it is in the range of `int`), and then applying
`set_data2` to the wrapper and the buffer. -/
theorem C25_trimesh_build (A : Arch) (s : State) (idv : value) (id : Nat)
    (vertices : List Nat) (indicesv : List Int) (malloc_ret after : Nat)
    (hw : (∃ old, s.heap[idv]? = some (Custom.voidptr2 id old))
      ∨ s.heap[idv]? = some (Custom.voidptr id))
    (hV : vertices.length < 2 ^ 31) (hI : indicesv.length < 2 ^ 31)
    (hfit : indicesv.length * 4 < 2 ^ A.bits) :
    ∃ r d2, ocamlode_dGeomTriMeshDataBuildDouble A s idv vertices indicesv malloc_ret after
          = some r
      ∧ set_data2 s.heap idv malloc_ret after = some d2
      ∧ ((∃ msg, r.fault = some (Fault.invalid_argument msg))
          ↔ (vertices.length % 3 ≠ 0 ∨ indicesv.length % 3 ≠ 0))
      ∧ ((∃ msg, r.fault = some (Fault.invalid_argument msg)) → r.out = s)
      ∧ (vertices.length % 3 = 0 → indicesv.length % 3 = 0 → malloc_ret = 0 →
          r.fault = some (Fault.failwith "Out of memory")
          ∧ r.out = { s with calls := s.calls ++ [ForeignCall.malloc (indicesv.length * 4) 0] })
      ∧ (vertices.length % 3 = 0 → indicesv.length % 3 = 0 → malloc_ret ≠ 0 →
          r.fault = none
          ∧ r.out.calls = s.calls
              ++ [ForeignCall.malloc (indicesv.length * 4) malloc_ret,
                  ForeignCall.dGeomTriMeshDataBuildDouble id vertices 24
                    ((vertices.length / 3 : Nat) : Int) malloc_ret
                    (indicesv.map (wrap_signed 32)) ((indicesv.length : Nat) : Int) 12]
              ++ d2.events idv
          ∧ r.out.heap = d2.heap
          ∧ ((∀ x ∈ indicesv, -2 ^ 31 ≤ x ∧ x < 2 ^ 31) →
              indicesv.map (wrap_signed 32) = indicesv)) := by
  have hwrap : (∀ x ∈ indicesv, -2 ^ 31 ≤ x ∧ x < 2 ^ 31) →
      indicesv.map (wrap_signed 32) = indicesv := by
    intro h
    conv_rhs => rw [← List.map_id indicesv]
    apply List.map_congr_left
    intro x hx
    exact wrap_signed_32_id x (h x hx).1 (h x hx).2
  obtain ⟨d2, hd2⟩ := set_data2_wrapper s.heap idv id malloc_ret after hw
  have hid := wrapper_val s.heap idv id hw
  have hsize := malloc_size A indicesv.length hfit
  have hlt : ¬ (indicesv.length * 4 < indicesv.length * 4) := Nat.lt_irrefl _
  simp only [ocamlode_dGeomTriMeshDataBuildDouble, hid, Option.some_bind, int_count A vertices hV,
    int_length indicesv.length hI, tmod_three, tdiv_three, hsize, Int.toNat_ofNat,
    List.take_length, hd2, Option.map_some', hlt, if_false]
  by_cases h1 : vertices.length % 3 ≠ 0
  · rw [if_pos h1]
    exact ⟨_, d2, rfl, rfl, by simp [h1], by simp, by simp [h1], by simp [h1]⟩
  · rw [if_neg h1]
    by_cases h2 : indicesv.length % 3 ≠ 0
    · rw [if_pos h2]
      exact ⟨_, d2, rfl, rfl, by simp [h2], by simp, by simp [h2], by simp [h2]⟩
    · rw [if_neg h2]
      simp only [not_not] at h1 h2
      by_cases h3 : malloc_ret = 0
      · rw [if_pos h3]
        exact ⟨_, d2, rfl, rfl, by simp [h1, h2], by simp, by simp [h3], by simp [h3]⟩
      · rw [if_neg h3]
        refine ⟨_, d2, rfl, rfl, by simp [h1, h2], by simp, by simp [h3], ?_⟩
        intro _ _ _
        refine ⟨?_, ?_, ?_, hwrap⟩ <;> simp

/-- C25 witness: the trimesh-data wrapper around 4096, one vertex and one
triangle, and `malloc` returning 8192. -/
theorem C25_trimesh_build_witness :
    ((∃ old, trimeshState.heap[(0 : Nat)]? = some (Custom.voidptr2 4096 old))
      ∨ trimeshState.heap[(0 : Nat)]? = some (Custom.voidptr 4096))
    ∧ ([0, 0, 0] : List Nat).length < 2 ^ 31 ∧ ([0, 1, 2] : List Int).length < 2 ^ 31
    ∧ ([0, 1, 2] : List Int).length * 4 < 2 ^ Arch.LP64.bits
    ∧ ∃ r d2, ocamlode_dGeomTriMeshDataBuildDouble Arch.LP64 trimeshState 0 [0, 0, 0] [0, 1, 2]
          8192 0 = some r
        ∧ set_data2 trimeshState.heap 0 8192 0 = some d2
        ∧ ((∃ msg, r.fault = some (Fault.invalid_argument msg))
            ↔ (([0, 0, 0] : List Nat).length % 3 ≠ 0 ∨ ([0, 1, 2] : List Int).length % 3 ≠ 0)) :=
  ⟨Or.inl ⟨0, by decide⟩, by decide, by decide, by decide,
   (C25_trimesh_build Arch.LP64 trimeshState 0 4096 [0, 0, 0] [0, 1, 2] 8192 0
      (Or.inl ⟨0, by decide⟩) (by decide) (by decide) (by decide)).elim fun r hr =>
        hr.elim fun d2 h => ⟨r, d2, h.1, h.2.1, h.2.2.1⟩⟩

/-! ## Convex data -/

theorem mapM_some_of_forall {α β : Type} (f : α → Option β) (g : α → β) (l : List α)
    (h : ∀ x ∈ l, f x = some (g x)) : l.mapM f = some (l.map g) := by
  induction l with
  | nil => rfl
  | cons a l ih =>
      have ha : f a = some (g a) := h a (List.mem_cons_self _ _)
      have hl := ih (fun x hx => h x (List.mem_cons_of_mem _ hx))
      rw [List.mapM_cons, ha, hl]
      rfl

theorem range_map_getD (ls : List Int) :
    (List.range ls.length).map (fun i => ls.getD i 0) = ls := by
  apply List.ext_getElem?
  intro j
  by_cases hj : j < ls.length
  · simp [hj, List.getElem?_range hj, List.getD_eq_getElem?_getD]
  · have h2 : (List.range ls.length)[j]? = none := List.getElem?_eq_none (by simp; omega)
    have h3 : ls[j]? = none := List.getElem?_eq_none (by omega)
    rw [List.getElem?_map, h2, h3]
    rfl

theorem polygons_mapM (ls : List Int) :
    (List.range ls.length).mapM (fun i => ((ls.map hvalue.long)[i]?).bind Long_val)
      = some ls := by
  rw [mapM_some_of_forall _ (fun i => ls.getD i 0) (List.range ls.length), range_map_getD]
  intro i hi
  have hlt : i < ls.length := List.mem_range.mp hi
  simp [hlt, Long_val, List.getD_eq_getElem?_getD]

theorem convex_count_wraps (planes : List Nat) (h : planes.length = 4294967296) :
    ocamlode_get_dConvexDataID Precision.dDOUBLE Arch.LP64 ⟨[], []⟩
        (hvalue.floatarray planes) (hvalue.floatarray []) (hvalue.block 0 [])
        4096 8192 12288
      = some (Except.ok
          (⟨[], [ForeignCall.malloc 0 4096, ForeignCall.malloc 0 8192,
                 ForeignCall.malloc 0 12288]⟩,
           hvalue.convexdata
            { planecount := 0, pointcount := 0,
              planes := 4096, points := 8192, polygons := 12288,
              planes_data := [], points_data := [], polygons_data := [] })) := by
  have hw : Wosize_val_floatarray Arch.LP64 planes / Double_wosize Arch.LP64 % 2 ^ 32 = 0 := by
    rw [floatarray_count, h]
    norm_num
  have hw0 : Wosize_val_floatarray Arch.LP64 ([] : List Nat) / Double_wosize Arch.LP64 % 2 ^ 32
      = 0 := by
    decide
  simp only [ocamlode_get_dConvexDataID, hw, hw0]
  rfl

/-- C26 (as stated, refuted): on LP64, for a plane array of `2 ^ 32` floats, no
point and no polygon entry, `ocamlode_get_dConvexDataID` raises nothing,
though the polygon array length 0 differs from `5 * floor (2 ^ 32 / 4)`, which
is `2 ^ 30` in `unsigned int`: the count of plane floats is itself taken in
`unsigned int` and is 0.  The descriptor holds planecount 0, not `2 ^ 30`,
and a plane buffer of size 0 with no plane float in it. -/
theorem C26_counterexample :
    hugePlanes.length = 2 ^ 32
    ∧ ([] : List hvalue).length ≠ 5 * (hugePlanes.length / 4) % 2 ^ 32
    ∧ ocamlode_get_dConvexDataID Precision.dDOUBLE Arch.LP64 ⟨[], []⟩
        (hvalue.floatarray hugePlanes) (hvalue.floatarray []) (hvalue.block 0 [])
        4096 8192 12288
      = some (Except.ok
          (⟨[], [ForeignCall.malloc 0 4096, ForeignCall.malloc 0 8192,
                 ForeignCall.malloc 0 12288]⟩,
           hvalue.convexdata
            { planecount := 0, pointcount := 0,
              planes := 4096, points := 8192, polygons := 12288,
              planes_data := [], points_data := [], polygons_data := [] })) := by
  have hlen : hugePlanes.length = 4294967296 := List.length_replicate _ _
  exact ⟨hlen, by rw [hlen]; decide, convex_count_wraps hugePlanes hlen⟩

/-- C26 (amended): for plane, point and polygon arrays of fewer than `2 ^ 31`
elements each, so that `unsigned int` holds the counts and the loop counter
`int i` reaches them, `ocamlode_get_dConvexDataID` raises `Invalid_argument`
if and only if the polygon array length differs from `5 * floor (P / 4)`,
where `P` is the number of plane floats; and when it succeeds, which it does
when the lengths agree and the three allocations succeed, the descriptor
holds planecount `floor (P / 4)`, pointcount `floor (Q / 3)` for `Q` point
floats, the three buffers returned by `malloc`, and in them element by
element all `P` plane floats and all `Q` point floats, each converted to
`dReal`, and all polygon entries, each converted to `unsigned int`. -/
theorem C26_convex_data (P : Precision) (A : Arch) (s : State) (planes points : List Nat)
    (t : Nat) (ls : List Int) (m_planes m_points m_polygons : Nat)
    (hP : planes.length < 2 ^ 31) (hQ : points.length < 2 ^ 31) (hN : ls.length < 2 ^ 31) :
    ∃ r, ocamlode_get_dConvexDataID P A s (hvalue.floatarray planes) (hvalue.floatarray points)
          (hvalue.block t (ls.map hvalue.long)) m_planes m_points m_polygons = some r
      ∧ ((∃ msg st, r = Except.error (Fault.invalid_argument msg, st))
          ↔ ls.length ≠ 5 * (planes.length / 4))
      ∧ (∀ st v, r = Except.ok (st, v) →
          v = hvalue.convexdata
            { planecount := planes.length / 4,
              pointcount := points.length / 3,
              planes := m_planes, points := m_points, polygons := m_polygons,
              planes_data := planes.map (to_dReal P),
              points_data := points.map (to_dReal P),
              polygons_data := ls.map fun l => (l % 2 ^ 32).toNat })
      ∧ (ls.length = 5 * (planes.length / 4) → m_planes ≠ 0 → m_points ≠ 0 →
          m_polygons ≠ 0 → ∃ st v, r = Except.ok (st, v))
      ∧ (P = Precision.dDOUBLE → planes.map (to_dReal P) = planes
          ∧ points.map (to_dReal P) = points)
      ∧ ((∀ l ∈ ls, 0 ≤ l ∧ l < 2 ^ 32) →
          (ls.map fun l => (l % 2 ^ 32).toNat) = ls.map Int.toNat) := by
  have hlenP : Wosize_val_floatarray A planes / Double_wosize A = planes.length := by
    unfold Wosize_val_floatarray
    exact Nat.mul_div_cancel _ (Double_wosize_pos A)
  have hlenQ : Wosize_val_floatarray A points / Double_wosize A = points.length := by
    unfold Wosize_val_floatarray
    exact Nat.mul_div_cancel _ (Double_wosize_pos A)
  have e31 : (2 : Nat) ^ 31 = 2147483648 := by norm_num
  have e32 : (2 : Nat) ^ 32 = 4294967296 := by norm_num
  have hmP : planes.length % 2 ^ 32 = planes.length := Nat.mod_eq_of_lt (by omega)
  have hmQ : points.length % 2 ^ 32 = points.length := Nat.mod_eq_of_lt (by omega)
  have hmN : ls.length % 2 ^ 32 = ls.length := Nat.mod_eq_of_lt (by omega)
  have hmul : planes.length / 4 * 5 % 2 ^ 32 = 5 * (planes.length / 4) := by
    rw [Nat.mod_eq_of_lt (by omega)]
    omega
  have hcount : ¬ (2 ^ 31 ≤ planes.length ∨ 2 ^ 31 ≤ points.length ∨ 2 ^ 31 ≤ ls.length) := by
    omega
  have hpl : (List.range planes.length).map
      (fun i => to_dReal P (Double_field unread planes i)) = planes.map (to_dReal P) := by
    rw [range_map_take (to_dReal P) unread planes planes.length (le_refl _), List.take_length]
  have hpt : (List.range points.length).map
      (fun i => to_dReal P (Double_field unread points i)) = points.map (to_dReal P) := by
    rw [range_map_take (to_dReal P) unread points points.length (le_refl _), List.take_length]
  have hdouble : P = Precision.dDOUBLE → planes.map (to_dReal P) = planes
      ∧ points.map (to_dReal P) = points := by
    intro h
    subst h
    have hid : to_dReal Precision.dDOUBLE = id := by
      funext x
      rfl
    rw [hid, List.map_id, List.map_id]
    exact ⟨rfl, rfl⟩
  have hpos : (∀ l ∈ ls, 0 ≤ l ∧ l < 2 ^ 32) →
      (ls.map fun l => (l % 2 ^ 32).toNat) = ls.map Int.toNat := by
    intro h
    apply List.map_congr_left
    intro l hl
    rw [Int.emod_eq_of_lt (h l hl).1 (h l hl).2]
  simp only [ocamlode_get_dConvexDataID, hlenP, hlenQ, hmP, hmQ, hmN, hmul, List.length_map,
    polygons_mapM ls, Option.map_some', hpl, hpt, hcount, if_false]
  by_cases hc : ls.length ≠ 5 * (planes.length / 4)
  · rw [if_pos hc]
    have hc1 : ¬ (ls.length = 5 * (planes.length / 4)) := hc
    exact ⟨_, rfl, by simp [hc1], by simp, by simp [hc1], hdouble, hpos⟩
  · rw [if_neg hc]
    have hc1 : ls.length = 5 * (planes.length / 4) := not_not.mp hc
    by_cases h1 : m_planes = 0
    · rw [if_pos h1]
      exact ⟨_, rfl, by simp [← hc1], by simp, by simp [h1], hdouble, hpos⟩
    · rw [if_neg h1]
      by_cases h2 : m_points = 0
      · rw [if_pos h2]
        exact ⟨_, rfl, by simp [← hc1], by simp, by simp [h2], hdouble, hpos⟩
      · rw [if_neg h2]
        by_cases h3 : m_polygons = 0
        · rw [if_pos h3]
          exact ⟨_, rfl, by simp [← hc1], by simp, by simp [h3], hdouble, hpos⟩
        · rw [if_neg h3]
          refine ⟨_, rfl, by simp [← hc1], ?_, by simp, hdouble, hpos⟩
          intro st v hv
          simp only [Except.ok.injEq, Prod.mk.injEq] at hv
          exact hv.2.symm

/-- C26 witness: one plane (four floats), one point (three floats) and five
polygon entries; the three buffers are at 4096, 8192 and 12288. -/
theorem C26_convex_data_witness :
    ([0, 0, 0x3FF0000000000000, 0] : List Nat).length < 2 ^ 31
    ∧ ([0, 0, 0] : List Nat).length < 2 ^ 31
    ∧ ([3, 0, 1, 2, 0] : List Int).length < 2 ^ 31
    ∧ ∃ r, ocamlode_get_dConvexDataID Precision.dDOUBLE Arch.LP64 ⟨[], []⟩
          (hvalue.floatarray [0, 0, 0x3FF0000000000000, 0]) (hvalue.floatarray [0, 0, 0])
          (hvalue.block 0 (([3, 0, 1, 2, 0] : List Int).map hvalue.long)) 4096 8192 12288
          = some r
        ∧ ∃ st v, r = Except.ok (st, v) :=
  ⟨by decide, by decide, by decide,
   (C26_convex_data Precision.dDOUBLE Arch.LP64 ⟨[], []⟩ [0, 0, 0x3FF0000000000000, 0]
      [0, 0, 0] 0 [3, 0, 1, 2, 0] 4096 8192 12288 (by decide) (by decide)
      (by decide)).elim fun r hr =>
        ⟨r, hr.1, hr.2.2.2.1 (by decide) (by decide) (by decide) (by decide)⟩⟩

/-! ## Release of convex data -/

/-- C27 (the code at the failing input): `ocamlode_free_dConvexDataID (v)` frees
the buffers of the descriptor and leaves the three pointers stored in `v` as
they were, so that a later `finalize_convexdata (v)`, or a second explicit
free, passes the same three pointers to `free` again; shown for every
descriptor, and for the descriptor with buffers at 4096, 8192 and 12288,
each of which is freed twice. -/
theorem C27_free_keeps_pointers :
    (∀ (s : State) (d : dConvexDataID),
      ∃ s1 s2, ocamlode_free_dConvexDataID s (hvalue.convexdata d) = some (s1, Val_unit, d)
        ∧ finalize_convexdata s1 (hvalue.convexdata d) = some (s2, d)
        ∧ s1.calls = s.calls
            ++ ((if d.planes ≠ 0 then [ForeignCall.free d.planes] else [])
              ++ (if d.points ≠ 0 then [ForeignCall.free d.points] else [])
              ++ (if d.polygons ≠ 0 then [ForeignCall.free d.polygons] else []))
        ∧ s2.calls = s1.calls
            ++ ((if d.planes ≠ 0 then [ForeignCall.free d.planes] else [])
              ++ (if d.points ≠ 0 then [ForeignCall.free d.points] else [])
              ++ (if d.polygons ≠ 0 then [ForeignCall.free d.polygons] else [])))
    ∧ (ocamlode_free_dConvexDataID ⟨[], []⟩ (hvalue.convexdata sampleConvex)).map
        (fun r => (r.1, r.2.2))
      = some (⟨[], [ForeignCall.free 4096, ForeignCall.free 8192, ForeignCall.free 12288]⟩,
          sampleConvex)
    ∧ finalize_convexdata
        ⟨[], [ForeignCall.free 4096, ForeignCall.free 8192, ForeignCall.free 12288]⟩
        (hvalue.convexdata sampleConvex)
      = some (⟨[], [ForeignCall.free 4096, ForeignCall.free 8192, ForeignCall.free 12288,
                   ForeignCall.free 4096, ForeignCall.free 8192, ForeignCall.free 12288]⟩,
          sampleConvex) := by
  refine ⟨?_, by decide, by decide⟩
  intro s d
  refine ⟨_, _, rfl, rfl, ?_, ?_⟩
  · by_cases h1 : d.planes = 0 <;> by_cases h2 : d.points = 0 <;>
      by_cases h3 : d.polygons = 0 <;> simp [State.free, h1, h2, h3]
  · by_cases h1 : d.planes = 0 <;> by_cases h2 : d.points = 0 <;>
      by_cases h3 : d.polygons = 0 <;> simp [State.free, h1, h2, h3]

/-! ## Mass descriptors -/

theorem dMass_deref_set (heap : Heap) (v : Nat) (mp m1 : dMass)
    (hv : heap[v]? = some (Custom.dMass mp)) :
    dMass_deref (heap.set v (Custom.dMass m1)) (hvalue.custom v) = some m1 := by
  have hlt : v < heap.length := by
    by_contra hge
    rw [List.getElem?_eq_none (Nat.le_of_not_lt hge)] at hv
    simp at hv
  simp [dMass_deref, List.getElem?_set_self hlt]

set_option exponentiation.threshold 1100 in
/-- C28 (the code at the failing input): the first-generation
`ocamlode_dMassCreate` copies its local `dMass` without having assigned it, so
the new descriptor holds whatever the stack held: with 1.0 in every word
there, `ocamlode_dMass_mass` returns 1.0 for the fresh descriptor, not 0.  The
second generation clears the local first, and its fresh descriptor has mass
0, centre 0 and inertia 0.  In both precisions `ocamlode_dMass_set_mass` leaves
what `ocamlode_dMass_c` and `ocamlode_dMass_I` return as it was, and
`ocamlode_dMass_mass` then returns `x` converted to `dReal` and back: `x` itself
in the double-precision build, but for 0.1 in the single-precision build
the float nearest to 0.1. -/
theorem C28_gen1_create_uninitialised :
    (∀ (P : Precision) (s : State) (stack : dMass),
      Gen1.ocamlode_dMassCreate s stack
        = (⟨s.heap ++ [Custom.dMass stack], s.calls⟩, hvalue.custom s.heap.length)
      ∧ ocamlode_dMass_mass P (Gen1.ocamlode_dMassCreate s stack).1
          (Gen1.ocamlode_dMassCreate s stack).2
        = some (hvalue.double (of_dReal P stack.mass)))
    ∧ ocamlode_dMass_mass Precision.dDOUBLE (Gen1.ocamlode_dMassCreate ⟨[], []⟩ onesMass).1
        (Gen1.ocamlode_dMassCreate ⟨[], []⟩ onesMass).2
      = some (hvalue.double 0x3FF0000000000000)
    ∧ (∀ (P : Precision) (s : State),
      ocamlode_dMass_mass P (ocamlode_dMassCreate s).1 (ocamlode_dMassCreate s).2
        = some (hvalue.double 0)
      ∧ ocamlode_dMass_c P (ocamlode_dMassCreate s).1 (ocamlode_dMassCreate s).2
        = some (hvalue.floatarray [0, 0, 0, 0])
      ∧ ocamlode_dMass_I P (ocamlode_dMassCreate s).1 (ocamlode_dMassCreate s).2
        = some (hvalue.floatarray [0, 0, 0, 0, 0, 0, 0, 0, 0, 0, 0, 0]))
    ∧ (∀ (P : Precision) (s : State) (v : Nat) (mp : dMass) (x : Nat),
      s.heap[v]? = some (Custom.dMass mp) →
      ∃ s1, ocamlode_dMass_set_mass P s (hvalue.custom v) (hvalue.double x)
          = some (s1, Val_unit)
        ∧ ocamlode_dMass_mass P s1 (hvalue.custom v)
          = some (hvalue.double (of_dReal P (to_dReal P x)))
        ∧ ocamlode_dMass_c P s1 (hvalue.custom v) = ocamlode_dMass_c P s (hvalue.custom v)
        ∧ ocamlode_dMass_I P s1 (hvalue.custom v) = ocamlode_dMass_I P s (hvalue.custom v))
    ∧ (∀ x : Nat, of_dReal Precision.dDOUBLE (to_dReal Precision.dDOUBLE x) = x)
    ∧ of_dReal Precision.dSINGLE (to_dReal Precision.dSINGLE 0x3FB999999999999A)
      = 0x3FB99999A0000000 := by
  refine ⟨?_, rfl, ?_, ?_, fun x => rfl, by decide⟩
  · intro P s stack
    refine ⟨rfl, ?_⟩
    simp [ocamlode_dMass_mass, Gen1.ocamlode_dMassCreate, copy_dMass, dMass_deref]
  · intro P s
    have hd : dMass_deref (ocamlode_dMassCreate s).1.heap (ocamlode_dMassCreate s).2
        = some zero_dMass := by
      simp [ocamlode_dMassCreate, copy_dMass, dMass_deref]
    simp only [ocamlode_dMass_mass, ocamlode_dMass_c, ocamlode_dMass_I, hd, Option.map_some']
    cases P <;> exact ⟨rfl, rfl, rfl⟩
  · intro P s v mp x hv
    have hd : dMass_deref s.heap (hvalue.custom v) = some mp := by
      simp [dMass_deref, hv]
    refine ⟨⟨s.heap.set v (Custom.dMass { mp with mass := to_dReal P x }), s.calls⟩, ?_, ?_, ?_,
      ?_⟩
    · simp [ocamlode_dMass_set_mass, dMass_data_custom_val, hv, hd, Double_val]
    · simp only [ocamlode_dMass_mass, dMass_deref_set s.heap v mp _ hv, Option.map_some']
    · simp only [ocamlode_dMass_c, dMass_deref_set s.heap v mp _ hv, hd, Option.map_some']
    · simp only [ocamlode_dMass_I, dMass_deref_set s.heap v mp _ hv, hd, Option.map_some']

/-! ## Comparison and hash of handles -/

/-- C29 (the code at the failing input): on LP64 the two handles holding
`0x7f0100000000` and `0x7f0000000000` compare as 0 and have different
hashes; the two handles holding `0x7f0080000000` and `0x7f0000000000` compare
as `-2^31` in both orders, and so do, on ILP32, handles whose addresses are
`2^31` apart.  (On ILP32 a comparison that is 0 does mean equal hashes.) -/
theorem C29_compare_hash_disagree :
    compare_voidptrs Arch.LP64 farHeap 0 1 = some 0
    ∧ hash_voidptr Arch.LP64 farHeap 0 = some 0x7f0100000000
    ∧ hash_voidptr Arch.LP64 farHeap 1 = some 0x7f0000000000
    ∧ compare_voidptrs Arch.LP64 halfHeap 0 1 = some (-2147483648)
    ∧ compare_voidptrs Arch.LP64 halfHeap 1 0 = some (-2147483648)
    ∧ compare_voidptrs Arch.ILP32 [Custom.voidptr 0x80001000, Custom.voidptr 0x1000] 0 1
        = some (-2147483648)
    ∧ compare_voidptrs Arch.ILP32 [Custom.voidptr 0x80001000, Custom.voidptr 0x1000] 1 0
        = some (-2147483648)
    ∧ (∀ (heap : Heap) (v1 v2 : value) (d1 d2 : Nat),
        _Voidptr_val heap v1 = some d1 → _Voidptr_val heap v2 = some d2 →
        d1 < 2 ^ 32 → d2 < 2 ^ 32 →
        compare_voidptrs Arch.ILP32 heap v1 v2 = some 0 →
        hash_voidptr Arch.ILP32 heap v1 = hash_voidptr Arch.ILP32 heap v2) := by
  refine ⟨by decide, by decide, by decide, by decide, by decide, by decide, by decide, ?_⟩
  intro heap v1 v2 d1 d2 h1 h2 b1 b2 hc
  have hd : d1 = d2 := (compare_voidptrs_ILP32 heap v1 v2 d1 d2 h1 h2 b1 b2).mp hc
  simp only [hash_voidptr, h1, h2, hd]

/-! ## Collision of two geometries -/

theorem Gen1_copy_dContactGeom_ok (heap : Heap) (c : dContactGeom)
    (h1 : c.g1 ≠ 0) (h2 : c.g2 ≠ 0) :
    Gen1.copy_dContactGeom heap c
      = Except.ok (heap ++ [Custom.voidptr c.g1, Custom.voidptr c.g2],
          hvalue.block 0 [hvalue.floatarray (Gen1.copy_float_array c.pos 4),
            hvalue.floatarray (Gen1.copy_float_array c.normal 4),
            hvalue.double (of_dReal Precision.dDOUBLE c.depth), hvalue.custom heap.length,
            hvalue.custom (heap.length + 1)]) := by
  unfold Gen1.copy_dContactGeom
  simp only [h1, h2, if_false, Val_dGeomID, Val_voidptr, List.append_assoc, List.singleton_append,
    List.length_append, List.length_singleton]

theorem contact_handles_cons (c : dContactGeom) (cs : List dContactGeom) :
    contact_handles (c :: cs)
      = [Custom.voidptr c.g1, Custom.voidptr c.g2] ++ contact_handles cs := by
  simp [contact_handles, List.flatMap_cons]

theorem copy_contacts_ok
    (copy : Heap → dContactGeom → Except (Fault × Heap) (Heap × hvalue))
    (hcopy : ∀ heap c, c.g1 ≠ 0 → c.g2 ≠ 0 →
      ∃ cv, copy heap c = Except.ok (heap ++ [Custom.voidptr c.g1, Custom.voidptr c.g2], cv))
    (cs : List dContactGeom) (hnull : ∀ c ∈ cs, c.g1 ≠ 0 ∧ c.g2 ≠ 0) (heap : Heap) :
    ∃ cvs, copy_contacts copy heap cs = Except.ok (heap ++ contact_handles cs, cvs)
      ∧ cvs.length = cs.length
      ∧ ∀ i c, cs[i]? = some c →
          ∃ cv, cvs[i]? = some cv
            ∧ copy (heap ++ contact_handles (cs.take i)) c
              = Except.ok (heap ++ contact_handles (cs.take (i + 1)), cv) := by
  induction cs generalizing heap with
  | nil =>
      refine ⟨[], ?_, rfl, ?_⟩
      · simp [copy_contacts, contact_handles]
      · intro i c hi
        simp at hi
  | cons c cs ih =>
      have hc := hnull c (List.mem_cons_self _ _)
      obtain ⟨cv, hcv⟩ := hcopy heap c hc.1 hc.2
      obtain ⟨cvs, hcvs, hlen, hall⟩ :=
        ih (fun x hx => hnull x (List.mem_cons_of_mem _ hx))
          (heap ++ [Custom.voidptr c.g1, Custom.voidptr c.g2])
      refine ⟨cv :: cvs, ?_, by simp [hlen], ?_⟩
      · simp only [copy_contacts, hcv, hcvs, contact_handles_cons, List.append_assoc]
      · intro i x hi
        cases i with
        | zero =>
            simp only [List.getElem?_cons_zero, Option.some.injEq] at hi
            subst hi
            refine ⟨cv, List.getElem?_cons_zero, ?_⟩
            simpa [contact_handles, List.flatMap_cons] using hcv
        | succ i =>
            simp only [List.getElem?_cons_succ] at hi
            obtain ⟨cv1, h1, h2⟩ := hall i x hi
            refine ⟨cv1, by simpa using h1, ?_⟩
            simpa only [List.take_succ_cons, contact_handles_cons, List.append_assoc] using h2

theorem flags_eq (max : Int) (h0 : 0 ≤ max) (h1 : max < 2 ^ 31) :
    (wrap_signed 32 max % 2 ^ 32).toNat &&& 0xffff = (max % 65536).toNat := by
  rw [wrap_signed_32_id max (by omega) h1]
  have e : (0xffff : Nat) = 2 ^ 16 - 1 := by norm_num
  rw [e, Nat.and_pow_two_sub_one_eq_mod]
  norm_num at h1 ⊢
  omega

theorem dCollide_body_ok
    (copy : Heap → dContactGeom → Except (Fault × Heap) (Heap × hvalue))
    (hcopy : ∀ heap c, c.g1 ≠ 0 → c.g2 ≠ 0 →
      ∃ cv, copy heap c = Except.ok (heap ++ [Custom.voidptr c.g1, Custom.voidptr c.g2], cv))
    (s : State) (geom1v geom2v : hvalue) (g1 g2 : Nat) (max n : Int)
    (contacts : List dContactGeom)
    (h1 : unwrap_val dGeomID_val s.heap geom1v = some g1)
    (h2 : unwrap_val dGeomID_val s.heap geom2v = some g2)
    (hmax0 : 0 ≤ max) (hmax : max < 2 ^ 31) (hn0 : 0 ≤ n) (hn : n ≤ max)
    (hlen : n.toNat ≤ contacts.length)
    (hnull : ∀ c ∈ contacts.take n.toNat, c.g1 ≠ 0 ∧ c.g2 ≠ 0) :
    ∃ cvs, dCollide_body copy s geom1v geom2v (hvalue.long max) n contacts
        = some (Except.ok
            (⟨s.heap ++ contact_handles (contacts.take n.toNat),
              s.calls ++ [ForeignCall.call "dCollide"
                [Arg.ptr g1, Arg.ptr g2, Arg.uint (max % 65536).toNat, Arg.buffer max.toNat,
                 Arg.sizeof "dContactGeom"]]⟩,
             hvalue.block 0 cvs))
      ∧ cvs.length = n.toNat
      ∧ ∀ i c, (contacts.take n.toNat)[i]? = some c →
          ∃ cv, cvs[i]? = some cv
            ∧ copy (s.heap ++ contact_handles ((contacts.take n.toNat).take i)) c
              = Except.ok
                  (s.heap ++ contact_handles ((contacts.take n.toNat).take (i + 1)), cv) := by
  obtain ⟨cvs, hcvs, hl, hall⟩ :=
    copy_contacts_ok copy hcopy (contacts.take n.toNat) hnull s.heap
  refine ⟨cvs, ?_, ?_, hall⟩
  · have hw : wrap_signed 32 max = max := wrap_signed_32_id max (by omega) hmax
    have hf := flags_eq max hmax0 hmax
    rw [hw] at hf
    have c1 : ¬ (max < 0) := by omega
    have c2 : ¬ (n < 0 ∨ max < n ∨ contacts.length < n.toNat) := by omega
    simp only [dCollide_body, h1, h2, Int_val, Long_val, Option.map_some', Option.some_bind, hw,
      hf, c1, c2, if_false, State.foreign, hcvs]
  · rw [hl, List.length_take]
    omega

/-- C30 (as stated, refuted): on a 64-bit host, for the requested maximum
`2^32 + 5` the foreign collide function receives a contact buffer of 5
entries (and the flags value 5), not one of `2^32 + 5` entries: `max` is
converted to `int` first. -/
theorem C30_counterexample :
    (ocamlode_dCollide Precision.dDOUBLE threeHandleState (hvalue.custom 0) (hvalue.custom 1)
        (hvalue.long 4294967301) 0 []).map
      (fun r => match r with
        | Except.ok x => some x.1.calls
        | Except.error _ => none)
      = some (some [ForeignCall.call "dCollide"
          [Arg.ptr 4096, Arg.ptr 8192, Arg.uint 5, Arg.buffer 5, Arg.sizeof "dContactGeom"]]) := by
  decide

/-- C30 (amended): for every requested maximum `max` with `0 ≤ max < 2^31`
(the values that C's `int` holds), `ocamlode_dCollide` passes to the foreign
collide function the flags value `max mod 65536` together with a contact
buffer of `max` entries, and, when the count `n` that the foreign function
reports is between 0 and `max` and the first `n` contacts have geometries
that are not null, returns a host array whose length is `n` and whose `i`-th
element is `copy_dContactGeom` of the `i`-th contact, each call adding its two
handles to the heap; for `0 ≤ max < 65536` the flags value equals `max`.  The
same holds of the first-generation `ocamlode_dCollide` with its
`copy_dContactGeom`.  (A larger `max` is first converted to `int`.) -/
theorem C30_collide (P : Precision) (s : State) (geom1v geom2v : hvalue) (g1 g2 : Nat)
    (max n : Int) (contacts : List dContactGeom)
    (h1 : unwrap_val dGeomID_val s.heap geom1v = some g1)
    (h2 : unwrap_val dGeomID_val s.heap geom2v = some g2)
    (hmax0 : 0 ≤ max) (hmax : max < 2 ^ 31) (hn0 : 0 ≤ n) (hn : n ≤ max)
    (hlen : n.toNat ≤ contacts.length)
    (hnull : ∀ c ∈ contacts.take n.toNat, c.g1 ≠ 0 ∧ c.g2 ≠ 0) :
    (∃ cvs, ocamlode_dCollide P s geom1v geom2v (hvalue.long max) n contacts
        = some (Except.ok
            (⟨s.heap ++ contact_handles (contacts.take n.toNat),
              s.calls ++ [ForeignCall.call "dCollide"
                [Arg.ptr g1, Arg.ptr g2, Arg.uint (max % 65536).toNat, Arg.buffer max.toNat,
                 Arg.sizeof "dContactGeom"]]⟩,
             hvalue.block 0 cvs))
      ∧ cvs.length = n.toNat
      ∧ ∀ i c, (contacts.take n.toNat)[i]? = some c →
          ∃ cv, cvs[i]? = some cv
            ∧ copy_dContactGeom P
                (s.heap ++ contact_handles ((contacts.take n.toNat).take i)) c
              = Except.ok
                  (s.heap ++ contact_handles ((contacts.take n.toNat).take (i + 1)), cv))
    ∧ (∃ cvs, Gen1.ocamlode_dCollide s geom1v geom2v (hvalue.long max) n contacts
        = some (Except.ok
            (⟨s.heap ++ contact_handles (contacts.take n.toNat),
              s.calls ++ [ForeignCall.call "dCollide"
                [Arg.ptr g1, Arg.ptr g2, Arg.uint (max % 65536).toNat, Arg.buffer max.toNat,
                 Arg.sizeof "dContactGeom"]]⟩,
             hvalue.block 0 cvs))
      ∧ cvs.length = n.toNat
      ∧ ∀ i c, (contacts.take n.toNat)[i]? = some c →
          ∃ cv, cvs[i]? = some cv
            ∧ Gen1.copy_dContactGeom
                (s.heap ++ contact_handles ((contacts.take n.toNat).take i)) c
              = Except.ok
                  (s.heap ++ contact_handles ((contacts.take n.toNat).take (i + 1)), cv))
    ∧ (max < 65536 → (max % 65536).toNat = max.toNat) := by
  refine ⟨?_, ?_, ?_⟩
  · exact dCollide_body_ok (copy_dContactGeom P)
      (fun heap c hc1 hc2 => ⟨_, copy_dContactGeom_ok P heap c hc1 hc2⟩)
      s geom1v geom2v g1 g2 max n contacts h1 h2 hmax0 hmax hn0 hn hlen hnull
  · exact dCollide_body_ok Gen1.copy_dContactGeom
      (fun heap c hc1 hc2 => ⟨_, Gen1_copy_dContactGeom_ok heap c hc1 hc2⟩)
      s geom1v geom2v g1 g2 max n contacts h1 h2 hmax0 hmax hn0 hn hlen hnull
  · intro h
    rw [Int.emod_eq_of_lt hmax0 h]

/-- C30 witness: the geometries at 4096 and 8192, a maximum of 70000 and one
contact reported. -/
theorem C30_collide_witness :
    unwrap_val dGeomID_val threeHandleState.heap (hvalue.custom 0) = some 4096
    ∧ unwrap_val dGeomID_val threeHandleState.heap (hvalue.custom 1) = some 8192
    ∧ (0 : Int) ≤ 70000 ∧ (70000 : Int) < 2 ^ 31 ∧ (0 : Int) ≤ 1 ∧ (1 : Int) ≤ 70000
    ∧ (1 : Int).toNat ≤ [doubleContactGeom].length
    ∧ (∀ c ∈ [doubleContactGeom].take (1 : Int).toNat, c.g1 ≠ 0 ∧ c.g2 ≠ 0)
    ∧ ∃ cvs, ocamlode_dCollide Precision.dDOUBLE threeHandleState (hvalue.custom 0)
          (hvalue.custom 1) (hvalue.long 70000) 1 [doubleContactGeom]
        = some (Except.ok
            (⟨threeHandleState.heap
                ++ contact_handles ([doubleContactGeom].take (1 : Int).toNat),
              threeHandleState.calls ++ [ForeignCall.call "dCollide"
                [Arg.ptr 4096, Arg.ptr 8192, Arg.uint ((70000 : Int) % 65536).toNat,
                 Arg.buffer (70000 : Int).toNat, Arg.sizeof "dContactGeom"]]⟩,
             hvalue.block 0 cvs))
        ∧ cvs.length = (1 : Int).toNat :=
  have h := C30_collide Precision.dDOUBLE threeHandleState (hvalue.custom 0) (hvalue.custom 1)
    4096 8192 70000 1 [doubleContactGeom] (by decide) (by decide) (by decide) (by decide)
    (by decide) (by decide) (by decide) (by decide)
  ⟨by decide, by decide, by decide, by decide, by decide, by decide, by decide, by decide,
   h.1.elim fun cvs hc => ⟨cvs, hc.1, hc.2.1⟩⟩

end OCamlODE
